import Mathlib

/-!
Shallow embedding of the payment-instruction parser and transaction processor
from `src/endpoints/payment-instruction/process.js` (the service half of the
file, exported as `parsePaymentInstruction`).

Strings are modelled as Lean `String` / `List Char`, JS numbers as `Int`
(balances are integers per the spec and the validation schema), JS `null`
as `Option.none`.  JS `parseInt` returning `NaN` is modelled as `none`
(in the JSON response `NaN` serializes as `null`).  Keyword search and
case conversion are ASCII, which covers every string the program compares.
-/

namespace Payment

/-- JS whitespace as relevant to `String.prototype.trim` (ASCII part). -/
def isJsSpace (c : Char) : Bool :=
  c = ' ' || c = '\t' || c = '\n' || c = '\r' || c = '\x0b' || c = '\x0c'

/-- Lower-case every character (ASCII), as `toLowerCase` does on the program's data. -/
def lowerList (l : List Char) : List Char := l.map Char.toLower

/-- Upper-case every character (ASCII), as `toUpperCase` does on the program's data. -/
def upperList (l : List Char) : List Char := l.map Char.toUpper

/-- `s.toUpperCase()` on a Lean `String`. -/
def upperStr (s : String) : String := String.mk (upperList s.data)

/-- `s.trim()`: drop whitespace from both ends. -/
def trimList (l : List Char) : List Char :=
  ((l.dropWhile isJsSpace).reverse.dropWhile isJsSpace).reverse

/-- Scan for the first occurrence of `pat` in the list, reporting its
index offset by `i`.  Helper for `jsIndexOf`. -/
def scanFor (pat : List Char) : List Char → Nat → Option Nat
  | [], i => if pat.isEmpty then some i else none
  | c :: rest, i =>
    if pat.isPrefixOf (c :: rest) then some i else scanFor pat rest (i + 1)

/-- `hay.indexOf(pat, start)`; `none` models the JS result `-1`. -/
def jsIndexOf (hay pat : List Char) (start : Nat) : Option Nat :=
  (scanFor pat (hay.drop start) 0).map (fun j => j + start)

/-- `findKeywordIndex` from the source: case-insensitive `indexOf`. -/
def findKeywordIndex (instruction keyword : List Char) (startFrom : Nat) : Option Nat :=
  jsIndexOf (lowerList instruction) (lowerList keyword) startFrom

/-- `s.substring(a, b)` (clamping and argument-swapping JS semantics). -/
def jsSubstring (l : List Char) (a b : Nat) : List Char :=
  (l.take (max a b)).drop (min a b)

/-- `extractBetween` from the source: substring between two positions,
trimmed; `none` for the end position models the `-1` = end-of-string case. -/
def extractBetween (l : List Char) (startPos : Nat) (endPos : Option Nat) : List Char :=
  match endPos with
  | none => trimList (l.drop startPos)
  | some e => trimList (jsSubstring l startPos e)

/-- `s.split(sep)` for a single-character separator (JS `split(' ')` and
`split('-')` split on the exact character only). -/
def splitChar (sep : Char) : List Char → List (List Char)
  | [] => [[]]
  | c :: rest =>
    match splitChar sep rest with
    | [] => [[]]
    | h :: t => if c = sep then [] :: h :: t else (c :: h) :: t

/-- Decimal digit test, written as the source writes it (`c >= '0' && c <= '9'`). -/
def isDigitChar (c : Char) : Bool := '0' ≤ c && c ≤ '9'

/-- Numeric value of a digit list (most significant first). -/
def decValue (ds : List Char) : Nat :=
  ds.foldl (fun acc c => acc * 10 + (c.toNat - 48)) 0

/-- JS `parseInt(s, 10)`: skip leading whitespace, optional sign, then the
longest digit run; no digits gives `NaN`, modelled as `none`. -/
def jsParseInt (s : String) : Option Int :=
  match s.data.dropWhile isJsSpace with
  | '-' :: rest =>
    let ds := rest.takeWhile isDigitChar
    if ds.isEmpty then none else some (-(decValue ds : Int))
  | '+' :: rest =>
    let ds := rest.takeWhile isDigitChar
    if ds.isEmpty then none else some ((decValue ds : Int))
  | l =>
    let ds := l.takeWhile isDigitChar
    if ds.isEmpty then none else some ((decValue ds : Int))

/-- Characters allowed in an account id by `isValidAccountId`. -/
def isValidAccountChar (c : Char) : Bool :=
  ('a' ≤ c && c ≤ 'z') || ('A' ≤ c && c ≤ 'Z') || ('0' ≤ c && c ≤ '9') ||
    c = '-' || c = '.' || c = '@'

/-- `isValidAccountId` from the source: only allowed characters, nonempty. -/
def isValidAccountId (accountId : String) : Bool :=
  accountId.data.all isValidAccountChar && accountId.data.length > 0

/-- `isPositiveInteger` from the source: nonempty, no `.` or `-`, all digits,
and `parseInt` of it strictly positive. -/
def isPositiveInteger (amountStr : String) : Bool :=
  if amountStr.data.length = 0 then false
  else if amountStr.data.contains '.' || amountStr.data.contains '-' then false
  else if !(amountStr.data.all isDigitChar) then false
  else
    match jsParseInt amountStr with
    | some n => decide (0 < n)
    | none => false

/-- Gregorian leap-year rule (as implemented by JS `Date`). -/
def isLeapYear (y : Int) : Bool :=
  (y % 4 = 0 && y % 100 ≠ 0) || y % 400 = 0

/-- Length of a month, 1-based month number. -/
def daysInMonth (y m : Int) : Int :=
  if m = 2 then (if isLeapYear y then 29 else 28)
  else if m = 4 ∨ m = 6 ∨ m = 9 ∨ m = 11 then 30
  else 31

/-- `isValidDate` from the source: length 10, dashes at positions 4 and 7,
numeric segments, month in 1..12, day in 1..31, year ≥ 1000, and the
`Date.UTC` round-trip check.  For month and day already confined to those
ranges and year ≥ 1000, the round-trip (`getUTCFullYear/Month/Date`
reproduce the parsed numbers) holds exactly when the day does not exceed
the month's length, which is how the final conjunct is rendered here. -/
def isValidDate (dateStr : String) : Bool :=
  let l := dateStr.data
  if l.length ≠ 10 then false
  else if !(l[4]? = some '-' && l[7]? = some '-' : Bool) then false
  else
    let year := l.take 4
    let month := (l.drop 5).take 2
    let day := (l.drop 8).take 2
    if !(year.all isDigitChar && month.all isDigitChar && day.all isDigitChar) then false
    else
      let yearNum : Int := (jsParseInt (String.mk year)).getD 0
      let monthNum : Int := (jsParseInt (String.mk month)).getD 0
      let dayNum : Int := (jsParseInt (String.mk day)).getD 0
      if monthNum < 1 ∨ 12 < monthNum then false
      else if dayNum < 1 ∨ 31 < dayNum then false
      else if yearNum < 1000 then false
      else decide (dayNum ≤ daysInMonth yearNum monthNum)

/-- Days since the Unix epoch of a civil date (standard days-from-civil
computation; `d` may be out of range, the result is linear in it, matching
JS `Date` day overflow). -/
def daysFromCivil (y m d : Int) : Int :=
  let y1 := y - (if m ≤ 2 then 1 else 0)
  let era := Int.fdiv y1 400
  let yoe := y1 - era * 400
  let mp := Int.emod (m + 9) 12
  let doy := (153 * mp + 2) / 5 + d - 1
  let doe := yoe * 365 + yoe / 4 - yoe / 100 + doy
  era * 146097 + doe - 719468

/-- `Date.UTC(y, mIdx, d)` reduced to a day count: the two-digit-year
adjustment and month-index normalization of JS, then days-from-civil.
(The UTC timestamp is this value times 86400000; only the order and
equality of timestamps matter to the program.) -/
def utcDays (y mIdx d : Int) : Int :=
  let yAdj := if 0 ≤ y ∧ y ≤ 99 then y + 1900 else y
  let y2 := yAdj + Int.fdiv mIdx 12
  let m := Int.emod mIdx 12 + 1
  daysFromCivil y2 m d

/-- `compareDateWithToday` from the source, with the current UTC calendar
day supplied as a day count `todayN` (the source reads it from the system
clock via `new Date()`).  A date whose parts do not all parse compares as
`NaN` in JS, for which both comparisons are false, giving `"future"`. -/
def compareDateWithToday (todayN : Int) (dateStr : String) : String :=
  let parts := splitChar '-' dateStr.data
  match (parts.get? 0).bind (fun x => jsParseInt (String.mk x)),
        (parts.get? 1).bind (fun x => jsParseInt (String.mk x)),
        (parts.get? 2).bind (fun x => jsParseInt (String.mk x)) with
  | some y, some mo, some d =>
    let t := utcDays y (mo - 1) d
    if t < todayN then "past" else if t = todayN then "today" else "future"
  | _, _, _ => "future"

/-- Result of `parseInstruction`: the structured transfer request. -/
structure ParsedInstruction where
  type : String
  amount : String
  currency : String
  debitAccount : String
  creditAccount : String
  executeBy : Option String
deriving DecidableEq, Repr

/-- The `executeBy: executeBy || null` coercion at the end of
`parseInstruction`: an unset or empty-string date becomes `null`. -/
def mkExecuteBy (e : Option (List Char)) : Option String :=
  match e with
  | some x => if x.isEmpty then none else some (String.mk x)
  | none => none

/-- `parseInstruction` from the source: keyword-anchored extraction over the
trimmed instruction, returning `none` where the source returns `null`.
The source's `try`/`catch` cannot fire in this pure rendering (none of the
string operations throw); the `catch` branch also returns `null`. -/
def parseInstruction (instruction : String) : Option ParsedInstruction :=
  let t := trimList instruction.data
  let startsWithDebit := findKeywordIndex t "DEBIT".data 0 = some 0
  let startsWithCredit := findKeywordIndex t "CREDIT".data 0 = some 0
  if ¬ startsWithDebit ∧ ¬ startsWithCredit then none
  else if startsWithDebit then
    match findKeywordIndex t "FROM".data 5 with
    | none => none
    | some fromIndex =>
      match (splitChar ' ' (extractBetween t 5 (some fromIndex))).filter
          (fun tok => tok.length > 0) with
      | amountTok :: currencyTok :: _ =>
        match findKeywordIndex t "ACCOUNT".data fromIndex with
        | none => none
        | some accountAfterFrom =>
          match findKeywordIndex t "FOR".data (accountAfterFrom + 7) with
          | none => none
          | some forIndex =>
            match findKeywordIndex t "CREDIT".data forIndex with
            | none => none
            | some creditIndex =>
              match findKeywordIndex t "TO".data (creditIndex + 6) with
              | none => none
              | some toIndex =>
                match findKeywordIndex t "ACCOUNT".data toIndex with
                | none => none
                | some accountAfterTo =>
                  match findKeywordIndex t "ON".data (accountAfterTo + 7) with
                  | some onIndex =>
                    some { type := "DEBIT"
                           amount := String.mk amountTok
                           currency := String.mk (upperList currencyTok)
                           debitAccount :=
                             String.mk (trimList (extractBetween t (accountAfterFrom + 7) (some forIndex)))
                           creditAccount :=
                             String.mk (trimList (extractBetween t (accountAfterTo + 7) (some onIndex)))
                           executeBy :=
                             mkExecuteBy (some (trimList (extractBetween t (onIndex + 2) none))) }
                  | none =>
                    some { type := "DEBIT"
                           amount := String.mk amountTok
                           currency := String.mk (upperList currencyTok)
                           debitAccount :=
                             String.mk (trimList (extractBetween t (accountAfterFrom + 7) (some forIndex)))
                           creditAccount :=
                             String.mk (trimList (extractBetween t (accountAfterTo + 7) none))
                           executeBy := mkExecuteBy none }
      | _ => none
  else
    match findKeywordIndex t "TO".data 6 with
    | none => none
    | some toIndex =>
      match (splitChar ' ' (extractBetween t 6 (some toIndex))).filter
          (fun tok => tok.length > 0) with
      | amountTok :: currencyTok :: _ =>
        match findKeywordIndex t "ACCOUNT".data toIndex with
        | none => none
        | some accountAfterTo =>
          match findKeywordIndex t "FOR".data (accountAfterTo + 7) with
          | none => none
          | some forIndex =>
            match findKeywordIndex t "DEBIT".data forIndex with
            | none => none
            | some debitIndex =>
              match findKeywordIndex t "FROM".data (debitIndex + 5) with
              | none => none
              | some fromIndex =>
                match findKeywordIndex t "ACCOUNT".data fromIndex with
                | none => none
                | some accountAfterFrom =>
                  match findKeywordIndex t "ON".data (accountAfterFrom + 7) with
                  | some onIndex =>
                    some { type := "CREDIT"
                           amount := String.mk amountTok
                           currency := String.mk (upperList currencyTok)
                           debitAccount :=
                             String.mk (trimList (extractBetween t (accountAfterFrom + 7) (some onIndex)))
                           creditAccount :=
                             String.mk (trimList (extractBetween t (accountAfterTo + 7) (some forIndex)))
                           executeBy :=
                             mkExecuteBy (some (trimList (extractBetween t (onIndex + 2) none))) }
                  | none =>
                    some { type := "CREDIT"
                           amount := String.mk amountTok
                           currency := String.mk (upperList currencyTok)
                           debitAccount :=
                             String.mk (trimList (extractBetween t (accountAfterFrom + 7) none))
                           creditAccount :=
                             String.mk (trimList (extractBetween t (accountAfterTo + 7) (some forIndex)))
                           executeBy := mkExecuteBy none }
      | _ => none

/-- Caller-supplied account, per the validated input schema. -/
structure Account where
  id : String
  balance : Int
  currency : String
deriving DecidableEq, Repr

/-- Account view included in the response. -/
structure AccountSnapshot where
  id : String
  balance : Int
  balance_before : Int
  currency : String
deriving DecidableEq, Repr

/-- The terminal value produced by the processor. -/
structure TransactionResult where
  type : Option String
  amount : Option Int
  currency : Option String
  debit_account : Option String
  credit_account : Option String
  execute_by : Option String
  status : String
  status_reason : String
  status_code : String
  accounts : List AccountSnapshot
deriving DecidableEq, Repr

/-- `SUPPORTED_CURRENCIES` from the source. -/
def SUPPORTED_CURRENCIES : List String := ["NGN", "USD", "GBP", "GHS"]

/- Modelled from the spec: the `PaymentMessages` module (`@app/messages`) is
not under `src/`; the text of these human-readable reasons follows the spec
and README wording.  Only their non-emptiness is relied on below. -/

/-- Modelled from the spec: message for an unparseable instruction. -/
def MALFORMED_INSTRUCTION : String := "Malformed instruction"

/-- Modelled from the spec: message for a non-positive-integer amount. -/
def INVALID_AMOUNT : String := "Amount must be a positive integer"

/-- Modelled from the spec: message for a malformed account id. -/
def INVALID_ACCOUNT_ID : String := "Invalid account ID format"

/-- Modelled from the spec: message for a malformed or invalid date. -/
def INVALID_DATE_FORMAT : String := "Invalid date format"

/-- Modelled from the spec: message for an unsupported currency. -/
def UNSUPPORTED_CURRENCY : String := "Unsupported currency"

/-- Modelled from the spec: message for identical debit and credit accounts. -/
def SAME_ACCOUNT_ERROR : String := "Debit and credit accounts cannot be the same"

/-- Modelled from the spec: message for a missing account. -/
def ACCOUNT_NOT_FOUND : String := "Account not found"

/-- Modelled from the spec: message for a currency mismatch. -/
def CURRENCY_MISMATCH : String := "Currency mismatch"

/-- Modelled from the spec: message for insufficient funds. -/
def INSUFFICIENT_FUNDS : String := "Insufficient funds"

/-- Modelled from the spec: message for an executed transaction. -/
def TRANSACTION_SUCCESSFUL : String := "Transaction executed successfully"

/-- Modelled from the spec: message for a deferred transaction. -/
def TRANSACTION_PENDING : String := "Transaction scheduled for future execution"

/-- JS truthiness of the parsed `executeBy` (`null` and `""` are falsy). -/
def execByPresent (p : ParsedInstruction) : Bool :=
  match p.executeBy with
  | some e => e != ""
  | none => false

/-- The string value of `executeBy` where the source uses it (guarded by
truthiness, so the `""` default is never consulted). -/
def execByStr (p : ParsedInstruction) : String := p.executeBy.getD ""

/-- The `accountsWithOriginalBalances` mapping repeated in the source's
early-failure branches: every input account echoed with both balances equal
and the currency upper-cased. -/
def snapshotAll (accounts : List Account) : List AccountSnapshot :=
  accounts.map (fun acc =>
    { id := acc.id, balance := acc.balance, balance_before := acc.balance
      currency := upperStr acc.currency })

/-- The `transactionAccounts` loop of the later failure branches: input
accounts filtered to the two parties, in input order, balances unchanged. -/
def snapshotParties (accounts : List Account) (debitAccount creditAccount : String) :
    List AccountSnapshot :=
  accounts.filterMap (fun acc =>
    if acc.id = debitAccount ∨ acc.id = creditAccount then
      some { id := acc.id, balance := acc.balance, balance_before := acc.balance
             currency := upperStr acc.currency }
    else none)

/-- The `transactionAccounts` loop of the terminal branch: the two parties in
input order, carrying the computed balances and the found accounts' previous
balances. -/
def snapshotExecuted (accounts : List Account) (debitAccount creditAccount : String)
    (newDebitBalance newCreditBalance debitBefore creditBefore : Int) :
    List AccountSnapshot :=
  accounts.filterMap (fun acc =>
    if acc.id = debitAccount then
      some { id := acc.id, balance := newDebitBalance, balance_before := debitBefore
             currency := upperStr acc.currency }
    else if acc.id = creditAccount then
      some { id := acc.id, balance := newCreditBalance, balance_before := creditBefore
             currency := upperStr acc.currency }
    else none)

/-- The failure-shaped `response` object the source builds in every
validation branch (fields from the parsed instruction, status `failed`). -/
def failResult (p : ParsedInstruction) (amt : Option Int) (reason code : String)
    (snaps : List AccountSnapshot) : TransactionResult :=
  { type := some p.type, amount := amt, currency := some p.currency
    debit_account := some p.debitAccount, credit_account := some p.creditAccount
    execute_by := p.executeBy, status := "failed", status_reason := reason
    status_code := code, accounts := snaps }

/-- `const amountInt = parseInt(amount, 10)`, computed after
`isPositiveInteger` has accepted the amount (so `parseInt` cannot be `NaN`
there; the `0` default is never consulted on any reachable path). -/
def amountIntOf (p : ParsedInstruction) : Int := (jsParseInt p.amount).getD 0

/-- The `dateComparison === 'future'` test guarded by `executeBy`
truthiness, which decides between immediate execution and pending. -/
def isFutureB (p : ParsedInstruction) (todayN : Int) : Bool :=
  execByPresent p && (compareDateWithToday todayN (execByStr p) == "future")

/-- The terminal (success or pending) `response` object the source builds
after every check has passed, given the two located accounts. -/
def executedResult (p : ParsedInstruction) (accounts : List Account) (todayN : Int)
    (debitObj creditObj : Account) : TransactionResult :=
  { type := some p.type
    amount := some (amountIntOf p)
    currency := some p.currency
    debit_account := some p.debitAccount
    credit_account := some p.creditAccount
    execute_by := p.executeBy
    status := if isFutureB p todayN then "pending" else "successful"
    status_reason := if isFutureB p todayN then TRANSACTION_PENDING else TRANSACTION_SUCCESSFUL
    status_code := if isFutureB p todayN then "AP02" else "AP00"
    accounts :=
      snapshotExecuted accounts p.debitAccount p.creditAccount
        (if isFutureB p todayN then debitObj.balance else debitObj.balance - amountIntOf p)
        (if isFutureB p todayN then creditObj.balance else creditObj.balance + amountIntOf p)
        debitObj.balance creditObj.balance }

/-- The tail of the validation chain once both accounts have been located:
the two currency checks, the funds check, and the terminal state. -/
def resolvedStep (p : ParsedInstruction) (accounts : List Account) (todayN : Int)
    (debitObj creditObj : Account) : TransactionResult :=
  if upperStr debitObj.currency ≠ upperStr creditObj.currency then
    failResult p (some (amountIntOf p)) CURRENCY_MISMATCH "CU01"
      (snapshotParties accounts p.debitAccount p.creditAccount)
  else if p.currency ≠ upperStr debitObj.currency then
    failResult p (some (amountIntOf p)) CURRENCY_MISMATCH "CU01"
      (snapshotParties accounts p.debitAccount p.creditAccount)
  else if debitObj.balance < amountIntOf p then
    failResult p (some (amountIntOf p))
      (INSUFFICIENT_FUNDS ++ ": has " ++ toString debitObj.balance ++ " " ++
        p.currency ++ ", needs " ++ toString (amountIntOf p) ++ " " ++ p.currency)
      "AC01" (snapshotParties accounts p.debitAccount p.creditAccount)
  else
    executedResult p accounts todayN debitObj creditObj

/-- The validation chain and terminal state of `parsePaymentInstruction`,
starting after a successful parse, translated branch by branch from the
source.  `todayN` is the current UTC day count the source reads from the
system clock. -/
def processParsed (p : ParsedInstruction) (accounts : List Account) (todayN : Int) :
    TransactionResult :=
  if !(isPositiveInteger p.amount) then
    failResult p (if p.amount = "" then none else jsParseInt p.amount)
      INVALID_AMOUNT "AM01" (snapshotAll accounts)
  else if !(isValidAccountId p.debitAccount) then
    failResult p (some (amountIntOf p)) (INVALID_ACCOUNT_ID ++ ": " ++ p.debitAccount)
      "AC04" (snapshotAll accounts)
  else if !(isValidAccountId p.creditAccount) then
    failResult p (some (amountIntOf p)) (INVALID_ACCOUNT_ID ++ ": " ++ p.creditAccount)
      "AC04" (snapshotAll accounts)
  else if execByPresent p && !(isValidDate (execByStr p)) then
    failResult p (some (amountIntOf p)) INVALID_DATE_FORMAT "DT01" (snapshotAll accounts)
  else if !(SUPPORTED_CURRENCIES.contains p.currency) then
    failResult p (some (amountIntOf p))
      (UNSUPPORTED_CURRENCY ++ ". Only NGN, USD, GBP, and GHS are supported")
      "CU02" (snapshotAll accounts)
  else if p.debitAccount = p.creditAccount then
    failResult p (some (amountIntOf p)) SAME_ACCOUNT_ERROR "AC02" (snapshotAll accounts)
  else
    match accounts.find? (fun acc => acc.id = p.debitAccount),
          accounts.find? (fun acc => acc.id = p.creditAccount) with
    | none, _ =>
      failResult p (some (amountIntOf p)) (ACCOUNT_NOT_FOUND ++ ": " ++ p.debitAccount)
        "AC03" (snapshotAll accounts)
    | some _, none =>
      failResult p (some (amountIntOf p)) (ACCOUNT_NOT_FOUND ++ ": " ++ p.creditAccount)
        "AC03" (snapshotAll accounts)
    | some debitObj, some creditObj =>
      resolvedStep p accounts todayN debitObj creditObj

/-- The `SY03` response the source builds when `parseInstruction` returns
`null`. -/
def unparseableResult : TransactionResult :=
  { type := none, amount := none, currency := none, debit_account := none
    credit_account := none, execute_by := none, status := "failed"
    status_reason := MALFORMED_INSTRUCTION ++ ": unable to parse keywords"
    status_code := "SY03", accounts := [] }

/-- `parsePaymentInstruction` from the source (after the input-shape
validation handled by the calling layer): parse, then run the validation
chain; an unparseable instruction is the `SY03` terminal state. -/
def parsePaymentInstruction (accounts : List Account) (instruction : String)
    (todayN : Int) : TransactionResult :=
  match parseInstruction instruction with
  | none => unparseableResult
  | some parsed => processParsed parsed accounts todayN

/-! ## Helper lemmas -/

theorem append_ne_empty (s t : String) (h : s.data ≠ []) : s ++ t ≠ "" := by
  intro he
  have hd := congrArg String.data he
  rw [String.data_append] at hd
  exact h (List.append_eq_nil.mp hd).1

@[simp] theorem failResult_status (p : ParsedInstruction) (amt : Option Int)
    (reason code : String) (snaps : List AccountSnapshot) :
    (failResult p amt reason code snaps).status = "failed" := rfl

@[simp] theorem failResult_status_code (p : ParsedInstruction) (amt : Option Int)
    (reason code : String) (snaps : List AccountSnapshot) :
    (failResult p amt reason code snaps).status_code = code := rfl

@[simp] theorem failResult_status_reason (p : ParsedInstruction) (amt : Option Int)
    (reason code : String) (snaps : List AccountSnapshot) :
    (failResult p amt reason code snaps).status_reason = reason := rfl

@[simp] theorem failResult_accounts (p : ParsedInstruction) (amt : Option Int)
    (reason code : String) (snaps : List AccountSnapshot) :
    (failResult p amt reason code snaps).accounts = snaps := rfl

@[simp] theorem failResult_amount (p : ParsedInstruction) (amt : Option Int)
    (reason code : String) (snaps : List AccountSnapshot) :
    (failResult p amt reason code snaps).amount = amt := rfl

@[simp] theorem executedResult_amount (p : ParsedInstruction) (accounts : List Account)
    (todayN : Int) (debitObj creditObj : Account) :
    (executedResult p accounts todayN debitObj creditObj).amount = some (amountIntOf p) := rfl

@[simp] theorem executedResult_status (p : ParsedInstruction) (accounts : List Account)
    (todayN : Int) (debitObj creditObj : Account) :
    (executedResult p accounts todayN debitObj creditObj).status =
      if isFutureB p todayN then "pending" else "successful" := rfl

@[simp] theorem executedResult_status_code (p : ParsedInstruction) (accounts : List Account)
    (todayN : Int) (debitObj creditObj : Account) :
    (executedResult p accounts todayN debitObj creditObj).status_code =
      if isFutureB p todayN then "AP02" else "AP00" := rfl

@[simp] theorem executedResult_accounts (p : ParsedInstruction) (accounts : List Account)
    (todayN : Int) (debitObj creditObj : Account) :
    (executedResult p accounts todayN debitObj creditObj).accounts =
      snapshotExecuted accounts p.debitAccount p.creditAccount
        (if isFutureB p todayN then debitObj.balance else debitObj.balance - amountIntOf p)
        (if isFutureB p todayN then creditObj.balance else creditObj.balance + amountIntOf p)
        debitObj.balance creditObj.balance := rfl

/-- If `isPositiveInteger` accepts a string, `parseInt` of it is a strictly
positive integer. -/
theorem isPositiveInteger_parse (s : String) (h : isPositiveInteger s = true) :
    ∃ n : Int, jsParseInt s = some n ∧ 0 < n := by
  unfold isPositiveInteger at h
  split at h
  · exact absurd h Bool.false_ne_true
  · split at h
    · exact absurd h Bool.false_ne_true
    · split at h
      · exact absurd h Bool.false_ne_true
      · revert h
        cases hj : jsParseInt s with
        | none => intro h; exact absurd h Bool.false_ne_true
        | some n => intro h; exact ⟨n, rfl, of_decide_eq_true h⟩

theorem append_data_ne (s t : String) (h : s.data ≠ []) : (s ++ t).data ≠ [] := by
  rw [String.data_append]
  intro he
  exact h (List.append_eq_nil.mp he).1

theorem parsePaymentInstruction_of_none {instruction : String}
    (hp : parseInstruction instruction = none) (accounts : List Account) (todayN : Int) :
    parsePaymentInstruction accounts instruction todayN = unparseableResult := by
  unfold parsePaymentInstruction
  rw [hp]

theorem parsePaymentInstruction_of_some {instruction : String} {p : ParsedInstruction}
    (hp : parseInstruction instruction = some p) (accounts : List Account) (todayN : Int) :
    parsePaymentInstruction accounts instruction todayN = processParsed p accounts todayN := by
  unfold parsePaymentInstruction
  rw [hp]

/-- Branch-by-branch eliminator for `processParsed`: to prove a property of
the result it suffices to prove it for each of the twelve terminal shapes,
under the branch conditions that lead there. -/
theorem processParsed_elim (p : ParsedInstruction) (accounts : List Account) (todayN : Int)
    {motive : TransactionResult → Prop}
    (hAM01 : isPositiveInteger p.amount = false →
      motive (failResult p (if p.amount = "" then none else jsParseInt p.amount)
        INVALID_AMOUNT "AM01" (snapshotAll accounts)))
    (hDAC04 : isPositiveInteger p.amount = true →
      isValidAccountId p.debitAccount = false →
      motive (failResult p (some (amountIntOf p))
        (INVALID_ACCOUNT_ID ++ ": " ++ p.debitAccount) "AC04" (snapshotAll accounts)))
    (hCAC04 : isPositiveInteger p.amount = true →
      isValidAccountId p.debitAccount = true →
      isValidAccountId p.creditAccount = false →
      motive (failResult p (some (amountIntOf p))
        (INVALID_ACCOUNT_ID ++ ": " ++ p.creditAccount) "AC04" (snapshotAll accounts)))
    (hDT01 : isPositiveInteger p.amount = true →
      isValidAccountId p.debitAccount = true →
      isValidAccountId p.creditAccount = true →
      (execByPresent p && !(isValidDate (execByStr p))) = true →
      motive (failResult p (some (amountIntOf p)) INVALID_DATE_FORMAT "DT01"
        (snapshotAll accounts)))
    (hCU02 : isPositiveInteger p.amount = true →
      isValidAccountId p.debitAccount = true →
      isValidAccountId p.creditAccount = true →
      (execByPresent p && !(isValidDate (execByStr p))) = false →
      SUPPORTED_CURRENCIES.contains p.currency = false →
      motive (failResult p (some (amountIntOf p))
        (UNSUPPORTED_CURRENCY ++ ". Only NGN, USD, GBP, and GHS are supported")
        "CU02" (snapshotAll accounts)))
    (hAC02 : isPositiveInteger p.amount = true →
      isValidAccountId p.debitAccount = true →
      isValidAccountId p.creditAccount = true →
      (execByPresent p && !(isValidDate (execByStr p))) = false →
      SUPPORTED_CURRENCIES.contains p.currency = true →
      p.debitAccount = p.creditAccount →
      motive (failResult p (some (amountIntOf p)) SAME_ACCOUNT_ERROR "AC02"
        (snapshotAll accounts)))
    (hDAC03 : isPositiveInteger p.amount = true →
      isValidAccountId p.debitAccount = true →
      isValidAccountId p.creditAccount = true →
      (execByPresent p && !(isValidDate (execByStr p))) = false →
      SUPPORTED_CURRENCIES.contains p.currency = true →
      p.debitAccount ≠ p.creditAccount →
      accounts.find? (fun acc => acc.id = p.debitAccount) = none →
      motive (failResult p (some (amountIntOf p))
        (ACCOUNT_NOT_FOUND ++ ": " ++ p.debitAccount) "AC03" (snapshotAll accounts)))
    (hCAC03 : ∀ debitObj : Account, isPositiveInteger p.amount = true →
      isValidAccountId p.debitAccount = true →
      isValidAccountId p.creditAccount = true →
      (execByPresent p && !(isValidDate (execByStr p))) = false →
      SUPPORTED_CURRENCIES.contains p.currency = true →
      p.debitAccount ≠ p.creditAccount →
      accounts.find? (fun acc => acc.id = p.debitAccount) = some debitObj →
      accounts.find? (fun acc => acc.id = p.creditAccount) = none →
      motive (failResult p (some (amountIntOf p))
        (ACCOUNT_NOT_FOUND ++ ": " ++ p.creditAccount) "AC03" (snapshotAll accounts)))
    (hCU01a : ∀ debitObj creditObj : Account, isPositiveInteger p.amount = true →
      isValidAccountId p.debitAccount = true →
      isValidAccountId p.creditAccount = true →
      (execByPresent p && !(isValidDate (execByStr p))) = false →
      SUPPORTED_CURRENCIES.contains p.currency = true →
      p.debitAccount ≠ p.creditAccount →
      accounts.find? (fun acc => acc.id = p.debitAccount) = some debitObj →
      accounts.find? (fun acc => acc.id = p.creditAccount) = some creditObj →
      upperStr debitObj.currency ≠ upperStr creditObj.currency →
      motive (failResult p (some (amountIntOf p)) CURRENCY_MISMATCH "CU01"
        (snapshotParties accounts p.debitAccount p.creditAccount)))
    (hCU01b : ∀ debitObj creditObj : Account, isPositiveInteger p.amount = true →
      isValidAccountId p.debitAccount = true →
      isValidAccountId p.creditAccount = true →
      (execByPresent p && !(isValidDate (execByStr p))) = false →
      SUPPORTED_CURRENCIES.contains p.currency = true →
      p.debitAccount ≠ p.creditAccount →
      accounts.find? (fun acc => acc.id = p.debitAccount) = some debitObj →
      accounts.find? (fun acc => acc.id = p.creditAccount) = some creditObj →
      upperStr debitObj.currency = upperStr creditObj.currency →
      p.currency ≠ upperStr debitObj.currency →
      motive (failResult p (some (amountIntOf p)) CURRENCY_MISMATCH "CU01"
        (snapshotParties accounts p.debitAccount p.creditAccount)))
    (hAC01 : ∀ debitObj creditObj : Account, isPositiveInteger p.amount = true →
      isValidAccountId p.debitAccount = true →
      isValidAccountId p.creditAccount = true →
      (execByPresent p && !(isValidDate (execByStr p))) = false →
      SUPPORTED_CURRENCIES.contains p.currency = true →
      p.debitAccount ≠ p.creditAccount →
      accounts.find? (fun acc => acc.id = p.debitAccount) = some debitObj →
      accounts.find? (fun acc => acc.id = p.creditAccount) = some creditObj →
      upperStr debitObj.currency = upperStr creditObj.currency →
      p.currency = upperStr debitObj.currency →
      debitObj.balance < amountIntOf p →
      motive (failResult p (some (amountIntOf p))
        (INSUFFICIENT_FUNDS ++ ": has " ++ toString debitObj.balance ++ " " ++
          p.currency ++ ", needs " ++ toString (amountIntOf p) ++ " " ++ p.currency)
        "AC01" (snapshotParties accounts p.debitAccount p.creditAccount)))
    (hExec : ∀ debitObj creditObj : Account, isPositiveInteger p.amount = true →
      isValidAccountId p.debitAccount = true →
      isValidAccountId p.creditAccount = true →
      (execByPresent p && !(isValidDate (execByStr p))) = false →
      SUPPORTED_CURRENCIES.contains p.currency = true →
      p.debitAccount ≠ p.creditAccount →
      accounts.find? (fun acc => acc.id = p.debitAccount) = some debitObj →
      accounts.find? (fun acc => acc.id = p.creditAccount) = some creditObj →
      upperStr debitObj.currency = upperStr creditObj.currency →
      p.currency = upperStr debitObj.currency →
      ¬(debitObj.balance < amountIntOf p) →
      motive (executedResult p accounts todayN debitObj creditObj)) :
    motive (processParsed p accounts todayN) := by
  unfold processParsed
  by_cases h1 : isPositiveInteger p.amount = true
  case neg =>
    rw [if_pos (by simp only [Bool.not_eq_true] at h1; simp [h1])]
    exact hAM01 (by simpa using h1)
  rw [if_neg (by simp [h1])]
  by_cases h2 : isValidAccountId p.debitAccount = true
  case neg =>
    rw [if_pos (by simp only [Bool.not_eq_true] at h2; simp [h2])]
    exact hDAC04 h1 (by simpa using h2)
  rw [if_neg (by simp [h2])]
  by_cases h3 : isValidAccountId p.creditAccount = true
  case neg =>
    rw [if_pos (by simp only [Bool.not_eq_true] at h3; simp [h3])]
    exact hCAC04 h1 h2 (by simpa using h3)
  rw [if_neg (by simp [h3])]
  by_cases h4 : (execByPresent p && !(isValidDate (execByStr p))) = true
  case pos =>
    rw [if_pos h4]
    exact hDT01 h1 h2 h3 h4
  rw [if_neg h4]
  by_cases h5 : SUPPORTED_CURRENCIES.contains p.currency = true
  case neg =>
    have h5f : SUPPORTED_CURRENCIES.contains p.currency = false := by
      simp only [Bool.not_eq_true] at h5; exact h5
    rw [if_pos (show (!(SUPPORTED_CURRENCIES.contains p.currency)) = true by
      rw [h5f]; rfl)]
    exact hCU02 h1 h2 h3 (by simpa using h4) h5f
  rw [if_neg (show ¬((!(SUPPORTED_CURRENCIES.contains p.currency)) = true) by
    rw [h5]; decide)]
  by_cases h6 : p.debitAccount = p.creditAccount
  case pos =>
    rw [if_pos h6]
    exact hAC02 h1 h2 h3 (by simpa using h4) h5 h6
  rw [if_neg h6]
  cases hdd : accounts.find? (fun acc => acc.id = p.debitAccount) with
  | none =>
    exact hDAC03 h1 h2 h3 (by simpa using h4) h5 h6 hdd
  | some debitObj =>
    cases hcc : accounts.find? (fun acc => acc.id = p.creditAccount) with
    | none =>
      exact hCAC03 debitObj h1 h2 h3 (by simpa using h4) h5 h6 hdd hcc
    | some creditObj =>
      show motive (resolvedStep p accounts todayN debitObj creditObj)
      unfold resolvedStep
      by_cases h9 : upperStr debitObj.currency = upperStr creditObj.currency
      case neg =>
        rw [if_pos h9]
        exact hCU01a debitObj creditObj h1 h2 h3 (by simpa using h4) h5 h6 hdd hcc h9
      rw [if_neg (by simp [h9])]
      by_cases h10 : p.currency = upperStr debitObj.currency
      case neg =>
        rw [if_pos h10]
        exact hCU01b debitObj creditObj h1 h2 h3 (by simpa using h4) h5 h6 hdd hcc h9 h10
      rw [if_neg (by simp [h10])]
      by_cases h11 : debitObj.balance < amountIntOf p
      case pos =>
        rw [if_pos h11]
        exact hAC01 debitObj creditObj h1 h2 h3 (by simpa using h4) h5 h6 hdd hcc h9 h10 h11
      rw [if_neg h11]
      exact hExec debitObj creditObj h1 h2 h3 (by simpa using h4) h5 h6 hdd hcc h9 h10 h11

/-- Every result of the validation chain carries a terminal status, one of
the defined status codes, and a nonempty reason. -/
theorem processParsed_shape (p : ParsedInstruction) (accounts : List Account)
    (todayN : Int) :
    ((processParsed p accounts todayN).status = "successful" ∨
      (processParsed p accounts todayN).status = "pending" ∨
      (processParsed p accounts todayN).status = "failed") ∧
    (processParsed p accounts todayN).status_reason ≠ "" ∧
    (processParsed p accounts todayN).status_code ∈
      ["AP00", "AP02", "AM01", "AC04", "DT01", "CU02", "AC02", "AC03", "CU01",
        "AC01", "SY03"] := by
  refine processParsed_elim p accounts todayN
    (motive := fun r =>
      (r.status = "successful" ∨ r.status = "pending" ∨ r.status = "failed") ∧
      r.status_reason ≠ "" ∧
      r.status_code ∈
        ["AP00", "AP02", "AM01", "AC04", "DT01", "CU02", "AC02", "AC03", "CU01",
          "AC01", "SY03"])
    ?_ ?_ ?_ ?_ ?_ ?_ ?_ ?_ ?_ ?_ ?_ ?_
  all_goals intros
  all_goals refine ⟨?_, ?_, ?_⟩
  all_goals
    first
      | decide
      | (simp only [failResult_status, failResult_status_reason, failResult_status_code]
         first
           | decide
           | exact append_ne_empty _ _ (by (repeat' (apply append_data_ne)); decide))
      | (unfold executedResult
         cases hf : isFutureB p todayN <;> (first | decide | (simp; try decide)))

/-! ## Theorems for the claims -/

/-- C7: the processor never signals a business-rule violation by an
exception: for every well-typed input it returns a `TransactionResult`
whose status is one of the three terminal statuses, with one of the defined
status codes and a nonempty human-readable reason; and every unparseable
instruction yields status `failed`, code `SY03`, and an empty accounts
list. -/
theorem c7_failure_is_a_value (accounts : List Account) (instruction : String)
    (todayN : Int) :
    ((parsePaymentInstruction accounts instruction todayN).status = "successful" ∨
      (parsePaymentInstruction accounts instruction todayN).status = "pending" ∨
      (parsePaymentInstruction accounts instruction todayN).status = "failed") ∧
    (parsePaymentInstruction accounts instruction todayN).status_reason ≠ "" ∧
    (parsePaymentInstruction accounts instruction todayN).status_code ∈
      ["AP00", "AP02", "AM01", "AC04", "DT01", "CU02", "AC02", "AC03", "CU01",
        "AC01", "SY03"] ∧
    (parseInstruction instruction = none →
      (parsePaymentInstruction accounts instruction todayN).status = "failed" ∧
      (parsePaymentInstruction accounts instruction todayN).status_code = "SY03" ∧
      (parsePaymentInstruction accounts instruction todayN).accounts = []) := by
  cases hp : parseInstruction instruction with
  | none =>
    rw [parsePaymentInstruction_of_none hp]
    exact ⟨by decide, by decide, by decide, fun _ => ⟨rfl, rfl, rfl⟩⟩
  | some p =>
    rw [parsePaymentInstruction_of_some hp]
    refine ⟨?_, ?_, ?_, fun h => absurd h (by simp [hp])⟩
    · exact (processParsed_shape p accounts todayN).1
    · exact (processParsed_shape p accounts todayN).2.1
    · exact (processParsed_shape p accounts todayN).2.2

/-- C7 witness at a concrete unparseable instruction. -/
theorem c7_failure_is_a_value_witness :
    (parsePaymentInstruction [] "hello world" 0).status = "failed" ∧
    (parsePaymentInstruction [] "hello world" 0).status_code = "SY03" ∧
    (parsePaymentInstruction [] "hello world" 0).accounts = [] :=
  (c7_failure_is_a_value [] "hello world" 0).2.2.2 (by decide)

theorem amountIntOf_spec (p : ParsedInstruction) (h : isPositiveInteger p.amount = true) :
    jsParseInt p.amount = some (amountIntOf p) ∧ 0 < amountIntOf p := by
  obtain ⟨n, hj, hn⟩ := isPositiveInteger_parse p.amount h
  unfold amountIntOf
  rw [hj]
  exact ⟨rfl, hn⟩

/-- C8: in every result the `amount` field is null or an integer, and it is
a strictly positive integer whenever the failure did not occur before the
amount was parsed (status code neither `SY03` nor `AM01`). -/
theorem c8_amount_null_or_positive (accounts : List Account) (instruction : String)
    (todayN : Int) :
    ((parsePaymentInstruction accounts instruction todayN).amount = none ∨
      ∃ n : Int, (parsePaymentInstruction accounts instruction todayN).amount = some n) ∧
    ((parsePaymentInstruction accounts instruction todayN).status_code ≠ "SY03" →
      (parsePaymentInstruction accounts instruction todayN).status_code ≠ "AM01" →
      ∃ n : Int,
        (parsePaymentInstruction accounts instruction todayN).amount = some n ∧ 0 < n) := by
  constructor
  · cases h : (parsePaymentInstruction accounts instruction todayN).amount with
    | none => exact Or.inl rfl
    | some n => exact Or.inr ⟨n, rfl⟩
  · cases hp : parseInstruction instruction with
    | none =>
      rw [parsePaymentInstruction_of_none hp]
      intro hs _
      exact absurd rfl hs
    | some p =>
      rw [parsePaymentInstruction_of_some hp]
      refine processParsed_elim p accounts todayN
        (motive := fun r => r.status_code ≠ "SY03" → r.status_code ≠ "AM01" →
          ∃ n : Int, r.amount = some n ∧ 0 < n) ?_ ?_ ?_ ?_ ?_ ?_ ?_ ?_ ?_ ?_ ?_ ?_
      · intro _ _ hA
        exact absurd rfl hA
      all_goals
        (intros
         intro _ _
         simp only [failResult_amount, executedResult_amount]
         exact ⟨amountIntOf p, rfl, (amountIntOf_spec p (by assumption)).2⟩)

/-- C8 witness at a concrete executed transaction. -/
theorem c8_amount_null_or_positive_witness :
    ∃ n : Int,
      (parsePaymentInstruction [⟨"a", 230, "USD"⟩, ⟨"b", 300, "USD"⟩]
        "DEBIT 30 USD FROM ACCOUNT a FOR CREDIT TO ACCOUNT b" 0).amount = some n ∧ 0 < n :=
  (c8_amount_null_or_positive [⟨"a", 230, "USD"⟩, ⟨"b", 300, "USD"⟩]
    "DEBIT 30 USD FROM ACCOUNT a FOR CREDIT TO ACCOUNT b" 0).2 (by decide) (by decide)

theorem mkExecuteBy_ne_some_empty (e : Option (List Char)) : mkExecuteBy e ≠ some "" := by
  cases e with
  | none => simp [mkExecuteBy]
  | some x =>
    by_cases hx : x.isEmpty = true
    · simp [mkExecuteBy, hx]
    · have hbx : x.isEmpty = false := by simpa using hx
      intro h
      simp only [mkExecuteBy] at h
      rw [if_neg (by simp [hbx])] at h
      have hx2 : x = [] := congrArg String.data (Option.some.inj h)
      rw [hx2] at hbx
      simp at hbx

/-- The parser never reports an empty-string `executeBy`: the
`executeBy || null` coercion collapses it to `null`. -/
theorem parse_executeBy_nonempty {s : String} {p : ParsedInstruction}
    (hp : parseInstruction s = some p) : p.executeBy ≠ some "" := by
  unfold parseInstruction at hp
  simp only [] at hp
  repeat' split at hp
  all_goals
    first
      | (have hq := Option.some.inj hp
         subst hq
         dsimp only
         exact mkExecuteBy_ne_some_empty _)
      | exact absurd hp (by simp)

/-- The ordered check list of the specification (section 4.3): each entry
is the passing condition of one numbered validation step together with the
failure code the spec assigns to it.  Steps 9 and 10 compare currencies as
the program defines currency equality (upper-cased, see C9); steps 9-11
read the two accounts the lookup of steps 7-8 produces. -/
def specChecks (p : ParsedInstruction) (accounts : List Account) : List (Bool × String) :=
  [ (isPositiveInteger p.amount, "AM01"),
    (isValidAccountId p.debitAccount, "AC04"),
    (isValidAccountId p.creditAccount, "AC04"),
    (match p.executeBy with
     | none => true
     | some e => isValidDate e, "DT01"),
    (SUPPORTED_CURRENCIES.contains p.currency, "CU02"),
    (p.debitAccount != p.creditAccount, "AC02"),
    ((accounts.find? (fun acc => acc.id = p.debitAccount)).isSome, "AC03"),
    ((accounts.find? (fun acc => acc.id = p.creditAccount)).isSome, "AC03"),
    (match accounts.find? (fun acc => acc.id = p.debitAccount),
           accounts.find? (fun acc => acc.id = p.creditAccount) with
     | some debitObj, some creditObj =>
       upperStr debitObj.currency == upperStr creditObj.currency
     | _, _ => true, "CU01"),
    (match accounts.find? (fun acc => acc.id = p.debitAccount) with
     | some debitObj => p.currency == upperStr debitObj.currency
     | none => true, "CU01"),
    (match accounts.find? (fun acc => acc.id = p.debitAccount) with
     | some debitObj => decide (amountIntOf p ≤ debitObj.balance)
     | none => true, "AC01") ]

/-- The code of the first failing check of an ordered check list, `none`
when every check passes.  Later entries cannot influence the result. -/
def firstFailCode : List (Bool × String) → Option String
  | [] => none
  | c :: rest => if c.1 then firstFailCode rest else some c.2

/-- The spec's step-4 passing condition coincides with the negation of the
source's `executeBy && !isValidDate(executeBy)` guard, for any parsed
instruction (whose `executeBy` is never the empty string). -/
theorem date_check_bridge (p : ParsedInstruction) (hex : p.executeBy ≠ some "") :
    (match p.executeBy with
     | none => true
     | some e => isValidDate e) = !(execByPresent p && !(isValidDate (execByStr p))) := by
  cases hE : p.executeBy with
  | none => simp [execByPresent, hE]
  | some e =>
    have he : e ≠ "" := fun h => hex (by rw [hE, h])
    simp [execByPresent, execByStr, hE, he]

/-- C1: for every input whose instruction parses, the processor realizes
the spec's ordered check list: if some check fails, the result is status
`failed` carrying the code of the first failing check (so no later check
influences the result), and if every check passes the result is not a
failure. -/
theorem c1_validation_order (instruction : String) (p : ParsedInstruction)
    (hp : parseInstruction instruction = some p) (accounts : List Account)
    (todayN : Int) :
    (∀ code : String, firstFailCode (specChecks p accounts) = some code →
      (parsePaymentInstruction accounts instruction todayN).status = "failed" ∧
      (parsePaymentInstruction accounts instruction todayN).status_code = code) ∧
    (firstFailCode (specChecks p accounts) = none →
      (parsePaymentInstruction accounts instruction todayN).status ≠ "failed") := by
  have hex := parse_executeBy_nonempty hp
  rw [parsePaymentInstruction_of_some hp]
  refine processParsed_elim p accounts todayN
    (motive := fun r =>
      (∀ code : String, firstFailCode (specChecks p accounts) = some code →
        r.status = "failed" ∧ r.status_code = code) ∧
      (firstFailCode (specChecks p accounts) = none → r.status ≠ "failed"))
    ?_ ?_ ?_ ?_ ?_ ?_ ?_ ?_ ?_ ?_ ?_ ?_
  · intro h1
    have hf : firstFailCode (specChecks p accounts) = some "AM01" := by
      simp [specChecks, firstFailCode, h1]
    exact ⟨fun code hc => by rw [hf] at hc; obtain rfl := Option.some.inj hc; exact ⟨rfl, rfl⟩,
      fun hn => by rw [hf] at hn; exact Option.noConfusion hn⟩
  · intro h1 h2
    have hf : firstFailCode (specChecks p accounts) = some "AC04" := by
      simp [specChecks, firstFailCode, h1, h2]
    exact ⟨fun code hc => by rw [hf] at hc; obtain rfl := Option.some.inj hc; exact ⟨rfl, rfl⟩,
      fun hn => by rw [hf] at hn; exact Option.noConfusion hn⟩
  · intro h1 h2 h3
    have hf : firstFailCode (specChecks p accounts) = some "AC04" := by
      simp [specChecks, firstFailCode, h1, h2, h3]
    exact ⟨fun code hc => by rw [hf] at hc; obtain rfl := Option.some.inj hc; exact ⟨rfl, rfl⟩,
      fun hn => by rw [hf] at hn; exact Option.noConfusion hn⟩
  · intro h1 h2 h3 h4
    have hf : firstFailCode (specChecks p accounts) = some "DT01" := by
      simp [specChecks, firstFailCode, h1, h2, h3, date_check_bridge p hex, h4]
    exact ⟨fun code hc => by rw [hf] at hc; obtain rfl := Option.some.inj hc; exact ⟨rfl, rfl⟩,
      fun hn => by rw [hf] at hn; exact Option.noConfusion hn⟩
  · intro h1 h2 h3 h4 h5
    have h5m : p.currency ∉ SUPPORTED_CURRENCIES := by simpa using h5
    have hf : firstFailCode (specChecks p accounts) = some "CU02" := by
      simp [specChecks, firstFailCode, h1, h2, h3, date_check_bridge p hex, h4, h5m]
    exact ⟨fun code hc => by rw [hf] at hc; obtain rfl := Option.some.inj hc; exact ⟨rfl, rfl⟩,
      fun hn => by rw [hf] at hn; exact Option.noConfusion hn⟩
  · intro h1 h2 h3 h4 h5 h6
    have h5m : p.currency ∈ SUPPORTED_CURRENCIES := by simpa using h5
    have hf : firstFailCode (specChecks p accounts) = some "AC02" := by
      simp [specChecks, firstFailCode, h1, h2, h3, date_check_bridge p hex, h4, h5m, h6]
    exact ⟨fun code hc => by rw [hf] at hc; obtain rfl := Option.some.inj hc; exact ⟨rfl, rfl⟩,
      fun hn => by rw [hf] at hn; exact Option.noConfusion hn⟩
  · intro h1 h2 h3 h4 h5 h6 hdd
    have h5m : p.currency ∈ SUPPORTED_CURRENCIES := by simpa using h5
    have hf : firstFailCode (specChecks p accounts) = some "AC03" := by
      simp [specChecks, firstFailCode, h1, h2, h3, date_check_bridge p hex, h4, h5m, h6, hdd]
    exact ⟨fun code hc => by rw [hf] at hc; obtain rfl := Option.some.inj hc; exact ⟨rfl, rfl⟩,
      fun hn => by rw [hf] at hn; exact Option.noConfusion hn⟩
  · intro debitObj h1 h2 h3 h4 h5 h6 hdd hcc
    have h5m : p.currency ∈ SUPPORTED_CURRENCIES := by simpa using h5
    have hf : firstFailCode (specChecks p accounts) = some "AC03" := by
      simp [specChecks, firstFailCode, h1, h2, h3, date_check_bridge p hex, h4, h5m, h6,
        hdd, hcc]
    exact ⟨fun code hc => by rw [hf] at hc; obtain rfl := Option.some.inj hc; exact ⟨rfl, rfl⟩,
      fun hn => by rw [hf] at hn; exact Option.noConfusion hn⟩
  · intro debitObj creditObj h1 h2 h3 h4 h5 h6 hdd hcc h9
    have h5m : p.currency ∈ SUPPORTED_CURRENCIES := by simpa using h5
    have hf : firstFailCode (specChecks p accounts) = some "CU01" := by
      simp [specChecks, firstFailCode, h1, h2, h3, date_check_bridge p hex, h4, h5m, h6,
        hdd, hcc, h9]
    exact ⟨fun code hc => by rw [hf] at hc; obtain rfl := Option.some.inj hc; exact ⟨rfl, rfl⟩,
      fun hn => by rw [hf] at hn; exact Option.noConfusion hn⟩
  · intro debitObj creditObj h1 h2 h3 h4 h5 h6 hdd hcc h9 h10
    have h5m : p.currency ∈ SUPPORTED_CURRENCIES := by simpa using h5
    have h10c : p.currency ≠ upperStr creditObj.currency := h9 ▸ h10
    have hf : firstFailCode (specChecks p accounts) = some "CU01" := by
      simp [specChecks, firstFailCode, h1, h2, h3, date_check_bridge p hex, h4, h5m, h6,
        hdd, hcc, h9, h10, h10c]
    exact ⟨fun code hc => by rw [hf] at hc; obtain rfl := Option.some.inj hc; exact ⟨rfl, rfl⟩,
      fun hn => by rw [hf] at hn; exact Option.noConfusion hn⟩
  · intro debitObj creditObj h1 h2 h3 h4 h5 h6 hdd hcc h9 h10 h11
    have hle : ¬(amountIntOf p ≤ debitObj.balance) := not_le.mpr h11
    have h5m : p.currency ∈ SUPPORTED_CURRENCIES := by simpa using h5
    have h5c : upperStr creditObj.currency ∈ SUPPORTED_CURRENCIES := by
      rw [← h9, ← h10]; exact h5m
    have hf : firstFailCode (specChecks p accounts) = some "AC01" := by
      simp [specChecks, firstFailCode, h1, h2, h3, date_check_bridge p hex, h4, h5m, h6,
        hdd, hcc, h9, h10, h5c, hle]
    exact ⟨fun code hc => by rw [hf] at hc; obtain rfl := Option.some.inj hc; exact ⟨rfl, rfl⟩,
      fun hn => by rw [hf] at hn; exact Option.noConfusion hn⟩
  · intro debitObj creditObj h1 h2 h3 h4 h5 h6 hdd hcc h9 h10 h11
    have hle : amountIntOf p ≤ debitObj.balance := not_lt.mp h11
    have h5m : p.currency ∈ SUPPORTED_CURRENCIES := by simpa using h5
    have h5c : upperStr creditObj.currency ∈ SUPPORTED_CURRENCIES := by
      rw [← h9, ← h10]; exact h5m
    have hf : firstFailCode (specChecks p accounts) = none := by
      simp [specChecks, firstFailCode, h1, h2, h3, date_check_bridge p hex, h4, h5m, h6,
        hdd, hcc, h9, h10, h5c, hle]
    refine ⟨fun code hc => by rw [hf] at hc; exact Option.noConfusion hc, fun _ => ?_⟩
    cases hfut : isFutureB p todayN <;> simp [executedResult_status, hfut]

/-- C1 witness: a concrete run whose first failing check is the
insufficient-funds check, and a concrete run where every check passes. -/
theorem c1_validation_order_witness :
    ((parsePaymentInstruction [⟨"a", 10, "USD"⟩, ⟨"b", 300, "USD"⟩]
        "DEBIT 30 USD FROM ACCOUNT a FOR CREDIT TO ACCOUNT b" 0).status = "failed" ∧
      (parsePaymentInstruction [⟨"a", 10, "USD"⟩, ⟨"b", 300, "USD"⟩]
        "DEBIT 30 USD FROM ACCOUNT a FOR CREDIT TO ACCOUNT b" 0).status_code = "AC01") ∧
    (parsePaymentInstruction [⟨"a", 230, "USD"⟩, ⟨"b", 300, "USD"⟩]
        "DEBIT 30 USD FROM ACCOUNT a FOR CREDIT TO ACCOUNT b" 0).status ≠ "failed" :=
  ⟨(c1_validation_order "DEBIT 30 USD FROM ACCOUNT a FOR CREDIT TO ACCOUNT b"
      ⟨"DEBIT", "30", "USD", "a", "b", none⟩ (by decide)
      [⟨"a", 10, "USD"⟩, ⟨"b", 300, "USD"⟩] 0).1 "AC01" (by decide),
    (c1_validation_order "DEBIT 30 USD FROM ACCOUNT a FOR CREDIT TO ACCOUNT b"
      ⟨"DEBIT", "30", "USD", "a", "b", none⟩ (by decide)
      [⟨"a", 230, "USD"⟩, ⟨"b", 300, "USD"⟩] 0).2 (by decide)⟩

/-- Any member of the terminal snapshot list is the debit party's snapshot
or the credit party's snapshot. -/
theorem snapshotExecuted_spec (accounts : List Account) (d c : String)
    (ndb ncb dB cB : Int) (s : AccountSnapshot)
    (hs : s ∈ snapshotExecuted accounts d c ndb ncb dB cB) :
    (s.id = d ∧ s.balance = ndb ∧ s.balance_before = dB) ∨
    (s.id = c ∧ s.balance = ncb ∧ s.balance_before = cB) := by
  unfold snapshotExecuted at hs
  rw [List.mem_filterMap] at hs
  obtain ⟨a, _, hf⟩ := hs
  by_cases h1 : a.id = d
  · rw [if_pos h1] at hf
    obtain rfl := Option.some.inj hf
    exact Or.inl ⟨h1, rfl, rfl⟩
  · rw [if_neg h1] at hf
    by_cases h2 : a.id = c
    · rw [if_pos h2] at hf
      obtain rfl := Option.some.inj hf
      exact Or.inr ⟨h2, rfl, rfl⟩
    · rw [if_neg h2] at hf
      exact absurd hf (by simp)

/-- An account with the debit id contributes its snapshot to the terminal
snapshot list. -/
theorem snapshotExecuted_mem_debit (accounts : List Account) (d c : String)
    (ndb ncb dB cB : Int) (a : Account) (ha : a ∈ accounts) (hid : a.id = d) :
    ∃ s ∈ snapshotExecuted accounts d c ndb ncb dB cB,
      s.id = d ∧ s.balance = ndb ∧ s.balance_before = dB := by
  refine ⟨⟨a.id, ndb, dB, upperStr a.currency⟩, ?_, hid, rfl, rfl⟩
  unfold snapshotExecuted
  rw [List.mem_filterMap]
  exact ⟨a, ha, by rw [if_pos hid]⟩

/-- An account with the credit id (different from the debit id) contributes
its snapshot to the terminal snapshot list. -/
theorem snapshotExecuted_mem_credit (accounts : List Account) (d c : String)
    (ndb ncb dB cB : Int) (a : Account) (ha : a ∈ accounts) (hid : a.id = c)
    (hne : a.id ≠ d) :
    ∃ s ∈ snapshotExecuted accounts d c ndb ncb dB cB,
      s.id = c ∧ s.balance = ncb ∧ s.balance_before = cB := by
  refine ⟨⟨a.id, ncb, cB, upperStr a.currency⟩, ?_, hid, rfl, rfl⟩
  unfold snapshotExecuted
  rw [List.mem_filterMap]
  exact ⟨a, ha, by rw [if_neg hne, if_pos hid]⟩

/-- The account a successful `find?` returns satisfies the predicate and
belongs to the list. -/
theorem find?_account_spec {accounts : List Account} {x : String} {a : Account}
    (h : accounts.find? (fun acc => acc.id = x) = some a) :
    a ∈ accounts ∧ a.id = x :=
  ⟨List.mem_of_find?_eq_some h, by
    have h2 := List.find?_some h
    simpa using h2⟩

/-- C2: when all eleven checks pass (stated with the two located party
accounts): if `executeBy` is absent or classifies as past or today, the
result is `successful`/`AP00` and, in the output snapshots, every debit
snapshot's balance is its old balance minus the amount and every credit
snapshot's balance is its old balance plus the amount (both parties
present); if it classifies as future, the result is `pending`/`AP02` with
`balance = balance_before` throughout. -/
theorem c2_terminal_state (instruction : String) (p : ParsedInstruction)
    (hp : parseInstruction instruction = some p) (accounts : List Account)
    (todayN : Int) (debitObj creditObj : Account)
    (h1 : isPositiveInteger p.amount = true)
    (h2 : isValidAccountId p.debitAccount = true)
    (h3 : isValidAccountId p.creditAccount = true)
    (h4 : (match p.executeBy with
           | none => true
           | some e => isValidDate e) = true)
    (h5 : SUPPORTED_CURRENCIES.contains p.currency = true)
    (h6 : p.debitAccount ≠ p.creditAccount)
    (hdd : accounts.find? (fun acc => acc.id = p.debitAccount) = some debitObj)
    (hcc : accounts.find? (fun acc => acc.id = p.creditAccount) = some creditObj)
    (h9 : upperStr debitObj.currency = upperStr creditObj.currency)
    (h10 : p.currency = upperStr debitObj.currency)
    (h11 : amountIntOf p ≤ debitObj.balance) :
    ((p.executeBy = none ∨
        compareDateWithToday todayN (execByStr p) = "past" ∨
        compareDateWithToday todayN (execByStr p) = "today") →
      (parsePaymentInstruction accounts instruction todayN).status = "successful" ∧
      (parsePaymentInstruction accounts instruction todayN).status_code = "AP00" ∧
      (∀ s ∈ (parsePaymentInstruction accounts instruction todayN).accounts,
        (s.id = p.debitAccount →
          s.balance_before = debitObj.balance ∧
          s.balance = debitObj.balance - amountIntOf p) ∧
        (s.id = p.creditAccount →
          s.balance_before = creditObj.balance ∧
          s.balance = creditObj.balance + amountIntOf p)) ∧
      (∃ s ∈ (parsePaymentInstruction accounts instruction todayN).accounts,
        s.id = p.debitAccount) ∧
      (∃ s ∈ (parsePaymentInstruction accounts instruction todayN).accounts,
        s.id = p.creditAccount)) ∧
    ((p.executeBy ≠ none ∧ compareDateWithToday todayN (execByStr p) = "future") →
      (parsePaymentInstruction accounts instruction todayN).status = "pending" ∧
      (parsePaymentInstruction accounts instruction todayN).status_code = "AP02" ∧
      ∀ s ∈ (parsePaymentInstruction accounts instruction todayN).accounts,
        s.balance = s.balance_before) := by
  have hex := parse_executeBy_nonempty hp
  have h4c : (execByPresent p && !(isValidDate (execByStr p))) = false := by
    have := date_check_bridge p hex
    rw [h4] at this
    cases hq : (execByPresent p && !(isValidDate (execByStr p)))
    · rfl
    · rw [hq] at this
      exact absurd this.symm (by decide)
  rw [parsePaymentInstruction_of_some hp]
  refine processParsed_elim p accounts todayN
    (motive := fun r =>
      ((p.executeBy = none ∨
          compareDateWithToday todayN (execByStr p) = "past" ∨
          compareDateWithToday todayN (execByStr p) = "today") →
        r.status = "successful" ∧ r.status_code = "AP00" ∧
        (∀ s ∈ r.accounts,
          (s.id = p.debitAccount →
            s.balance_before = debitObj.balance ∧
            s.balance = debitObj.balance - amountIntOf p) ∧
          (s.id = p.creditAccount →
            s.balance_before = creditObj.balance ∧
            s.balance = creditObj.balance + amountIntOf p)) ∧
        (∃ s ∈ r.accounts, s.id = p.debitAccount) ∧
        (∃ s ∈ r.accounts, s.id = p.creditAccount)) ∧
      ((p.executeBy ≠ none ∧ compareDateWithToday todayN (execByStr p) = "future") →
        r.status = "pending" ∧ r.status_code = "AP02" ∧
        ∀ s ∈ r.accounts, s.balance = s.balance_before))
    ?_ ?_ ?_ ?_ ?_ ?_ ?_ ?_ ?_ ?_ ?_ ?_
  · intro hx
    rw [hx] at h1
    exact absurd h1 (by decide)
  · intro _ hx
    rw [hx] at h2
    exact absurd h2 (by decide)
  · intro _ _ hx
    rw [hx] at h3
    exact absurd h3 (by decide)
  · intro _ _ _ hx
    rw [h4c] at hx
    exact absurd hx (by decide)
  · intro _ _ _ _ hx
    rw [hx] at h5
    exact absurd h5 (by decide)
  · intro _ _ _ _ _ hx
    exact absurd hx h6
  · intro _ _ _ _ _ _ hx
    rw [hx] at hdd
    exact Option.noConfusion hdd
  · intro dObj _ _ _ _ _ _ _ hx
    rw [hx] at hcc
    exact Option.noConfusion hcc
  · intro dObj cObj _ _ _ _ _ _ hdd0 hcc0 hx
    rw [hdd0] at hdd
    rw [hcc0] at hcc
    obtain rfl := Option.some.inj hdd
    obtain rfl := Option.some.inj hcc
    exact absurd h9 hx
  · intro dObj cObj _ _ _ _ _ _ hdd0 hcc0 _ hx
    rw [hdd0] at hdd
    obtain rfl := Option.some.inj hdd
    exact absurd h10 hx
  · intro dObj cObj _ _ _ _ _ _ hdd0 hcc0 _ _ hx
    rw [hdd0] at hdd
    obtain rfl := Option.some.inj hdd
    exact absurd h11 (not_le.mpr hx)
  · intro dObj cObj _ _ _ _ _ _ hdd0 hcc0 _ _ _
    rw [hdd0] at hdd
    rw [hcc0] at hcc
    have he1 : debitObj = dObj := (Option.some.inj hdd).symm
    subst he1
    have he2 : creditObj = cObj := (Option.some.inj hcc).symm
    subst he2
    obtain ⟨hdmem, hdid⟩ := find?_account_spec hdd0
    obtain ⟨hcmem, hcid⟩ := find?_account_spec hcc0
    constructor
    · intro hcase
      have hfut : isFutureB p todayN = false := by
        unfold isFutureB
        rcases hcase with hnone | hcmp | hcmp
        · simp [execByPresent, hnone]
        · rw [hcmp]
          simp [execByPresent]
        · rw [hcmp]
          simp [execByPresent]
      refine ⟨by simp [executedResult_status, hfut],
        by simp [executedResult_status_code, hfut], ?_, ?_, ?_⟩
      · intro s hs
        have hff : ¬(false = true) := by decide
        rw [executedResult_accounts, hfut, if_neg hff, if_neg hff] at hs
        have hspec := snapshotExecuted_spec _ _ _ _ _ _ _ _ hs
        constructor
        · intro hsd
          rcases hspec with ⟨_, hb, hbb⟩ | ⟨hsc, _, _⟩
          · exact ⟨hbb, hb⟩
          · exact absurd (hsd ▸ hsc : p.debitAccount = p.creditAccount) h6
        · intro hsc
          rcases hspec with ⟨hsd, _, _⟩ | ⟨_, hb, hbb⟩
          · exact absurd ((hsc ▸ hsd).symm : p.debitAccount = p.creditAccount) h6
          · exact ⟨hbb, hb⟩
      · have hff : ¬(false = true) := by decide
        rw [executedResult_accounts, hfut, if_neg hff, if_neg hff]
        obtain ⟨s, hs, hsid, _, _⟩ :=
          snapshotExecuted_mem_debit accounts p.debitAccount p.creditAccount
            (debitObj.balance - amountIntOf p) (creditObj.balance + amountIntOf p)
            debitObj.balance creditObj.balance debitObj hdmem hdid
        exact ⟨s, hs, hsid⟩
      · have hff : ¬(false = true) := by decide
        rw [executedResult_accounts, hfut, if_neg hff, if_neg hff]
        obtain ⟨s, hs, hsid, _, _⟩ :=
          snapshotExecuted_mem_credit accounts p.debitAccount p.creditAccount
            (debitObj.balance - amountIntOf p) (creditObj.balance + amountIntOf p)
            debitObj.balance creditObj.balance creditObj hcmem hcid
            (by rw [hcid]; exact fun hq => h6 hq.symm)
        exact ⟨s, hs, hsid⟩
    · intro ⟨hne, hcmp⟩
      have hfut : isFutureB p todayN = true := by
        unfold isFutureB
        cases hE : p.executeBy with
        | none => exact absurd hE hne
        | some e =>
          have he : e ≠ "" := fun h => hex (by rw [hE, h])
          have hcmp2 : compareDateWithToday todayN e = "future" := by
            unfold execByStr at hcmp
            rw [hE] at hcmp
            simpa using hcmp
          simp [execByPresent, execByStr, hE, he, hcmp2]
      refine ⟨by simp [executedResult_status, hfut],
        by simp [executedResult_status_code, hfut], ?_⟩
      intro s hs
      rw [executedResult_accounts, hfut, if_pos rfl, if_pos rfl] at hs
      have hspec := snapshotExecuted_spec _ _ _ _ _ _ _ _ hs
      rcases hspec with ⟨_, hb, hbb⟩ | ⟨_, hb, hbb⟩ <;> rw [hb, hbb]

/-- C2 witness: the README's scenario 1 executes immediately. -/
theorem c2_terminal_state_witness :
    (parsePaymentInstruction [⟨"a", 230, "USD"⟩, ⟨"b", 300, "USD"⟩]
      "DEBIT 30 USD FROM ACCOUNT a FOR CREDIT TO ACCOUNT b" 0).status = "successful" ∧
    (parsePaymentInstruction [⟨"a", 230, "USD"⟩, ⟨"b", 300, "USD"⟩]
      "DEBIT 30 USD FROM ACCOUNT a FOR CREDIT TO ACCOUNT b" 0).status_code = "AP00" :=
  have h := (c2_terminal_state "DEBIT 30 USD FROM ACCOUNT a FOR CREDIT TO ACCOUNT b"
    ⟨"DEBIT", "30", "USD", "a", "b", none⟩ (by decide)
    [⟨"a", 230, "USD"⟩, ⟨"b", 300, "USD"⟩] 0 ⟨"a", 230, "USD"⟩ ⟨"b", 300, "USD"⟩
    (by decide) (by decide) (by decide) (by decide) (by decide) (by decide)
    (by decide) (by decide) (by decide) (by decide) (by decide)).1 (Or.inl rfl)
  ⟨h.1, h.2.1⟩

@[simp] theorem executedResult_debit_account (p : ParsedInstruction)
    (accounts : List Account) (todayN : Int) (debitObj creditObj : Account) :
    (executedResult p accounts todayN debitObj creditObj).debit_account =
      some p.debitAccount := rfl

@[simp] theorem executedResult_credit_account (p : ParsedInstruction)
    (accounts : List Account) (todayN : Int) (debitObj creditObj : Account) :
    (executedResult p accounts todayN debitObj creditObj).credit_account =
      some p.creditAccount := rfl

/-- C3: whenever the result is the successful terminal state, any debit
snapshot and credit snapshot in the output conserve the total balance:
`new_debit + new_credit = old_debit + old_credit`. -/
theorem c3_balance_conservation (accounts : List Account) (instruction : String)
    (todayN : Int)
    (hS : (parsePaymentInstruction accounts instruction todayN).status = "successful") :
    ∀ ds cs : AccountSnapshot,
      ds ∈ (parsePaymentInstruction accounts instruction todayN).accounts →
      cs ∈ (parsePaymentInstruction accounts instruction todayN).accounts →
      some ds.id = (parsePaymentInstruction accounts instruction todayN).debit_account →
      some cs.id = (parsePaymentInstruction accounts instruction todayN).credit_account →
      ds.balance + cs.balance = ds.balance_before + cs.balance_before := by
  cases hp : parseInstruction instruction with
  | none =>
    rw [parsePaymentInstruction_of_none hp] at hS
    exact absurd hS (by decide)
  | some p =>
    rw [parsePaymentInstruction_of_some hp] at hS ⊢
    revert hS
    refine processParsed_elim p accounts todayN
      (motive := fun r => r.status = "successful" →
        ∀ ds cs : AccountSnapshot, ds ∈ r.accounts → cs ∈ r.accounts →
          some ds.id = r.debit_account → some cs.id = r.credit_account →
          ds.balance + cs.balance = ds.balance_before + cs.balance_before)
      ?_ ?_ ?_ ?_ ?_ ?_ ?_ ?_ ?_ ?_ ?_ ?_
    · intros
      intro hS
      exact absurd hS (by rw [failResult_status]; decide)
    · intros
      intro hS
      exact absurd hS (by rw [failResult_status]; decide)
    · intros
      intro hS
      exact absurd hS (by rw [failResult_status]; decide)
    · intros
      intro hS
      exact absurd hS (by rw [failResult_status]; decide)
    · intros
      intro hS
      exact absurd hS (by rw [failResult_status]; decide)
    · intros
      intro hS
      exact absurd hS (by rw [failResult_status]; decide)
    · intros
      intro hS
      exact absurd hS (by rw [failResult_status]; decide)
    · intros
      intro hS
      exact absurd hS (by rw [failResult_status]; decide)
    · intros
      intro hS
      exact absurd hS (by rw [failResult_status]; decide)
    · intros
      intro hS
      exact absurd hS (by rw [failResult_status]; decide)
    · intros
      intro hS
      exact absurd hS (by rw [failResult_status]; decide)
    · intro dObj cObj h1 h2 h3 h4 h5 h6 hdd hcc h9 h10 h11
      intro hS
      cases hfut : isFutureB p todayN with
      | true =>
        rw [executedResult_status, hfut, if_pos rfl] at hS
        exact absurd hS (by decide)
      | false =>
        have hff : ¬(false = true) := by decide
        intro ds cs hds hcs hid1 hid2
        rw [executedResult_debit_account] at hid1
        rw [executedResult_credit_account] at hid2
        have hds2 : ds.id = p.debitAccount := Option.some.inj hid1
        have hcs2 : cs.id = p.creditAccount := Option.some.inj hid2
        rw [executedResult_accounts, hfut, if_neg hff, if_neg hff] at hds hcs
        have hd := snapshotExecuted_spec _ _ _ _ _ _ _ _ hds
        have hc := snapshotExecuted_spec _ _ _ _ _ _ _ _ hcs
        rcases hd with ⟨_, hb1, hb2⟩ | ⟨hxc, _, _⟩
        · rcases hc with ⟨hxd, _, _⟩ | ⟨_, hb3, hb4⟩
          · exact absurd (hxd.symm.trans hcs2) h6
          · rw [hb1, hb2, hb3, hb4]
            omega
        · exact absurd (hds2.symm.trans hxc) h6

/-- C3 witness: the README's scenario 1 conserves 230 + 300. -/
theorem c3_balance_conservation_witness : (200 : Int) + 330 = 230 + 300 :=
  c3_balance_conservation [⟨"a", 230, "USD"⟩, ⟨"b", 300, "USD"⟩]
    "DEBIT 30 USD FROM ACCOUNT a FOR CREDIT TO ACCOUNT b" 0 (by decide)
    ⟨"a", 200, 230, "USD"⟩ ⟨"b", 330, 300, "USD"⟩
    (by decide) (by decide) (by decide) (by decide)

theorem filterMap_ifPred {α β : Type} (P : α → Prop) [DecidablePred P] (f : α → β)
    (l : List α) :
    l.filterMap (fun a => if P a then some (f a) else none) =
      (l.filter (fun a => decide (P a))).map f := by
  induction l with
  | nil => rfl
  | cons a rest ih =>
    by_cases h : P a
    · rw [List.filterMap_cons, List.filter_cons]
      simp [h, ih]
    · rw [List.filterMap_cons, List.filter_cons]
      simp [h, ih]

/-- The later failure branches' snapshot list is the input filtered to the
two parties, in input order, with the plain snapshot applied. -/
theorem snapshotParties_eq (accounts : List Account) (d c : String) :
    snapshotParties accounts d c =
      (accounts.filter (fun a => decide (a.id = d ∨ a.id = c))).map
        (fun a => ⟨a.id, a.balance, a.balance, upperStr a.currency⟩) := by
  unfold snapshotParties
  exact filterMap_ifPred (fun a => a.id = d ∨ a.id = c)
    (fun a =>
      ({ id := a.id, balance := a.balance, balance_before := a.balance
         currency := upperStr a.currency } : AccountSnapshot))
    accounts

theorem filterMap_two_if {α β : Type} (P Q : α → Prop) [DecidablePred P]
    [DecidablePred Q] (f g : α → β) (l : List α) :
    l.filterMap (fun a => if P a then some (f a) else if Q a then some (g a) else none) =
      (l.filter (fun a => decide (P a ∨ Q a))).map (fun a => if P a then f a else g a) := by
  induction l with
  | nil => rfl
  | cons a rest ih =>
    rw [List.filterMap_cons, List.filter_cons]
    by_cases h1 : P a
    · simp [h1, ih]
    · by_cases h2 : Q a
      · simp [h1, h2, ih]
      · simp [h1, h2, ih]

/-- The terminal snapshot list is the input filtered to the two parties,
in input order, with the party's snapshot applied. -/
theorem snapshotExecuted_eq (accounts : List Account) (d c : String)
    (ndb ncb dB cB : Int) :
    snapshotExecuted accounts d c ndb ncb dB cB =
      (accounts.filter (fun a => decide (a.id = d ∨ a.id = c))).map
        (fun a => if a.id = d then ⟨a.id, ndb, dB, upperStr a.currency⟩
                  else ⟨a.id, ncb, cB, upperStr a.currency⟩) := by
  unfold snapshotExecuted
  exact filterMap_two_if (fun a => a.id = d) (fun a => a.id = c)
    (fun a => (⟨a.id, ndb, dB, upperStr a.currency⟩ : AccountSnapshot))
    (fun a => (⟨a.id, ncb, cB, upperStr a.currency⟩ : AccountSnapshot)) accounts

/-- The terminal snapshot list carries exactly the ids of the input
accounts filtered to the two parties, in input order. -/
theorem snapshotExecuted_ids (accounts : List Account) (d c : String)
    (ndb ncb dB cB : Int) :
    (snapshotExecuted accounts d c ndb ncb dB cB).map (fun s => s.id) =
      (accounts.filter (fun a => decide (a.id = d ∨ a.id = c))).map (fun a => a.id) := by
  rw [snapshotExecuted_eq, List.map_map]
  induction (accounts.filter (fun a => decide (a.id = d ∨ a.id = c))) with
  | nil => rfl
  | cons a rest ih =>
    rw [List.map_cons, List.map_cons, ih]
    by_cases h1 : a.id = d
    · simp [Function.comp, h1]
    · simp [Function.comp, h1]

theorem snapshotAll_balance (accounts : List Account) :
    ∀ s ∈ snapshotAll accounts, s.balance = s.balance_before := by
  intro s hs
  unfold snapshotAll at hs
  rw [List.mem_map] at hs
  obtain ⟨a, _, rfl⟩ := hs
  rfl

theorem snapshotParties_balance (accounts : List Account) (d c : String) :
    ∀ s ∈ snapshotParties accounts d c, s.balance = s.balance_before := by
  intro s hs
  rw [snapshotParties_eq, List.mem_map] at hs
  obtain ⟨a, _, rfl⟩ := hs
  rfl

/-- C4 counterexample: when the pipeline fails at check 7 (debit account
not found, `AC03`), the code echoes all input accounts, not only the two
parties the claim allows. -/
theorem c4_snapshot_policy_counterexample :
    (parsePaymentInstruction [⟨"a", 230, "USD"⟩, ⟨"b", 300, "USD"⟩, ⟨"c", 5, "USD"⟩]
      "DEBIT 30 USD FROM ACCOUNT x FOR CREDIT TO ACCOUNT b" 0).status_code = "AC03" ∧
    ¬(∀ s ∈ (parsePaymentInstruction
        [⟨"a", 230, "USD"⟩, ⟨"b", 300, "USD"⟩, ⟨"c", 5, "USD"⟩]
        "DEBIT 30 USD FROM ACCOUNT x FOR CREDIT TO ACCOUNT b" 0).accounts,
      s.id = "x" ∨ s.id = "b") := by
  decide

/-- C4 amended: the all-accounts echo extends through the two existence
checks (codes `AM01`, `AC04`, `DT01`, `CU02`, `AC02`, `AC03`); only from
the currency-match check onward (codes `CU01`, `AC01`, and the terminal
`AP00`/`AP02`) is the list filtered to the two parties, in original input
order; for every failure each snapshot has `balance = balance_before`. -/
theorem c4_snapshot_policy_amended (instruction : String) (p : ParsedInstruction)
    (hp : parseInstruction instruction = some p) (accounts : List Account)
    (todayN : Int) :
    ((parsePaymentInstruction accounts instruction todayN).status_code ∈
        ["AM01", "AC04", "DT01", "CU02", "AC02", "AC03"] →
      (parsePaymentInstruction accounts instruction todayN).accounts =
        accounts.map (fun a => ⟨a.id, a.balance, a.balance, upperStr a.currency⟩)) ∧
    ((parsePaymentInstruction accounts instruction todayN).status_code ∈
        ["CU01", "AC01"] →
      (parsePaymentInstruction accounts instruction todayN).accounts =
        (accounts.filter
          (fun a => decide (a.id = p.debitAccount ∨ a.id = p.creditAccount))).map
          (fun a => ⟨a.id, a.balance, a.balance, upperStr a.currency⟩)) ∧
    ((parsePaymentInstruction accounts instruction todayN).status_code ∈
        ["AP00", "AP02"] →
      ((parsePaymentInstruction accounts instruction todayN).accounts).map
          (fun s => s.id) =
        (accounts.filter
          (fun a => decide (a.id = p.debitAccount ∨ a.id = p.creditAccount))).map
          (fun a => a.id)) ∧
    ((parsePaymentInstruction accounts instruction todayN).status = "failed" →
      ∀ s ∈ (parsePaymentInstruction accounts instruction todayN).accounts,
        s.balance = s.balance_before) := by
  rw [parsePaymentInstruction_of_some hp]
  refine processParsed_elim p accounts todayN
    (motive := fun r =>
      (r.status_code ∈ ["AM01", "AC04", "DT01", "CU02", "AC02", "AC03"] →
        r.accounts =
          accounts.map (fun a => ⟨a.id, a.balance, a.balance, upperStr a.currency⟩)) ∧
      (r.status_code ∈ ["CU01", "AC01"] →
        r.accounts =
          (accounts.filter
            (fun a => decide (a.id = p.debitAccount ∨ a.id = p.creditAccount))).map
            (fun a => ⟨a.id, a.balance, a.balance, upperStr a.currency⟩)) ∧
      (r.status_code ∈ ["AP00", "AP02"] →
        (r.accounts.map (fun s => s.id)) =
          (accounts.filter
            (fun a => decide (a.id = p.debitAccount ∨ a.id = p.creditAccount))).map
            (fun a => a.id)) ∧
      (r.status = "failed" → ∀ s ∈ r.accounts, s.balance = s.balance_before))
    ?_ ?_ ?_ ?_ ?_ ?_ ?_ ?_ ?_ ?_ ?_ ?_
  · intros
    exact ⟨fun _ => rfl,
      fun hq => absurd hq (by rw [failResult_status_code]; decide),
      fun hq => absurd hq (by rw [failResult_status_code]; decide),
      fun _ => snapshotAll_balance accounts⟩
  · intros
    exact ⟨fun _ => rfl,
      fun hq => absurd hq (by rw [failResult_status_code]; decide),
      fun hq => absurd hq (by rw [failResult_status_code]; decide),
      fun _ => snapshotAll_balance accounts⟩
  · intros
    exact ⟨fun _ => rfl,
      fun hq => absurd hq (by rw [failResult_status_code]; decide),
      fun hq => absurd hq (by rw [failResult_status_code]; decide),
      fun _ => snapshotAll_balance accounts⟩
  · intros
    exact ⟨fun _ => rfl,
      fun hq => absurd hq (by rw [failResult_status_code]; decide),
      fun hq => absurd hq (by rw [failResult_status_code]; decide),
      fun _ => snapshotAll_balance accounts⟩
  · intros
    exact ⟨fun _ => rfl,
      fun hq => absurd hq (by rw [failResult_status_code]; decide),
      fun hq => absurd hq (by rw [failResult_status_code]; decide),
      fun _ => snapshotAll_balance accounts⟩
  · intros
    exact ⟨fun _ => rfl,
      fun hq => absurd hq (by rw [failResult_status_code]; decide),
      fun hq => absurd hq (by rw [failResult_status_code]; decide),
      fun _ => snapshotAll_balance accounts⟩
  · intros
    exact ⟨fun _ => rfl,
      fun hq => absurd hq (by rw [failResult_status_code]; decide),
      fun hq => absurd hq (by rw [failResult_status_code]; decide),
      fun _ => snapshotAll_balance accounts⟩
  · intros
    exact ⟨fun _ => rfl,
      fun hq => absurd hq (by rw [failResult_status_code]; decide),
      fun hq => absurd hq (by rw [failResult_status_code]; decide),
      fun _ => snapshotAll_balance accounts⟩
  · intros
    exact ⟨fun hq => absurd hq (by rw [failResult_status_code]; decide),
      fun _ => snapshotParties_eq accounts _ _,
      fun hq => absurd hq (by rw [failResult_status_code]; decide),
      fun _ => snapshotParties_balance accounts _ _⟩
  · intros
    exact ⟨fun hq => absurd hq (by rw [failResult_status_code]; decide),
      fun _ => snapshotParties_eq accounts _ _,
      fun hq => absurd hq (by rw [failResult_status_code]; decide),
      fun _ => snapshotParties_balance accounts _ _⟩
  · intros
    exact ⟨fun hq => absurd hq (by rw [failResult_status_code]; decide),
      fun _ => snapshotParties_eq accounts _ _,
      fun hq => absurd hq (by rw [failResult_status_code]; decide),
      fun _ => snapshotParties_balance accounts _ _⟩
  · intros
    refine ⟨?_, ?_, ?_, ?_⟩
    · intro hq
      rw [executedResult_status_code] at hq
      cases hfut : isFutureB p todayN <;> rw [hfut] at hq <;>
        first
          | exact absurd hq (by decide)
          | (rw [if_pos rfl] at hq; exact absurd hq (by decide))
          | (rw [if_neg (by decide)] at hq; exact absurd hq (by decide))
    · intro hq
      rw [executedResult_status_code] at hq
      cases hfut : isFutureB p todayN <;> rw [hfut] at hq <;>
        first
          | exact absurd hq (by decide)
          | (rw [if_pos rfl] at hq; exact absurd hq (by decide))
          | (rw [if_neg (by decide)] at hq; exact absurd hq (by decide))
    · intro _
      rw [executedResult_accounts]
      exact snapshotExecuted_ids accounts _ _ _ _ _ _
    · intro hq
      rw [executedResult_status] at hq
      cases hfut : isFutureB p todayN <;> rw [hfut] at hq
      · rw [if_neg (by decide)] at hq
        exact absurd hq (by decide)
      · rw [if_pos rfl] at hq
        exact absurd hq (by decide)

/-- C4 amended-claim witness: a concrete `AC03` failure echoes all three
accounts with balances unchanged. -/
theorem c4_snapshot_policy_amended_witness :
    (parsePaymentInstruction [⟨"a", 230, "USD"⟩, ⟨"b", 300, "USD"⟩, ⟨"c", 5, "USD"⟩]
      "DEBIT 30 USD FROM ACCOUNT x FOR CREDIT TO ACCOUNT b" 0).accounts =
      ([⟨"a", 230, "USD"⟩, ⟨"b", 300, "USD"⟩, ⟨"c", 5, "USD"⟩] : List Account).map
        (fun a => ⟨a.id, a.balance, a.balance, upperStr a.currency⟩) :=
  (c4_snapshot_policy_amended "DEBIT 30 USD FROM ACCOUNT x FOR CREDIT TO ACCOUNT b"
    ⟨"DEBIT", "30", "USD", "x", "b", none⟩ (by decide)
    [⟨"a", 230, "USD"⟩, ⟨"b", 300, "USD"⟩, ⟨"c", 5, "USD"⟩] 0).1 (by decide)

/-- Two accounts that agree on id and balance and whose currencies differ
at most in letter case. -/
def SameUpTo (a b : Account) : Prop :=
  a.id = b.id ∧ a.balance = b.balance ∧ upperStr a.currency = upperStr b.currency

theorem map_recase {f : Account → AccountSnapshot}
    (hf : ∀ a b, SameUpTo a b → f a = f b) :
    ∀ {m m' : List Account}, List.Forall₂ SameUpTo m m' → m.map f = m'.map f := by
  intro m m' h
  induction h with
  | nil => rfl
  | cons hR _ ih =>
    rw [List.map_cons, List.map_cons, hf _ _ hR, ih]

theorem filter_recase {P : Account → Bool}
    (hP : ∀ a b, SameUpTo a b → P a = P b) :
    ∀ {m m' : List Account}, List.Forall₂ SameUpTo m m' →
      List.Forall₂ SameUpTo (m.filter P) (m'.filter P) := by
  intro m m' h
  induction h with
  | nil => exact List.Forall₂.nil
  | @cons a b as bs hR _ ih =>
    rw [List.filter_cons, List.filter_cons, ← hP a b hR]
    by_cases hx : P a = true
    · rw [if_pos hx, if_pos hx]
      exact List.Forall₂.cons hR ih
    · rw [if_neg hx, if_neg hx]
      exact ih

theorem snapshotAll_recase {accounts accounts' : List Account}
    (h : List.Forall₂ SameUpTo accounts accounts') :
    snapshotAll accounts = snapshotAll accounts' := by
  unfold snapshotAll
  refine map_recase ?_ h
  intro a b hR
  obtain ⟨h1, h2, h3⟩ := hR
  rw [h1, h2, h3]

theorem snapshotParties_recase {accounts accounts' : List Account}
    (h : List.Forall₂ SameUpTo accounts accounts') (d c : String) :
    snapshotParties accounts d c = snapshotParties accounts' d c := by
  rw [snapshotParties_eq, snapshotParties_eq]
  refine map_recase ?_ (filter_recase ?_ h)
  · intro a b hR
    obtain ⟨h1, h2, h3⟩ := hR
    rw [h1, h2, h3]
  · intro a b hR
    rw [hR.1]

theorem snapshotExecuted_recase {accounts accounts' : List Account}
    (h : List.Forall₂ SameUpTo accounts accounts') (d c : String)
    (ndb ncb dB cB : Int) :
    snapshotExecuted accounts d c ndb ncb dB cB =
      snapshotExecuted accounts' d c ndb ncb dB cB := by
  rw [snapshotExecuted_eq, snapshotExecuted_eq]
  refine map_recase ?_ (filter_recase ?_ h)
  · intro a b hR
    obtain ⟨h1, _, h3⟩ := hR
    rw [h1, h3]
  · intro a b hR
    rw [hR.1]

theorem find?_recase {accounts accounts' : List Account}
    (h : List.Forall₂ SameUpTo accounts accounts') (x : String) :
    (accounts.find? (fun a => a.id = x) = none ∧
      accounts'.find? (fun a => a.id = x) = none) ∨
    (∃ a b, accounts.find? (fun a => a.id = x) = some a ∧
      accounts'.find? (fun a => a.id = x) = some b ∧ SameUpTo a b) := by
  induction h with
  | nil => exact Or.inl ⟨rfl, rfl⟩
  | @cons a b as bs hR _ ih =>
    by_cases hx : a.id = x
    · have hbx : b.id = x := hR.1 ▸ hx
      exact Or.inr ⟨a, b, by rw [List.find?_cons_of_pos _ (by simp [hx])],
        by rw [List.find?_cons_of_pos _ (by simp [hbx])], hR⟩
    · have hbx : ¬ b.id = x := fun hq => hx (by rw [hR.1]; exact hq)
      rw [List.find?_cons_of_neg _ (by simp [hx]),
        List.find?_cons_of_neg _ (by simp [hbx])]
      exact ih

/-- The validation chain is invariant under re-casing the letter case of
the caller-supplied account currencies: every currency an account carries
is compared and reported upper-cased. -/
theorem processParsed_recase (p : ParsedInstruction) (todayN : Int)
    {accounts accounts' : List Account}
    (h : List.Forall₂ SameUpTo accounts accounts') :
    processParsed p accounts todayN = processParsed p accounts' todayN := by
  have hAll : snapshotAll accounts = snapshotAll accounts' := snapshotAll_recase h
  have hParties := snapshotParties_recase h p.debitAccount p.creditAccount
  have hExec := fun ndb ncb dB cB =>
    snapshotExecuted_recase h p.debitAccount p.creditAccount ndb ncb dB cB
  unfold processParsed
  rw [← hAll]
  rcases find?_recase h p.debitAccount with ⟨hd1, hd2⟩ | ⟨dO, dO2, hd1, hd2, hdR⟩
  · rw [hd1, hd2]
  · rw [hd1, hd2]
    rcases find?_recase h p.creditAccount with ⟨hc1, hc2⟩ | ⟨cO, cO2, hc1, hc2, hcR⟩
    · rw [hc1, hc2]
    · rw [hc1, hc2]
      obtain ⟨hdId, hdBal, hdCur⟩ := hdR
      obtain ⟨hcId, hcBal, hcCur⟩ := hcR
      have hRS : resolvedStep p accounts todayN dO cO =
          resolvedStep p accounts' todayN dO2 cO2 := by
        unfold resolvedStep executedResult
        rw [← hdCur, ← hcCur, ← hdBal, ← hcBal, ← hParties, ← hExec]
      dsimp only
      rw [hRS]

/-- Every snapshot in a validation-chain result reports the currency of a
supplied account with the same id, upper-cased. -/
theorem processParsed_snapshot_currency (p : ParsedInstruction)
    (accounts : List Account) (todayN : Int) :
    ∀ s ∈ (processParsed p accounts todayN).accounts,
      ∃ a ∈ accounts, s.id = a.id ∧ s.currency = upperStr a.currency := by
  have hAll : ∀ s ∈ snapshotAll accounts,
      ∃ a ∈ accounts, s.id = a.id ∧ s.currency = upperStr a.currency := by
    intro s hs
    unfold snapshotAll at hs
    rw [List.mem_map] at hs
    obtain ⟨a, ha, rfl⟩ := hs
    exact ⟨a, ha, rfl, rfl⟩
  have hParties : ∀ s ∈ snapshotParties accounts p.debitAccount p.creditAccount,
      ∃ a ∈ accounts, s.id = a.id ∧ s.currency = upperStr a.currency := by
    intro s hs
    rw [snapshotParties_eq, List.mem_map] at hs
    obtain ⟨a, ha, rfl⟩ := hs
    exact ⟨a, (List.mem_filter.mp ha).1, rfl, rfl⟩
  have hExec : ∀ ndb ncb dB cB : Int,
      ∀ s ∈ snapshotExecuted accounts p.debitAccount p.creditAccount ndb ncb dB cB,
      ∃ a ∈ accounts, s.id = a.id ∧ s.currency = upperStr a.currency := by
    intro ndb ncb dB cB s hs
    rw [snapshotExecuted_eq, List.mem_map] at hs
    obtain ⟨a, ha, rfl⟩ := hs
    refine ⟨a, (List.mem_filter.mp ha).1, ?_, ?_⟩
    · by_cases hx : a.id = p.debitAccount
      · rw [if_pos hx]
      · rw [if_neg hx]
    · by_cases hx : a.id = p.debitAccount
      · rw [if_pos hx]
      · rw [if_neg hx]
  refine processParsed_elim p accounts todayN
    (motive := fun r => ∀ s ∈ r.accounts,
      ∃ a ∈ accounts, s.id = a.id ∧ s.currency = upperStr a.currency)
    ?_ ?_ ?_ ?_ ?_ ?_ ?_ ?_ ?_ ?_ ?_ ?_
  all_goals intros
  all_goals
    first
      | exact hAll
      | exact hParties
      | (rw [executedResult_accounts]; exact hExec _ _ _ _)

/-- C9: the currency checks and snapshots treat account currencies
case-insensitively: re-casing any account currency leaves the whole result
unchanged, and every snapshot reports its account's currency upper-cased. -/
theorem c9_currency_case_insensitive (instruction : String) (todayN : Int)
    (accounts accounts' : List Account)
    (h : List.Forall₂ SameUpTo accounts accounts') :
    parsePaymentInstruction accounts instruction todayN =
      parsePaymentInstruction accounts' instruction todayN ∧
    ∀ s ∈ (parsePaymentInstruction accounts instruction todayN).accounts,
      ∃ a ∈ accounts, s.id = a.id ∧ s.currency = upperStr a.currency := by
  cases hp : parseInstruction instruction with
  | none =>
    rw [parsePaymentInstruction_of_none hp, parsePaymentInstruction_of_none hp]
    exact ⟨rfl, by intro s hs; simp [unparseableResult] at hs⟩
  | some p =>
    rw [parsePaymentInstruction_of_some hp, parsePaymentInstruction_of_some hp]
    exact ⟨processParsed_recase p todayN h,
      processParsed_snapshot_currency p accounts todayN⟩

/-- C9 witness: lower-cased account currencies behave exactly like the
upper-cased ones, and the snapshots report them upper-cased. -/
theorem c9_currency_case_insensitive_witness :
    parsePaymentInstruction [⟨"a", 230, "usd"⟩, ⟨"b", 300, "Usd"⟩]
      "DEBIT 30 USD FROM ACCOUNT a FOR CREDIT TO ACCOUNT b" 0 =
    parsePaymentInstruction [⟨"a", 230, "USD"⟩, ⟨"b", 300, "USD"⟩]
      "DEBIT 30 USD FROM ACCOUNT a FOR CREDIT TO ACCOUNT b" 0 :=
  (c9_currency_case_insensitive "DEBIT 30 USD FROM ACCOUNT a FOR CREDIT TO ACCOUNT b" 0
    [⟨"a", 230, "usd"⟩, ⟨"b", 300, "Usd"⟩] [⟨"a", 230, "USD"⟩, ⟨"b", 300, "USD"⟩]
    (List.Forall₂.cons ⟨rfl, rfl, by decide⟩
      (List.Forall₂.cons ⟨rfl, rfl, by decide⟩ List.Forall₂.nil))).1

/-- C10: a parsed instruction never carries an empty-string `executeBy`
(an `ON` clause whose text is empty or whitespace-only trims to `""` and
the `executeBy || null` coercion collapses it to `null`), and an
instruction with `executeBy = null` is never rejected with `DT01`, is
never deferred, and when it does not fail it executes immediately with
status `successful` and code `AP00`. -/
theorem c10_on_empty_date (instruction : String) (p : ParsedInstruction)
    (hp : parseInstruction instruction = some p) (accounts : List Account)
    (todayN : Int) :
    p.executeBy ≠ some "" ∧
    (p.executeBy = none →
      (parsePaymentInstruction accounts instruction todayN).status_code ≠ "DT01" ∧
      (parsePaymentInstruction accounts instruction todayN).status ≠ "pending" ∧
      ((parsePaymentInstruction accounts instruction todayN).status ≠ "failed" →
        (parsePaymentInstruction accounts instruction todayN).status = "successful" ∧
        (parsePaymentInstruction accounts instruction todayN).status_code = "AP00")) := by
  refine ⟨parse_executeBy_nonempty hp, ?_⟩
  intro hnone
  rw [parsePaymentInstruction_of_some hp]
  have hpres : execByPresent p = false := by
    unfold execByPresent
    rw [hnone]
  have hfut : isFutureB p todayN = false := by
    unfold isFutureB
    rw [hpres]
    rfl
  refine processParsed_elim p accounts todayN
    (motive := fun r =>
      r.status_code ≠ "DT01" ∧ r.status ≠ "pending" ∧
      (r.status ≠ "failed" → r.status = "successful" ∧ r.status_code = "AP00"))
    ?_ ?_ ?_ ?_ ?_ ?_ ?_ ?_ ?_ ?_ ?_ ?_
  · intros
    exact ⟨by rw [failResult_status_code]; decide, by rw [failResult_status]; decide,
      fun hq => absurd (failResult_status _ _ _ _ _) hq⟩
  · intros
    exact ⟨by rw [failResult_status_code]; decide, by rw [failResult_status]; decide,
      fun hq => absurd (failResult_status _ _ _ _ _) hq⟩
  · intros
    exact ⟨by rw [failResult_status_code]; decide, by rw [failResult_status]; decide,
      fun hq => absurd (failResult_status _ _ _ _ _) hq⟩
  · intro _ _ _ h4
    rw [hpres] at h4
    simp at h4
  · intros
    exact ⟨by rw [failResult_status_code]; decide, by rw [failResult_status]; decide,
      fun hq => absurd (failResult_status _ _ _ _ _) hq⟩
  · intros
    exact ⟨by rw [failResult_status_code]; decide, by rw [failResult_status]; decide,
      fun hq => absurd (failResult_status _ _ _ _ _) hq⟩
  · intros
    exact ⟨by rw [failResult_status_code]; decide, by rw [failResult_status]; decide,
      fun hq => absurd (failResult_status _ _ _ _ _) hq⟩
  · intros
    exact ⟨by rw [failResult_status_code]; decide, by rw [failResult_status]; decide,
      fun hq => absurd (failResult_status _ _ _ _ _) hq⟩
  · intros
    exact ⟨by rw [failResult_status_code]; decide, by rw [failResult_status]; decide,
      fun hq => absurd (failResult_status _ _ _ _ _) hq⟩
  · intros
    exact ⟨by rw [failResult_status_code]; decide, by rw [failResult_status]; decide,
      fun hq => absurd (failResult_status _ _ _ _ _) hq⟩
  · intros
    exact ⟨by rw [failResult_status_code]; decide, by rw [failResult_status]; decide,
      fun hq => absurd (failResult_status _ _ _ _ _) hq⟩
  · intros
    refine ⟨?_, ?_, fun _ => ⟨?_, ?_⟩⟩
    · rw [executedResult_status_code, hfut, if_neg (by decide)]
      decide
    · rw [executedResult_status, hfut, if_neg (by decide)]
      decide
    · rw [executedResult_status, hfut, if_neg (by decide)]
    · rw [executedResult_status_code, hfut, if_neg (by decide)]

/-- C10 witness: an instruction whose `ON` clause is followed only by
whitespace parses with `executeBy = null` and executes immediately. -/
theorem c10_on_empty_date_witness :
    (parsePaymentInstruction [⟨"a", 230, "USD"⟩, ⟨"b", 300, "USD"⟩]
      "DEBIT 30 USD FROM ACCOUNT a FOR CREDIT TO ACCOUNT b ON   " 0).status =
        "successful" ∧
    (parsePaymentInstruction [⟨"a", 230, "USD"⟩, ⟨"b", 300, "USD"⟩]
      "DEBIT 30 USD FROM ACCOUNT a FOR CREDIT TO ACCOUNT b ON   " 0).status_code =
        "AP00" :=
  ((c10_on_empty_date "DEBIT 30 USD FROM ACCOUNT a FOR CREDIT TO ACCOUNT b ON   "
    ⟨"DEBIT", "30", "USD", "a", "b", none⟩ (by decide)
    [⟨"a", 230, "USD"⟩, ⟨"b", 300, "USD"⟩] 0).2 rfl).2.2 (by decide)

/-- C6 demonstration: the pending-versus-successful outcome of one fixed
input flips with the current-date reference, which the source obtains from
the system clock (`new Date()` inside `compareDateWithToday`) instead of
taking it as a parameter. -/
theorem c6_result_depends_on_wall_clock :
    (parsePaymentInstruction [⟨"a", 230, "USD"⟩, ⟨"b", 300, "USD"⟩]
      "DEBIT 30 USD FROM ACCOUNT a FOR CREDIT TO ACCOUNT b ON 2026-12-31"
      (daysFromCivil 2026 12 30)).status = "pending" ∧
    (parsePaymentInstruction [⟨"a", 230, "USD"⟩, ⟨"b", 300, "USD"⟩]
      "DEBIT 30 USD FROM ACCOUNT a FOR CREDIT TO ACCOUNT b ON 2026-12-31"
      (daysFromCivil 2027 1 1)).status = "successful" := by
  decide

/-! ## Keyword-scanning toolkit for the parser-correctness claim -/

theorem scanFor_of_isPrefixOf {pat l : List Char} (h : pat.isPrefixOf l = true)
    (i : Nat) : scanFor pat l i = some i := by
  cases l with
  | nil =>
    have : pat = [] := by
      rw [List.isPrefixOf_iff_prefix] at h
      exact List.prefix_nil.mp h
    simp [scanFor, this]
  | cons c rest =>
    unfold scanFor
    rw [if_pos h]

theorem scanFor_ge {pat : List Char} :
    ∀ {l : List Char} {i j : Nat}, scanFor pat l i = some j → i ≤ j := by
  intro l
  induction l with
  | nil =>
    intro i j h
    unfold scanFor at h
    split at h
    · exact (Option.some.inj h) ▸ le_refl i
    · exact absurd h (by simp)
  | cons c rest ih =>
    intro i j h
    unfold scanFor at h
    split at h
    · exact (Option.some.inj h) ▸ le_refl i
    · exact Nat.le_of_succ_le (ih h)

theorem scanFor_ne_some_of_not_isPrefixOf {pat l : List Char}
    (h : ¬ pat.isPrefixOf l = true) (i : Nat) : scanFor pat l i ≠ some i := by
  cases l with
  | nil =>
    intro hc
    unfold scanFor at hc
    split at hc
    · next hE =>
      exact h (by rw [List.isEmpty_iff] at hE; simp [hE, List.isPrefixOf])
    · exact absurd hc (by simp)
  | cons c rest =>
    intro hc
    unfold scanFor at hc
    rw [if_neg h] at hc
    have := scanFor_ge hc
    omega

theorem scanFor_none_iff {pat : List Char} (hp : pat ≠ []) :
    ∀ (l : List Char) (i : Nat),
      scanFor pat l i = none ↔ ∀ j : Nat, ¬ pat.isPrefixOf (l.drop j) = true := by
  intro l
  induction l with
  | nil =>
    intro i
    constructor
    · intro _ j hpre
      rw [List.drop_nil, List.isPrefixOf_iff_prefix] at hpre
      exact hp (List.prefix_nil.mp hpre)
    · intro _
      unfold scanFor
      rw [if_neg (by simpa using hp)]
  | cons c rest ih =>
    intro i
    unfold scanFor
    by_cases hpre : pat.isPrefixOf (c :: rest) = true
    · rw [if_pos hpre]
      constructor
      · intro hc
        exact absurd hc (by simp)
      · intro hall
        exact absurd hpre (by simpa using hall 0)
    · rw [if_neg hpre]
      rw [ih (i + 1)]
      constructor
      · intro hall j
        cases j with
        | zero => simpa using hpre
        | succ j => simpa [List.drop_succ_cons] using hall j
      · intro hall j
        simpa [List.drop_succ_cons] using hall (j + 1)

theorem scanFor_none_drop {pat : List Char} (hp : pat ≠ []) {l : List Char}
    (h : scanFor pat l 0 = none) (k i : Nat) : scanFor pat (l.drop k) i = none := by
  rw [scanFor_none_iff hp] at h ⊢
  intro j
  rw [List.drop_drop]
  simpa [Nat.add_comm] using h (j + k)

theorem scanFor_append_skip {pat : List Char} :
    ∀ (a : List Char) {b : List Char} (i : Nat),
      (∀ j, j < a.length → ¬ pat.isPrefixOf ((a ++ b).drop j) = true) →
      scanFor pat (a ++ b) i = scanFor pat b (i + a.length) := by
  intro a
  induction a with
  | nil => intro b i _; simp
  | cons c rest ih =>
    intro b i hnone
    rw [List.cons_append]
    show (if pat.isPrefixOf (c :: (rest ++ b)) = true then some i
          else scanFor pat (rest ++ b) (i + 1)) = scanFor pat b (i + (c :: rest).length)
    rw [if_neg (by simpa using hnone 0 (by simp))]
    rw [ih (i + 1) (fun j hj => by simpa [List.drop_succ_cons] using hnone (j + 1) (by simpa using hj))]
    have hlen : i + 1 + rest.length = i + (c :: rest).length := by
      simp only [List.length_cons]
      omega
    rw [hlen]


/-- No occurrence of a space-free pattern can start inside a region that
ends with a space and does not itself contain the pattern, whatever
follows the region. -/
theorem no_occurrence_in_region {pat : List Char} (hp : pat ≠ [])
    (hsp : ' ' ∉ pat) {A : List Char} (hend : ∃ X, A = X ++ [' '])
    (hnone : scanFor pat A 0 = none) (B : List Char) :
    ∀ j, j < A.length → ¬ pat.isPrefixOf ((A ++ B).drop j) = true := by
  intro j hj hpre
  rw [List.isPrefixOf_iff_prefix] at hpre
  obtain ⟨t, ht⟩ := hpre
  rw [List.drop_append_of_le_length (by omega)] at ht
  by_cases hcase : j + pat.length ≤ A.length
  · rw [scanFor_none_iff hp] at hnone
    refine hnone j ?_
    rw [List.isPrefixOf_iff_prefix, List.prefix_iff_eq_take]
    have h1 := congrArg (List.take pat.length) ht
    rw [List.take_append_of_le_length (le_refl _), List.take_length,
        List.take_append_of_le_length (by simp; omega)] at h1
    exact h1
  · obtain ⟨X, hX⟩ := hend
    have hlenA : A.length = X.length + 1 := by rw [hX]; simp
    have hm : X.length - j < pat.length := by omega
    have hidx : X.length - j < (pat ++ t).length := by simp; omega
    have hmA : X.length - j < (A.drop j).length := by simp; omega
    have hmAB : X.length - j < (A.drop j ++ B).length := by simp; omega
    have hjm : j + (X.length - j) < A.length := by omega
    have hXl : X.length < A.length := by omega
    have hXX : X.length < (X ++ [' ']).length := by simp
    have e1 : (pat ++ t)[X.length - j] = pat[X.length - j] :=
      List.getElem_append_left _
    have e2 : (pat ++ t)[X.length - j] = (A.drop j ++ B)[X.length - j] :=
      List.getElem_of_eq ht _
    have e3 : (A.drop j ++ B)[X.length - j] = (A.drop j)[X.length - j] :=
      List.getElem_append_left _
    have e4 : (A.drop j)[X.length - j] = A[j + (X.length - j)] := by
      rw [List.getElem_drop]
    have e5 : A[j + (X.length - j)] = A[X.length] := by
      congr 1
      omega
    have e6 : A[X.length] = ' ' := by
      have h7 : A[X.length] = (X ++ [' '])[X.length] := by
        congr 1
      rw [h7, List.getElem_append_right (by omega)]
      simp
    have hsp2 : pat[X.length - j] = ' ' := by
      rw [← e1, e2, e3, e4, e5, e6]
    exact hsp (hsp2 ▸ List.getElem_mem hm)

/-- Variant of the barrier lemma: no occurrence of a space-free pattern can
start inside a pattern-free region when the following block begins with a
space. -/
theorem no_occurrence_in_region_sp {pat : List Char} (hp : pat ≠ [])
    (hsp : ' ' ∉ pat) {A B : List Char} (hstart : ∃ Y, B = ' ' :: Y)
    (hnone : scanFor pat A 0 = none) :
    ∀ j, j < A.length → ¬ pat.isPrefixOf ((A ++ B).drop j) = true := by
  intro j hj hpre
  rw [List.isPrefixOf_iff_prefix] at hpre
  obtain ⟨t, ht⟩ := hpre
  rw [List.drop_append_of_le_length (by omega)] at ht
  by_cases hcase : j + pat.length ≤ A.length
  · rw [scanFor_none_iff hp] at hnone
    refine hnone j ?_
    rw [List.isPrefixOf_iff_prefix, List.prefix_iff_eq_take]
    have h1 := congrArg (List.take pat.length) ht
    rw [List.take_append_of_le_length (le_refl _), List.take_length,
        List.take_append_of_le_length (by simp; omega)] at h1
    exact h1
  · obtain ⟨Y, hY⟩ := hstart
    have hm : A.length - j < pat.length := by omega
    have hidx : A.length - j < (pat ++ t).length := by simp; omega
    have hmB : A.length - j < (A.drop j ++ B).length := by
      rw [hY]; simp
    have e1 : (pat ++ t)[A.length - j] = pat[A.length - j] :=
      List.getElem_append_left _
    have e2 : (pat ++ t)[A.length - j] = (A.drop j ++ B)[A.length - j] :=
      List.getElem_of_eq ht _
    have e3 : (A.drop j ++ B)[A.length - j] = ' ' := by
      rw [List.getElem_append_right (by simp)]
      simp [hY]
    have hsp2 : pat[A.length - j] = ' ' := by
      rw [← e1, e2, e3]
    exact hsp (hsp2 ▸ List.getElem_mem hm)

/-- A space-free pattern absent from `A` and from `B` is absent from
`A ++ B` when `A` ends with a space. -/
theorem scanFor_none_append_endsp {pat A B : List Char} (hp : pat ≠ [])
    (hsp : ' ' ∉ pat) (hend : ∃ X, A = X ++ [' '])
    (hA : scanFor pat A 0 = none) (hB : scanFor pat B 0 = none) :
    scanFor pat (A ++ B) 0 = none := by
  rw [scanFor_append_skip A 0 (no_occurrence_in_region hp hsp hend hA B)]
  rw [scanFor_none_iff hp] at hB ⊢
  exact hB

/-- A space-free pattern absent from `A` and from `B` is absent from
`A ++ B` when `B` starts with a space. -/
theorem scanFor_none_append_startsp {pat A B : List Char} (hp : pat ≠ [])
    (hsp : ' ' ∉ pat) (hstart : ∃ Y, B = ' ' :: Y)
    (hA : scanFor pat A 0 = none) (hB : scanFor pat B 0 = none) :
    scanFor pat (A ++ B) 0 = none := by
  rw [scanFor_append_skip A 0 (no_occurrence_in_region_sp hp hsp hstart hA)]
  rw [scanFor_none_iff hp] at hB ⊢
  exact hB

/-- A space-free nonempty pattern never occurs in a run of spaces. -/
theorem scanFor_none_spaces {pat : List Char} (hp : pat ≠ [])
    (hsp : ' ' ∉ pat) (n i : Nat) :
    scanFor pat (List.replicate n ' ') i = none := by
  rw [scanFor_none_iff hp]
  intro j hpre
  rw [List.drop_replicate, List.isPrefixOf_iff_prefix] at hpre
  obtain ⟨t, ht⟩ := hpre
  rcases pat with _ | ⟨c, rest⟩
  · exact hp rfl
  · rcases hnj : n - j with _ | m
    · rw [hnj] at ht
      simp at ht
    · rw [hnj, List.replicate_succ, List.cons_append] at ht
      injection ht with h1 h2
      subst h1
      exact hsp (List.mem_cons_self _ _)

/-- A run of `n + 1` spaces ends with a space. -/
theorem spaces_ends_sp (n : Nat) :
    ∃ X, List.replicate (n + 1) ' ' = X ++ [' '] :=
  ⟨List.replicate n ' ', List.replicate_succ' n ' '⟩

/-- Master positive lemma: scanning for a space-free pattern over a
pattern-free region (ending in a space) followed by an occurrence finds
exactly the boundary position. -/
theorem scanFor_region {pat R rest : List Char} (hp : pat ≠ []) (hsp : ' ' ∉ pat)
    (hend : ∃ X, R = X ++ [' ']) (hnone : scanFor pat R 0 = none)
    (hpre : pat.isPrefixOf rest = true) (i : Nat) :
    scanFor pat (R ++ rest) i = some (i + R.length) := by
  rw [scanFor_append_skip R i (no_occurrence_in_region hp hsp hend hnone rest)]
  exact scanFor_of_isPrefixOf hpre _

theorem lowerList_append (a b : List Char) :
    lowerList (a ++ b) = lowerList a ++ lowerList b := List.map_append _ a b

theorem lowerList_replicate_space (n : Nat) :
    lowerList (List.replicate n ' ') = List.replicate n ' ' := by
  unfold lowerList
  rw [List.map_replicate, show (' '.toLower) = ' ' by decide]

theorem lowerList_length (l : List Char) : (lowerList l).length = l.length :=
  List.length_map l _

/-- Resolving one keyword search: if the lowered instruction splits as a
prefix `P`, the lowered keyword, and a suffix, the search from any start
inside a keyword-free tail of `P` (that is empty or ends with a space)
finds the keyword exactly at `P.length`. -/
theorem findKeywordIndex_split {t kw P S : List Char} (start : Nat)
    (hsplit : lowerList t = P ++ (lowerList kw ++ S))
    (hstart : start ≤ P.length)
    (hp : lowerList kw ≠ []) (hsp : ' ' ∉ lowerList kw)
    (hnone : scanFor (lowerList kw) (P.drop start) 0 = none)
    (hend : start = P.length ∨ ∃ X, P.drop start = X ++ [' ']) :
    findKeywordIndex t kw start = some P.length := by
  unfold findKeywordIndex jsIndexOf
  rw [hsplit, List.drop_append_of_le_length hstart]
  have hpre : (lowerList kw).isPrefixOf (lowerList kw ++ S) = true := by
    rw [List.isPrefixOf_iff_prefix]
    exact List.prefix_append _ _
  rcases hend with he | hend
  · have hPd : P.drop start = [] := by
      rw [he, List.drop_length]
    rw [hPd, List.nil_append, scanFor_of_isPrefixOf hpre 0]
    simp [he]
  · rw [scanFor_region hp hsp hend hnone hpre 0]
    simp
    omega

theorem jsSubstring_segment {A M B : List Char} {a b : Nat}
    (ha : a = A.length) (hb : b = A.length + M.length) :
    jsSubstring (A ++ M ++ B) a b = M := by
  subst ha
  subst hb
  unfold jsSubstring
  rw [min_eq_left (by omega), max_eq_right (by omega)]
  rw [List.take_left' (by simp), List.drop_left]

theorem drop_segment {A M : List Char} {a : Nat} (ha : a = A.length) :
    (A ++ M).drop a = M := by
  subst ha
  exact List.drop_left _ _

theorem dropWhile_append_all {p : Char → Bool} :
    ∀ {w l : List Char}, (∀ c ∈ w, p c = true) →
      (w ++ l).dropWhile p = l.dropWhile p := by
  intro w
  induction w with
  | nil => intro l _; rfl
  | cons c cs ih =>
    intro l hall
    rw [List.cons_append, List.dropWhile_cons, if_pos (hall c (by simp))]
    exact ih (fun d hd => hall d (by simp [hd]))

theorem dropWhile_cons_neg {p : Char → Bool} {c : Char} {l : List Char}
    (h : p c = false) : (c :: l).dropWhile p = c :: l := by
  rw [List.dropWhile_cons, if_neg (by simp [h])]

/-- `trim` of whitespace, a non-whitespace-edged core, and whitespace. -/
theorem trimList_eq {w1 w2 M : List Char} (h1 : ∀ c ∈ w1, isJsSpace c = true)
    (h2 : ∀ c ∈ w2, isJsSpace c = true)
    (hh : ∃ a M1, M = a :: M1 ∧ isJsSpace a = false)
    (hl : ∃ b M2, M = M2 ++ [b] ∧ isJsSpace b = false) :
    trimList (w1 ++ (M ++ w2)) = M := by
  obtain ⟨a, M1, hM1, ha⟩ := hh
  obtain ⟨b, M2, hM2, hb⟩ := hl
  unfold trimList
  have step1 : (w1 ++ (M ++ w2)).dropWhile isJsSpace = M ++ w2 := by
    rw [dropWhile_append_all h1, hM1, List.cons_append, dropWhile_cons_neg ha,
        ← List.cons_append, ← hM1]
  rw [step1]
  have hrev : M.reverse = b :: M2.reverse := by
    rw [hM2]
    simp
  have step2 : (M ++ w2).reverse.dropWhile isJsSpace = M.reverse := by
    rw [List.reverse_append,
        dropWhile_append_all (fun c hc => h2 c (List.mem_reverse.mp hc)),
        hrev, dropWhile_cons_neg hb]
  rw [step2, List.reverse_reverse]

theorem comp_head {x rest : List Char} (hne : x ≠ [])
    (hall : ∀ c ∈ x, isJsSpace c = false) :
    ∃ a M1, x ++ rest = a :: M1 ∧ isJsSpace a = false := by
  rcases x with _ | ⟨a, x1⟩
  · exact absurd rfl hne
  · exact ⟨a, x1 ++ rest, by simp, hall a (by simp)⟩

theorem comp_last {x pre : List Char} (hne : x ≠ [])
    (hall : ∀ c ∈ x, isJsSpace c = false) :
    ∃ b M2, pre ++ x = M2 ++ [b] ∧ isJsSpace b = false := by
  rcases List.eq_nil_or_concat x with h | ⟨x2, b, h⟩
  · exact absurd h hne
  · exact ⟨b, pre ++ x2,
      by rw [h]; simp [List.concat_eq_append, List.append_assoc],
      hall b (by rw [h]; simp)⟩

theorem splitChar_ne_nil (sep : Char) : ∀ l, splitChar sep l ≠ [] := by
  intro l
  induction l with
  | nil => simp [splitChar]
  | cons c rest ih =>
    unfold splitChar
    cases h : splitChar sep rest with
    | nil => simp
    | cons hd tl =>
      dsimp only
      split <;> simp

theorem splitChar_cons_sep (sep : Char) (l : List Char) :
    splitChar sep (sep :: l) = [] :: splitChar sep l := by
  show (match splitChar sep l with
        | [] => ([[]] : List (List Char))
        | h :: t => if sep = sep then [] :: h :: t else (sep :: h) :: t) =
      [] :: splitChar sep l
  cases h : splitChar sep l with
  | nil => exact absurd h (splitChar_ne_nil sep l)
  | cons hd tl =>
    dsimp only
    rw [if_pos rfl]

theorem splitChar_nosep {sep : Char} : ∀ {x : List Char}, sep ∉ x →
    splitChar sep x = [x] := by
  intro x
  induction x with
  | nil => intro _; rfl
  | cons c rest ih =>
    intro h
    have hc : ¬ (c = sep) := fun e => h (e ▸ List.mem_cons_self _ _)
    unfold splitChar
    rw [ih (fun hm => h (List.mem_cons_of_mem _ hm))]
    dsimp only
    rw [if_neg hc]

theorem splitChar_sep_cons {sep : Char} : ∀ {x : List Char}, sep ∉ x → ∀ rest,
    splitChar sep (x ++ sep :: rest) = x :: splitChar sep rest := by
  intro x
  induction x with
  | nil =>
    intro _ rest
    rw [List.nil_append]
    exact splitChar_cons_sep sep rest
  | cons c cs ih =>
    intro h rest
    have hc : ¬ (c = sep) := fun e => h (e ▸ List.mem_cons_self _ _)
    rw [List.cons_append]
    show (match splitChar sep (cs ++ sep :: rest) with
          | [] => ([[]] : List (List Char))
          | h :: t => if c = sep then [] :: h :: t else (c :: h) :: t) =
        (c :: cs) :: splitChar sep rest
    rw [ih (fun hm => h (List.mem_cons_of_mem _ hm)) rest]
    dsimp only
    rw [if_neg hc]

theorem splitChar_spaces_prefix {x : List Char} (h : ' ' ∉ x) :
    ∀ m, splitChar ' ' (List.replicate m ' ' ++ x) =
      List.replicate m ([] : List Char) ++ [x] := by
  intro m
  induction m with
  | zero => simpa using splitChar_nosep h
  | succ m ih =>
    rw [List.replicate_succ, List.cons_append, splitChar_cons_sep, ih,
        List.replicate_succ, List.cons_append]

/-- The filtered token list of `amt ++ spaces ++ cur` is `[amt, cur]`. -/
theorem tokens_two {amt cur : List Char} (hamt : ' ' ∉ amt) (hcur : ' ' ∉ cur)
    (hamt_ne : amt ≠ []) (hcur_ne : cur ≠ []) (m : Nat) :
    (splitChar ' ' (amt ++ (List.replicate (m + 1) ' ' ++ cur))).filter
      (fun tok => tok.length > 0) = [amt, cur] := by
  rw [List.replicate_succ, List.cons_append, splitChar_sep_cons hamt,
      splitChar_spaces_prefix hcur m]
  simp [List.filter_cons, List.filter_append, List.filter_replicate,
        List.length_pos, hamt_ne, hcur_ne]

/-- A run of `n + 1` spaces: the inter-token separators of a well-formed
instruction rendering. -/
def sp (n : Nat) : List Char := List.replicate (n + 1) ' '

/-- A clean token: nonempty and free of JS whitespace characters. -/
def cleanTok (x : List Char) : Bool := !x.isEmpty && x.all (fun c => !isJsSpace c)

theorem sp_lower (n : Nat) : lowerList (sp n) = sp n := by
  unfold sp
  exact lowerList_replicate_space _

theorem sp_length (n : Nat) : (sp n).length = n + 1 := by
  unfold sp
  exact List.length_replicate _ _

theorem sp_all_space (n : Nat) : ∀ c ∈ sp n, isJsSpace c = true := by
  intro c hc
  unfold sp at hc
  rw [List.eq_of_mem_replicate hc]
  decide

theorem sp_starts (n : Nat) (rest : List Char) :
    ∃ Y, sp n ++ rest = ' ' :: Y := by
  refine ⟨List.replicate n ' ' ++ rest, ?_⟩
  unfold sp
  rw [List.replicate_succ, List.cons_append]

theorem ends_sp_of_eq {R L : List Char} (n : Nat) (h : R = L ++ sp n) :
    ∃ X, R = X ++ [' '] := by
  refine ⟨L ++ List.replicate n ' ', ?_⟩
  rw [h, show sp n = List.replicate n ' ' ++ [' '] from List.replicate_succ' n ' ',
      List.append_assoc]

theorem isJsSpace_toLower_eq {c : Char} (h : isJsSpace c = true) :
    c.toLower = c := by
  simp [isJsSpace] at h
  rcases h with ((((rfl | rfl) | rfl) | rfl) | rfl) | rfl <;> decide

theorem cleanTok_spec {x : List Char} (h : cleanTok x = true) :
    x ≠ [] ∧ (∀ c ∈ x, isJsSpace c = false) ∧ ' ' ∉ x := by
  rw [cleanTok, Bool.and_eq_true] at h
  obtain ⟨h1, h2⟩ := h
  have hne : x ≠ [] := by
    intro e
    rw [e] at h1
    simp at h1
  have hall : ∀ c ∈ x, isJsSpace c = false := by
    intro c hc
    have := List.all_eq_true.mp h2 c hc
    simpa using this
  refine ⟨hne, hall, fun hm => ?_⟩
  have := hall ' ' hm
  simp [isJsSpace] at this

/-- A token whose lowering is a given whitespace-free keyword is itself
nonempty and whitespace-free. -/
theorem kw_clean {x k : List Char} (hx : lowerList x = k)
    (hknos : k.all (fun c => !isJsSpace c) = true) (hkne : k ≠ []) :
    x ≠ [] ∧ ∀ c ∈ x, isJsSpace c = false := by
  constructor
  · intro e
    rw [e] at hx
    exact hkne hx.symm
  · intro c hc
    by_contra hcs
    have h1 : isJsSpace c = true := by
      revert hcs
      cases isJsSpace c <;> simp
    have h2 : c.toLower ∈ k := by
      rw [← hx]
      exact List.mem_map_of_mem _ hc
    rw [isJsSpace_toLower_eq h1] at h2
    have := List.all_eq_true.mp hknos _ h2
    rw [h1] at this
    simp at this

theorem trimList_clean {x : List Char} (hne : x ≠ [])
    (hall : ∀ c ∈ x, isJsSpace c = false) : trimList x = x := by
  have hh : ∃ a M1, x = a :: M1 ∧ isJsSpace a = false := by
    rcases x with _ | ⟨a, x1⟩
    · exact absurd rfl hne
    · exact ⟨a, x1, rfl, hall a (by simp)⟩
  have hl : ∃ b M2, x = M2 ++ [b] ∧ isJsSpace b = false := by
    rcases List.eq_nil_or_concat x with h | ⟨x2, b, h⟩
    · exact absurd h hne
    · exact ⟨b, x2, by rw [h]; simp [List.concat_eq_append],
        hall b (by rw [h]; simp)⟩
  have h := @trimList_eq [] [] x (by simp) (by simp) hh hl
  simpa using h

theorem noOcc_sp {pat : List Char} (hp : pat ≠ []) (hsp : ' ' ∉ pat) (n : Nat) :
    scanFor pat (sp n) 0 = none := by
  unfold sp
  exact scanFor_none_spaces hp hsp _ 0

theorem noOcc_sp_then {pat rest : List Char} (hp : pat ≠ []) (hsp : ' ' ∉ pat)
    (n : Nat) (hrest : scanFor pat rest 0 = none) :
    scanFor pat (sp n ++ rest) 0 = none := by
  refine scanFor_none_append_endsp hp hsp ?_ (noOcc_sp hp hsp n) hrest
  exact ⟨List.replicate n ' ', List.replicate_succ' n ' '⟩

theorem noOcc_tok_then {pat tok rest : List Char} (hp : pat ≠ []) (hsp : ' ' ∉ pat)
    (htok : scanFor pat tok 0 = none) (hrest : scanFor pat rest 0 = none)
    (hstart : ∃ Y, rest = ' ' :: Y) :
    scanFor pat (tok ++ rest) 0 = none :=
  scanFor_none_append_startsp hp hsp hstart htok hrest

theorem noOcc_tok_sp {pat tok : List Char} (hp : pat ≠ []) (hsp : ' ' ∉ pat)
    (n : Nat) (htok : scanFor pat tok 0 = none) :
    scanFor pat (tok ++ sp n) 0 = none :=
  noOcc_tok_then hp hsp htok (noOcc_sp hp hsp n) (by simpa using sp_starts n [])

theorem ends_sp_1 (a : List Char) (n : Nat) : ∃ X, a ++ sp n = X ++ [' '] := by
  refine ⟨a ++ List.replicate n ' ', ?_⟩
  rw [show sp n = List.replicate n ' ' ++ [' '] from List.replicate_succ' n ' ']
  simp [List.append_assoc]

theorem ends_sp_2 (a b : List Char) (n : Nat) :
    ∃ X, a ++ (b ++ sp n) = X ++ [' '] := by
  refine ⟨a ++ (b ++ List.replicate n ' '), ?_⟩
  rw [show sp n = List.replicate n ' ' ++ [' '] from List.replicate_succ' n ' ']
  simp [List.append_assoc]

theorem ends_sp_4 (a b c d : List Char) (n : Nat) :
    ∃ X, a ++ (b ++ (c ++ (d ++ sp n))) = X ++ [' '] := by
  refine ⟨a ++ (b ++ (c ++ (d ++ List.replicate n ' '))), ?_⟩
  rw [show sp n = List.replicate n ' ' ++ [' '] from List.replicate_succ' n ' ']
  simp [List.append_assoc]

theorem clean_head {x : List Char} (hne : x ≠ [])
    (hall : ∀ c ∈ x, isJsSpace c = false) :
    ∃ a M1, x = a :: M1 ∧ isJsSpace a = false := by
  rcases x with _ | ⟨a, x1⟩
  · exact absurd rfl hne
  · exact ⟨a, x1, rfl, hall a (by simp)⟩

theorem clean_last {x : List Char} (hne : x ≠ [])
    (hall : ∀ c ∈ x, isJsSpace c = false) :
    ∃ b M2, x = M2 ++ [b] ∧ isJsSpace b = false := by
  rcases List.eq_nil_or_concat x with h | ⟨x2, b, h⟩
  · exact absurd h hne
  · exact ⟨b, x2, by rw [h]; simp [List.concat_eq_append],
      hall b (by rw [h]; simp)⟩

/-- The parser on a well-formed DEBIT rendering without an ON clause. -/
theorem parse_debit_noOn
    (bw ew kd am cu da ca k1 a1 k2 k3 k4 a2 : List Char)
    (s1 s2 s3 s4 s5 s6 s7 s8 s9 s10 : Nat)
    (hbw : ∀ c ∈ bw, isJsSpace c = true) (hew : ∀ c ∈ ew, isJsSpace c = true)
    (hkd : lowerList kd = "debit".data) (hk1 : lowerList k1 = "from".data)
    (ha1 : lowerList a1 = "account".data) (hk2 : lowerList k2 = "for".data)
    (hk3 : lowerList k3 = "credit".data) (hk4 : lowerList k4 = "to".data)
    (ha2 : lowerList a2 = "account".data)
    (ham : cleanTok am = true) (hcu : cleanTok cu = true)
    (hda : cleanTok da = true) (hca : cleanTok ca = true)
    (hamf : scanFor "from".data (lowerList am) 0 = none)
    (hcuf : scanFor "from".data (lowerList cu) 0 = none)
    (hdaf : scanFor "for".data (lowerList da) 0 = none)
    (hcao : scanFor "on".data (lowerList ca) 0 = none) :
    parseInstruction (String.mk (bw ++ ((kd ++ (sp s1 ++ (am ++ (sp s2 ++ (cu ++ (sp s3 ++ (k1 ++ (sp s4 ++ (a1 ++ (sp s5 ++ (da ++ (sp s6 ++ (k2 ++ (sp s7 ++ (k3 ++ (sp s8 ++ (k4 ++ (sp s9 ++ (a2 ++ (sp s10 ++ ca)))))))))))))))))))) ++ ew))) =
      some ⟨"DEBIT", String.mk am, String.mk (upperList cu), String.mk da,
            String.mk ca, none⟩ := by
  obtain ⟨ham_ne, ham_ns, ham_nsp⟩ := cleanTok_spec ham
  obtain ⟨hcu_ne, hcu_ns, hcu_nsp⟩ := cleanTok_spec hcu
  obtain ⟨hda_ne, hda_ns, hda_nsp⟩ := cleanTok_spec hda
  obtain ⟨hca_ne, hca_ns, hca_nsp⟩ := cleanTok_spec hca
  obtain ⟨hkd_ne, hkd_ns⟩ := kw_clean hkd (by decide) (by decide)
  have lkd : kd.length = 5 := by rw [← lowerList_length, hkd]; decide
  have la1 : a1.length = 7 := by rw [← lowerList_length, ha1]; decide
  have la2 : a2.length = 7 := by rw [← lowerList_length, ha2]; decide
  have lk3 : k3.length = 6 := by rw [← lowerList_length, hk3]; decide
  have hacc : ("account".data).length = 7 := by decide
  have hcre : ("credit".data).length = 6 := by decide
  set T10 : List Char := sp s10 ++ ca with hT10
  set T9 : List Char := sp s9 ++ (a2 ++ T10) with hT9
  set T8 : List Char := sp s8 ++ (k4 ++ T9) with hT8
  set T7 : List Char := sp s7 ++ (k3 ++ T8) with hT7
  set T6 : List Char := sp s6 ++ (k2 ++ T7) with hT6
  set T5 : List Char := sp s5 ++ (da ++ T6) with hT5
  set T4 : List Char := sp s4 ++ (a1 ++ T5) with hT4
  set T3 : List Char := sp s3 ++ (k1 ++ T4) with hT3
  set T2 : List Char := sp s2 ++ (cu ++ T3) with hT2
  set T1 : List Char := sp s1 ++ (am ++ T2) with hT1
  set CORE : List Char := kd ++ T1 with hCORE
  set A1 : List Char := kd ++ (sp s1 ++ (am ++ (sp s2 ++ (cu ++ sp s3)))) with hA1
  set A2 : List Char := A1 ++ (k1 ++ sp s4) with hA2
  set A3 : List Char := A2 ++ (a1 ++ (sp s5 ++ (da ++ sp s6))) with hA3
  set A4 : List Char := A3 ++ (k2 ++ sp s7) with hA4
  set A5 : List Char := A4 ++ (k3 ++ sp s8) with hA5
  set A6 : List Char := A5 ++ (k4 ++ sp s9) with hA6
  have htrim : trimList (bw ++ (CORE ++ ew)) = CORE := by
    refine trimList_eq hbw hew ?_ ?_
    · rw [hCORE]
      exact comp_head hkd_ne hkd_ns
    · have hsh : CORE = (kd ++ (sp s1 ++ (am ++ (sp s2 ++ (cu ++ (sp s3 ++ (k1 ++ (sp s4 ++ (a1 ++ (sp s5 ++ (da ++ (sp s6 ++ (k2 ++ (sp s7 ++ (k3 ++ (sp s8 ++ (k4 ++ (sp s9 ++ (a2 ++ sp s10))))))))))))))))))) ++ ca := by
        rw [hCORE, hT1, hT2, hT3, hT4, hT5, hT6, hT7, hT8, hT9, hT10]
        simp [List.append_assoc]
      rw [hsh]
      exact comp_last hca_ne hca_ns
  have hspD : lowerList CORE = [] ++ (lowerList "DEBIT".data ++ lowerList T1) := by
    rw [hCORE, lowerList_append kd T1, hkd, List.nil_append,
        show lowerList "DEBIT".data = "debit".data from by decide]
  have hsD : findKeywordIndex CORE "DEBIT".data 0 = some 0 := by
    have h := findKeywordIndex_split 0 hspD (by simp) (by decide) (by decide)
      (by decide) (Or.inl rfl)
    simpa using h
  have hshF : CORE = A1 ++ (k1 ++ T4) := by
    rw [hCORE, hT1, hT2, hT3, hA1]
    simp [List.append_assoc]
  have hspF : lowerList CORE = lowerList A1 ++ (lowerList "FROM".data ++ lowerList T4) := by
    rw [hshF, lowerList_append A1 (k1 ++ T4), lowerList_append k1 T4, hk1,
        show lowerList "FROM".data = "from".data from by decide]
  have hdropF : (lowerList A1).drop 5 = sp s1 ++ (lowerList am ++ (sp s2 ++ (lowerList cu ++ sp s3))) := by
    rw [hA1]
    simp only [lowerList_append, sp_lower]
    rw [hkd]
    exact drop_segment (by decide)
  have hsF : findKeywordIndex CORE "FROM".data 5 = some A1.length := by
    have h := findKeywordIndex_split 5 hspF
      (by rw [lowerList_length, hA1]; simp only [List.length_append, sp_length, lkd]; omega)
      (by decide) (by decide)
      (by rw [show lowerList "FROM".data = "from".data from by decide, hdropF]
          exact noOcc_sp_then (by decide) (by decide) s1
            (noOcc_tok_then (by decide) (by decide) hamf
              (noOcc_sp_then (by decide) (by decide) s2
                (noOcc_tok_sp (by decide) (by decide) s3 hcuf))
              (sp_starts s2 _)))
      (Or.inr (by rw [hdropF]; exact ends_sp_4 _ _ _ _ s3))
    rwa [lowerList_length] at h
  have hshA1 : CORE = A2 ++ (a1 ++ T5) := by
    rw [hCORE, hT1, hT2, hT3, hT4, hA2, hA1]
    simp [List.append_assoc]
  have hspA1 : lowerList CORE = lowerList A2 ++ (lowerList "ACCOUNT".data ++ lowerList T5) := by
    rw [hshA1, lowerList_append A2 (a1 ++ T5), lowerList_append a1 T5, ha1,
        show lowerList "ACCOUNT".data = "account".data from by decide]
  have hdropA1 : (lowerList A2).drop A1.length = "from".data ++ sp s4 := by
    rw [hA2, lowerList_append A1 (k1 ++ sp s4),
        drop_segment (lowerList_length A1).symm,
        lowerList_append k1 (sp s4), hk1, sp_lower]
  have hsA1 : findKeywordIndex CORE "ACCOUNT".data A1.length = some A2.length := by
    have h := findKeywordIndex_split A1.length hspA1
      (by rw [lowerList_length, hA2]; simp only [List.length_append]; omega)
      (by decide) (by decide)
      (by rw [show lowerList "ACCOUNT".data = "account".data from by decide, hdropA1]
          exact noOcc_tok_sp (by decide) (by decide) s4 (by decide))
      (Or.inr (by rw [hdropA1]; exact ends_sp_1 _ s4))
    rwa [lowerList_length] at h
  have hshA2 : CORE = A3 ++ (k2 ++ T7) := by
    rw [hCORE, hT1, hT2, hT3, hT4, hT5, hT6, hA3, hA2, hA1]
    simp [List.append_assoc]
  have hspA2 : lowerList CORE = lowerList A3 ++ (lowerList "FOR".data ++ lowerList T7) := by
    rw [hshA2, lowerList_append A3 (k2 ++ T7), lowerList_append k2 T7, hk2,
        show lowerList "FOR".data = "for".data from by decide]
  have hdropA2 : (lowerList A3).drop (A2.length + 7) = sp s5 ++ (lowerList da ++ sp s6) := by
    rw [hA3, lowerList_append A2 (a1 ++ (sp s5 ++ (da ++ sp s6))),
        show lowerList (a1 ++ (sp s5 ++ (da ++ sp s6))) = "account".data ++ (sp s5 ++ (lowerList da ++ sp s6)) from by
          rw [lowerList_append a1 (sp s5 ++ (da ++ sp s6)),
              lowerList_append (sp s5) (da ++ sp s6),
              lowerList_append da (sp s6), ha1, sp_lower, sp_lower],
        ← List.append_assoc]
    exact drop_segment (by rw [List.length_append (lowerList A2) _, lowerList_length, hacc])
  have hsA2 : findKeywordIndex CORE "FOR".data (A2.length + 7) = some A3.length := by
    have h := findKeywordIndex_split (A2.length + 7) hspA2
      (by rw [lowerList_length, hA3]; simp only [List.length_append, sp_length, la1]; omega)
      (by decide) (by decide)
      (by rw [show lowerList "FOR".data = "for".data from by decide, hdropA2]
          exact noOcc_sp_then (by decide) (by decide) s5
            (noOcc_tok_sp (by decide) (by decide) s6 hdaf))
      (Or.inr (by rw [hdropA2]; exact ends_sp_2 _ _ s6))
    rwa [lowerList_length] at h
  have hshA3 : CORE = A4 ++ (k3 ++ T8) := by
    rw [hCORE, hT1, hT2, hT3, hT4, hT5, hT6, hT7, hA4, hA3, hA2, hA1]
    simp [List.append_assoc]
  have hspA3 : lowerList CORE = lowerList A4 ++ (lowerList "CREDIT".data ++ lowerList T8) := by
    rw [hshA3, lowerList_append A4 (k3 ++ T8), lowerList_append k3 T8, hk3,
        show lowerList "CREDIT".data = "credit".data from by decide]
  have hdropA3 : (lowerList A4).drop A3.length = "for".data ++ sp s7 := by
    rw [hA4, lowerList_append A3 (k2 ++ sp s7),
        drop_segment (lowerList_length A3).symm,
        lowerList_append k2 (sp s7), hk2, sp_lower]
  have hsA3 : findKeywordIndex CORE "CREDIT".data A3.length = some A4.length := by
    have h := findKeywordIndex_split A3.length hspA3
      (by rw [lowerList_length, hA4]; simp only [List.length_append]; omega)
      (by decide) (by decide)
      (by rw [show lowerList "CREDIT".data = "credit".data from by decide, hdropA3]
          exact noOcc_tok_sp (by decide) (by decide) s7 (by decide))
      (Or.inr (by rw [hdropA3]; exact ends_sp_1 _ s7))
    rwa [lowerList_length] at h
  have hshA4 : CORE = A5 ++ (k4 ++ T9) := by
    rw [hCORE, hT1, hT2, hT3, hT4, hT5, hT6, hT7, hT8, hA5, hA4, hA3, hA2, hA1]
    simp [List.append_assoc]
  have hspA4 : lowerList CORE = lowerList A5 ++ (lowerList "TO".data ++ lowerList T9) := by
    rw [hshA4, lowerList_append A5 (k4 ++ T9), lowerList_append k4 T9, hk4,
        show lowerList "TO".data = "to".data from by decide]
  have hdropA4 : (lowerList A5).drop (A4.length + 6) = sp s8 := by
    rw [hA5, lowerList_append A4 (k3 ++ sp s8),
        show lowerList (k3 ++ sp s8) = "credit".data ++ sp s8 from by
          rw [lowerList_append k3 (sp s8), hk3, sp_lower],
        ← List.append_assoc]
    exact drop_segment (by rw [List.length_append (lowerList A4) _, lowerList_length, hcre])
  have hsA4 : findKeywordIndex CORE "TO".data (A4.length + 6) = some A5.length := by
    have h := findKeywordIndex_split (A4.length + 6) hspA4
      (by rw [lowerList_length, hA5]; simp only [List.length_append, sp_length, lk3]; omega)
      (by decide) (by decide)
      (by rw [show lowerList "TO".data = "to".data from by decide, hdropA4]
          exact noOcc_sp (by decide) (by decide) s8)
      (Or.inr (by rw [hdropA4]; exact spaces_ends_sp s8))
    rwa [lowerList_length] at h
  have hshA5 : CORE = A6 ++ (a2 ++ T10) := by
    rw [hCORE, hT1, hT2, hT3, hT4, hT5, hT6, hT7, hT8, hT9, hA6, hA5, hA4, hA3, hA2, hA1]
    simp [List.append_assoc]
  have hspA5 : lowerList CORE = lowerList A6 ++ (lowerList "ACCOUNT".data ++ lowerList T10) := by
    rw [hshA5, lowerList_append A6 (a2 ++ T10), lowerList_append a2 T10, ha2,
        show lowerList "ACCOUNT".data = "account".data from by decide]
  have hdropA5 : (lowerList A6).drop A5.length = "to".data ++ sp s9 := by
    rw [hA6, lowerList_append A5 (k4 ++ sp s9),
        drop_segment (lowerList_length A5).symm,
        lowerList_append k4 (sp s9), hk4, sp_lower]
  have hsA5 : findKeywordIndex CORE "ACCOUNT".data A5.length = some A6.length := by
    have h := findKeywordIndex_split A5.length hspA5
      (by rw [lowerList_length, hA6]; simp only [List.length_append]; omega)
      (by decide) (by decide)
      (by rw [show lowerList "ACCOUNT".data = "account".data from by decide, hdropA5]
          exact noOcc_tok_sp (by decide) (by decide) s9 (by decide))
      (Or.inr (by rw [hdropA5]; exact ends_sp_1 _ s9))
    rwa [lowerList_length] at h
  have hlowFull : lowerList CORE = (lowerList A6 ++ "account".data) ++ (sp s10 ++ lowerList ca) := by
    rw [hshA5, hT10, lowerList_append A6 (a2 ++ (sp s10 ++ ca)),
        lowerList_append a2 (sp s10 ++ ca), lowerList_append (sp s10) ca,
        ha2, sp_lower, ← List.append_assoc]
  have hsOn : findKeywordIndex CORE "ON".data (A6.length + 7) = none := by
    unfold findKeywordIndex jsIndexOf
    rw [show lowerList "ON".data = "on".data from by decide, hlowFull,
        drop_segment (by rw [List.length_append (lowerList A6) _, lowerList_length, hacc]),
        noOcc_sp_then (by decide) (by decide) s10 hcao]
    rfl
  have hseg1 : extractBetween CORE 5 (some A1.length) = am ++ (sp s2 ++ cu) := by
    show trimList (jsSubstring CORE 5 A1.length) = am ++ (sp s2 ++ cu)
    have hshape : CORE = kd ++ (sp s1 ++ (am ++ (sp s2 ++ (cu ++ sp s3)))) ++ (k1 ++ T4) := by
      rw [hCORE, hT1, hT2, hT3]
      simp [List.append_assoc]
    have hb1 : A1.length = kd.length + (sp s1 ++ (am ++ (sp s2 ++ (cu ++ sp s3)))).length := by
      have h := congrArg List.length hA1
      simp only [List.length_append] at h ⊢
      omega
    rw [hshape, jsSubstring_segment lkd.symm hb1]
    have hsh2 : sp s1 ++ (am ++ (sp s2 ++ (cu ++ sp s3))) = sp s1 ++ ((am ++ (sp s2 ++ cu)) ++ sp s3) := by
      simp [List.append_assoc]
    rw [hsh2]
    refine trimList_eq (sp_all_space s1) (sp_all_space s3) (comp_head ham_ne ham_ns) ?_
    rw [← List.append_assoc]
    exact comp_last hcu_ne hcu_ns
  have htoks : (splitChar ' ' (am ++ (sp s2 ++ cu))).filter (fun tok => tok.length > 0) = [am, cu] :=
    tokens_two ham_nsp hcu_nsp ham_ne hcu_ne s2
  have hsegD : extractBetween CORE (A2.length + 7) (some A3.length) = da := by
    show trimList (jsSubstring CORE (A2.length + 7) A3.length) = da
    have hshape : CORE = (A2 ++ a1) ++ (sp s5 ++ (da ++ sp s6)) ++ (k2 ++ T7) := by
      rw [hCORE, hT1, hT2, hT3, hT4, hT5, hT6, hA2, hA1]
      simp [List.append_assoc]
    have haD : A2.length + 7 = (A2 ++ a1).length := by
      rw [List.length_append A2 a1, la1]
    have hbD : A3.length = (A2 ++ a1).length + (sp s5 ++ (da ++ sp s6)).length := by
      have h := congrArg List.length hA3
      simp only [List.length_append] at h ⊢
      omega
    rw [hshape, jsSubstring_segment haD hbD]
    exact trimList_eq (sp_all_space s5) (sp_all_space s6)
      (clean_head hda_ne hda_ns) (clean_last hda_ne hda_ns)
  have hsegC : extractBetween CORE (A6.length + 7) none = ca := by
    show trimList (CORE.drop (A6.length + 7)) = ca
    have hshape : CORE = (A6 ++ a2) ++ (sp s10 ++ ca) := by
      rw [hshA5, hT10]
      simp [List.append_assoc]
    rw [hshape, drop_segment (by rw [List.length_append A6 a2, la2])]
    rw [show sp s10 ++ ca = sp s10 ++ (ca ++ []) from by simp]
    exact trimList_eq (sp_all_space s10) (by simp)
      (clean_head hca_ne hca_ns) (clean_last hca_ne hca_ns)
  unfold parseInstruction
  simp only []
  rw [htrim]
  rw [if_neg (fun hcon => hcon.1 hsD), if_pos hsD]
  simp only [hsF, hseg1, htoks, hsA1, hsA2, hsA3, hsA4, hsA5, hsOn, hsegD, hsegC,
    trimList_clean hda_ne hda_ns, trimList_clean hca_ne hca_ns]
  rfl

/-- The parser on a well-formed DEBIT rendering with an ON clause. -/
theorem parse_debit_withOn
    (bw ew kd am cu da ca k1 a1 k2 k3 k4 a2 ko dt : List Char)
    (s1 s2 s3 s4 s5 s6 s7 s8 s9 s10 s11 s12 : Nat)
    (hbw : ∀ c ∈ bw, isJsSpace c = true) (hew : ∀ c ∈ ew, isJsSpace c = true)
    (hkd : lowerList kd = "debit".data) (hk1 : lowerList k1 = "from".data)
    (ha1 : lowerList a1 = "account".data) (hk2 : lowerList k2 = "for".data)
    (hk3 : lowerList k3 = "credit".data) (hk4 : lowerList k4 = "to".data)
    (ha2 : lowerList a2 = "account".data) (hko : lowerList ko = "on".data)
    (ham : cleanTok am = true) (hcu : cleanTok cu = true)
    (hda : cleanTok da = true) (hca : cleanTok ca = true) (hdt : cleanTok dt = true)
    (hamf : scanFor "from".data (lowerList am) 0 = none)
    (hcuf : scanFor "from".data (lowerList cu) 0 = none)
    (hdaf : scanFor "for".data (lowerList da) 0 = none)
    (hcao : scanFor "on".data (lowerList ca) 0 = none) :
    parseInstruction (String.mk (bw ++ ((kd ++ (sp s1 ++ (am ++ (sp s2 ++ (cu ++ (sp s3 ++ (k1 ++ (sp s4 ++ (a1 ++ (sp s5 ++ (da ++ (sp s6 ++ (k2 ++ (sp s7 ++ (k3 ++ (sp s8 ++ (k4 ++ (sp s9 ++ (a2 ++ (sp s10 ++ (ca ++ (sp s11 ++ (ko ++ (sp s12 ++ dt)))))))))))))))))))))))) ++ ew))) =
      some ⟨"DEBIT", String.mk am, String.mk (upperList cu), String.mk da,
            String.mk ca, some (String.mk dt)⟩ := by
  obtain ⟨ham_ne, ham_ns, ham_nsp⟩ := cleanTok_spec ham
  obtain ⟨hcu_ne, hcu_ns, hcu_nsp⟩ := cleanTok_spec hcu
  obtain ⟨hda_ne, hda_ns, hda_nsp⟩ := cleanTok_spec hda
  obtain ⟨hca_ne, hca_ns, hca_nsp⟩ := cleanTok_spec hca
  obtain ⟨hdt_ne, hdt_ns, hdt_nsp⟩ := cleanTok_spec hdt
  obtain ⟨hkd_ne, hkd_ns⟩ := kw_clean hkd (by decide) (by decide)
  have lkd : kd.length = 5 := by rw [← lowerList_length, hkd]; decide
  have la1 : a1.length = 7 := by rw [← lowerList_length, ha1]; decide
  have la2 : a2.length = 7 := by rw [← lowerList_length, ha2]; decide
  have lk3 : k3.length = 6 := by rw [← lowerList_length, hk3]; decide
  have lko : ko.length = 2 := by rw [← lowerList_length, hko]; decide
  have hacc : ("account".data).length = 7 := by decide
  have hcre : ("credit".data).length = 6 := by decide
  set T12 : List Char := sp s12 ++ dt with hT12
  set T11 : List Char := sp s11 ++ (ko ++ T12) with hT11
  set T10 : List Char := sp s10 ++ (ca ++ T11) with hT10
  set T9 : List Char := sp s9 ++ (a2 ++ T10) with hT9
  set T8 : List Char := sp s8 ++ (k4 ++ T9) with hT8
  set T7 : List Char := sp s7 ++ (k3 ++ T8) with hT7
  set T6 : List Char := sp s6 ++ (k2 ++ T7) with hT6
  set T5 : List Char := sp s5 ++ (da ++ T6) with hT5
  set T4 : List Char := sp s4 ++ (a1 ++ T5) with hT4
  set T3 : List Char := sp s3 ++ (k1 ++ T4) with hT3
  set T2 : List Char := sp s2 ++ (cu ++ T3) with hT2
  set T1 : List Char := sp s1 ++ (am ++ T2) with hT1
  set CORE : List Char := kd ++ T1 with hCORE
  set A1 : List Char := kd ++ (sp s1 ++ (am ++ (sp s2 ++ (cu ++ sp s3)))) with hA1
  set A2 : List Char := A1 ++ (k1 ++ sp s4) with hA2
  set A3 : List Char := A2 ++ (a1 ++ (sp s5 ++ (da ++ sp s6))) with hA3
  set A4 : List Char := A3 ++ (k2 ++ sp s7) with hA4
  set A5 : List Char := A4 ++ (k3 ++ sp s8) with hA5
  set A6 : List Char := A5 ++ (k4 ++ sp s9) with hA6
  set A7 : List Char := A6 ++ (a2 ++ (sp s10 ++ (ca ++ sp s11))) with hA7
  have htrim : trimList (bw ++ (CORE ++ ew)) = CORE := by
    refine trimList_eq hbw hew ?_ ?_
    · rw [hCORE]
      exact comp_head hkd_ne hkd_ns
    · have hsh : CORE = (kd ++ (sp s1 ++ (am ++ (sp s2 ++ (cu ++ (sp s3 ++ (k1 ++ (sp s4 ++ (a1 ++ (sp s5 ++ (da ++ (sp s6 ++ (k2 ++ (sp s7 ++ (k3 ++ (sp s8 ++ (k4 ++ (sp s9 ++ (a2 ++ (sp s10 ++ (ca ++ (sp s11 ++ (ko ++ sp s12))))))))))))))))))))))) ++ dt := by
        rw [hCORE, hT1, hT2, hT3, hT4, hT5, hT6, hT7, hT8, hT9, hT10, hT11, hT12]
        simp [List.append_assoc]
      rw [hsh]
      exact comp_last hdt_ne hdt_ns
  have hspD : lowerList CORE = [] ++ (lowerList "DEBIT".data ++ lowerList T1) := by
    rw [hCORE, lowerList_append kd T1, hkd, List.nil_append,
        show lowerList "DEBIT".data = "debit".data from by decide]
  have hsD : findKeywordIndex CORE "DEBIT".data 0 = some 0 := by
    have h := findKeywordIndex_split 0 hspD (by simp) (by decide) (by decide)
      (by decide) (Or.inl rfl)
    simpa using h
  have hshF : CORE = A1 ++ (k1 ++ T4) := by
    rw [hCORE, hT1, hT2, hT3, hA1]
    simp [List.append_assoc]
  have hspF : lowerList CORE = lowerList A1 ++ (lowerList "FROM".data ++ lowerList T4) := by
    rw [hshF, lowerList_append A1 (k1 ++ T4), lowerList_append k1 T4, hk1,
        show lowerList "FROM".data = "from".data from by decide]
  have hdropF : (lowerList A1).drop 5 = sp s1 ++ (lowerList am ++ (sp s2 ++ (lowerList cu ++ sp s3))) := by
    rw [hA1]
    simp only [lowerList_append, sp_lower]
    rw [hkd]
    exact drop_segment (by decide)
  have hsF : findKeywordIndex CORE "FROM".data 5 = some A1.length := by
    have h := findKeywordIndex_split 5 hspF
      (by rw [lowerList_length, hA1]; simp only [List.length_append, sp_length, lkd]; omega)
      (by decide) (by decide)
      (by rw [show lowerList "FROM".data = "from".data from by decide, hdropF]
          exact noOcc_sp_then (by decide) (by decide) s1
            (noOcc_tok_then (by decide) (by decide) hamf
              (noOcc_sp_then (by decide) (by decide) s2
                (noOcc_tok_sp (by decide) (by decide) s3 hcuf))
              (sp_starts s2 _)))
      (Or.inr (by rw [hdropF]; exact ends_sp_4 _ _ _ _ s3))
    rwa [lowerList_length] at h
  have hshA1 : CORE = A2 ++ (a1 ++ T5) := by
    rw [hCORE, hT1, hT2, hT3, hT4, hA2, hA1]
    simp [List.append_assoc]
  have hspA1 : lowerList CORE = lowerList A2 ++ (lowerList "ACCOUNT".data ++ lowerList T5) := by
    rw [hshA1, lowerList_append A2 (a1 ++ T5), lowerList_append a1 T5, ha1,
        show lowerList "ACCOUNT".data = "account".data from by decide]
  have hdropA1 : (lowerList A2).drop A1.length = "from".data ++ sp s4 := by
    rw [hA2, lowerList_append A1 (k1 ++ sp s4),
        drop_segment (lowerList_length A1).symm,
        lowerList_append k1 (sp s4), hk1, sp_lower]
  have hsA1 : findKeywordIndex CORE "ACCOUNT".data A1.length = some A2.length := by
    have h := findKeywordIndex_split A1.length hspA1
      (by rw [lowerList_length, hA2]; simp only [List.length_append]; omega)
      (by decide) (by decide)
      (by rw [show lowerList "ACCOUNT".data = "account".data from by decide, hdropA1]
          exact noOcc_tok_sp (by decide) (by decide) s4 (by decide))
      (Or.inr (by rw [hdropA1]; exact ends_sp_1 _ s4))
    rwa [lowerList_length] at h
  have hshA2 : CORE = A3 ++ (k2 ++ T7) := by
    rw [hCORE, hT1, hT2, hT3, hT4, hT5, hT6, hA3, hA2, hA1]
    simp [List.append_assoc]
  have hspA2 : lowerList CORE = lowerList A3 ++ (lowerList "FOR".data ++ lowerList T7) := by
    rw [hshA2, lowerList_append A3 (k2 ++ T7), lowerList_append k2 T7, hk2,
        show lowerList "FOR".data = "for".data from by decide]
  have hdropA2 : (lowerList A3).drop (A2.length + 7) = sp s5 ++ (lowerList da ++ sp s6) := by
    rw [hA3, lowerList_append A2 (a1 ++ (sp s5 ++ (da ++ sp s6))),
        show lowerList (a1 ++ (sp s5 ++ (da ++ sp s6))) = "account".data ++ (sp s5 ++ (lowerList da ++ sp s6)) from by
          rw [lowerList_append a1 (sp s5 ++ (da ++ sp s6)),
              lowerList_append (sp s5) (da ++ sp s6),
              lowerList_append da (sp s6), ha1, sp_lower, sp_lower],
        ← List.append_assoc]
    exact drop_segment (by rw [List.length_append (lowerList A2) _, lowerList_length, hacc])
  have hsA2 : findKeywordIndex CORE "FOR".data (A2.length + 7) = some A3.length := by
    have h := findKeywordIndex_split (A2.length + 7) hspA2
      (by rw [lowerList_length, hA3]; simp only [List.length_append, sp_length, la1]; omega)
      (by decide) (by decide)
      (by rw [show lowerList "FOR".data = "for".data from by decide, hdropA2]
          exact noOcc_sp_then (by decide) (by decide) s5
            (noOcc_tok_sp (by decide) (by decide) s6 hdaf))
      (Or.inr (by rw [hdropA2]; exact ends_sp_2 _ _ s6))
    rwa [lowerList_length] at h
  have hshA3 : CORE = A4 ++ (k3 ++ T8) := by
    rw [hCORE, hT1, hT2, hT3, hT4, hT5, hT6, hT7, hA4, hA3, hA2, hA1]
    simp [List.append_assoc]
  have hspA3 : lowerList CORE = lowerList A4 ++ (lowerList "CREDIT".data ++ lowerList T8) := by
    rw [hshA3, lowerList_append A4 (k3 ++ T8), lowerList_append k3 T8, hk3,
        show lowerList "CREDIT".data = "credit".data from by decide]
  have hdropA3 : (lowerList A4).drop A3.length = "for".data ++ sp s7 := by
    rw [hA4, lowerList_append A3 (k2 ++ sp s7),
        drop_segment (lowerList_length A3).symm,
        lowerList_append k2 (sp s7), hk2, sp_lower]
  have hsA3 : findKeywordIndex CORE "CREDIT".data A3.length = some A4.length := by
    have h := findKeywordIndex_split A3.length hspA3
      (by rw [lowerList_length, hA4]; simp only [List.length_append]; omega)
      (by decide) (by decide)
      (by rw [show lowerList "CREDIT".data = "credit".data from by decide, hdropA3]
          exact noOcc_tok_sp (by decide) (by decide) s7 (by decide))
      (Or.inr (by rw [hdropA3]; exact ends_sp_1 _ s7))
    rwa [lowerList_length] at h
  have hshA4 : CORE = A5 ++ (k4 ++ T9) := by
    rw [hCORE, hT1, hT2, hT3, hT4, hT5, hT6, hT7, hT8, hA5, hA4, hA3, hA2, hA1]
    simp [List.append_assoc]
  have hspA4 : lowerList CORE = lowerList A5 ++ (lowerList "TO".data ++ lowerList T9) := by
    rw [hshA4, lowerList_append A5 (k4 ++ T9), lowerList_append k4 T9, hk4,
        show lowerList "TO".data = "to".data from by decide]
  have hdropA4 : (lowerList A5).drop (A4.length + 6) = sp s8 := by
    rw [hA5, lowerList_append A4 (k3 ++ sp s8),
        show lowerList (k3 ++ sp s8) = "credit".data ++ sp s8 from by
          rw [lowerList_append k3 (sp s8), hk3, sp_lower],
        ← List.append_assoc]
    exact drop_segment (by rw [List.length_append (lowerList A4) _, lowerList_length, hcre])
  have hsA4 : findKeywordIndex CORE "TO".data (A4.length + 6) = some A5.length := by
    have h := findKeywordIndex_split (A4.length + 6) hspA4
      (by rw [lowerList_length, hA5]; simp only [List.length_append, sp_length, lk3]; omega)
      (by decide) (by decide)
      (by rw [show lowerList "TO".data = "to".data from by decide, hdropA4]
          exact noOcc_sp (by decide) (by decide) s8)
      (Or.inr (by rw [hdropA4]; exact spaces_ends_sp s8))
    rwa [lowerList_length] at h
  have hshA5 : CORE = A6 ++ (a2 ++ T10) := by
    rw [hCORE, hT1, hT2, hT3, hT4, hT5, hT6, hT7, hT8, hT9, hA6, hA5, hA4, hA3, hA2, hA1]
    simp [List.append_assoc]
  have hspA5 : lowerList CORE = lowerList A6 ++ (lowerList "ACCOUNT".data ++ lowerList T10) := by
    rw [hshA5, lowerList_append A6 (a2 ++ T10), lowerList_append a2 T10, ha2,
        show lowerList "ACCOUNT".data = "account".data from by decide]
  have hdropA5 : (lowerList A6).drop A5.length = "to".data ++ sp s9 := by
    rw [hA6, lowerList_append A5 (k4 ++ sp s9),
        drop_segment (lowerList_length A5).symm,
        lowerList_append k4 (sp s9), hk4, sp_lower]
  have hsA5 : findKeywordIndex CORE "ACCOUNT".data A5.length = some A6.length := by
    have h := findKeywordIndex_split A5.length hspA5
      (by rw [lowerList_length, hA6]; simp only [List.length_append]; omega)
      (by decide) (by decide)
      (by rw [show lowerList "ACCOUNT".data = "account".data from by decide, hdropA5]
          exact noOcc_tok_sp (by decide) (by decide) s9 (by decide))
      (Or.inr (by rw [hdropA5]; exact ends_sp_1 _ s9))
    rwa [lowerList_length] at h
  have hshOn : CORE = A7 ++ (ko ++ T12) := by
    rw [hCORE, hT1, hT2, hT3, hT4, hT5, hT6, hT7, hT8, hT9, hT10, hT11, hA7, hA6, hA5, hA4, hA3, hA2, hA1]
    simp [List.append_assoc]
  have hspOn : lowerList CORE = lowerList A7 ++ (lowerList "ON".data ++ lowerList T12) := by
    rw [hshOn, lowerList_append A7 (ko ++ T12), lowerList_append ko T12, hko,
        show lowerList "ON".data = "on".data from by decide]
  have hdropOn : (lowerList A7).drop (A6.length + 7) = sp s10 ++ (lowerList ca ++ sp s11) := by
    rw [hA7, lowerList_append A6 (a2 ++ (sp s10 ++ (ca ++ sp s11))),
        show lowerList (a2 ++ (sp s10 ++ (ca ++ sp s11))) = "account".data ++ (sp s10 ++ (lowerList ca ++ sp s11)) from by
          rw [lowerList_append a2 (sp s10 ++ (ca ++ sp s11)),
              lowerList_append (sp s10) (ca ++ sp s11),
              lowerList_append ca (sp s11), ha2, sp_lower, sp_lower],
        ← List.append_assoc]
    exact drop_segment (by rw [List.length_append (lowerList A6) _, lowerList_length, hacc])
  have hsOn : findKeywordIndex CORE "ON".data (A6.length + 7) = some A7.length := by
    have h := findKeywordIndex_split (A6.length + 7) hspOn
      (by rw [lowerList_length, hA7]; simp only [List.length_append, sp_length, la2]; omega)
      (by decide) (by decide)
      (by rw [show lowerList "ON".data = "on".data from by decide, hdropOn]
          exact noOcc_sp_then (by decide) (by decide) s10
            (noOcc_tok_sp (by decide) (by decide) s11 hcao))
      (Or.inr (by rw [hdropOn]; exact ends_sp_2 _ _ s11))
    rwa [lowerList_length] at h
  have hseg1 : extractBetween CORE 5 (some A1.length) = am ++ (sp s2 ++ cu) := by
    show trimList (jsSubstring CORE 5 A1.length) = am ++ (sp s2 ++ cu)
    have hshape : CORE = kd ++ (sp s1 ++ (am ++ (sp s2 ++ (cu ++ sp s3)))) ++ (k1 ++ T4) := by
      rw [hCORE, hT1, hT2, hT3]
      simp [List.append_assoc]
    have hb1 : A1.length = kd.length + (sp s1 ++ (am ++ (sp s2 ++ (cu ++ sp s3)))).length := by
      have h := congrArg List.length hA1
      simp only [List.length_append] at h ⊢
      omega
    rw [hshape, jsSubstring_segment lkd.symm hb1]
    have hsh2 : sp s1 ++ (am ++ (sp s2 ++ (cu ++ sp s3))) = sp s1 ++ ((am ++ (sp s2 ++ cu)) ++ sp s3) := by
      simp [List.append_assoc]
    rw [hsh2]
    refine trimList_eq (sp_all_space s1) (sp_all_space s3) (comp_head ham_ne ham_ns) ?_
    rw [← List.append_assoc]
    exact comp_last hcu_ne hcu_ns
  have htoks : (splitChar ' ' (am ++ (sp s2 ++ cu))).filter (fun tok => tok.length > 0) = [am, cu] :=
    tokens_two ham_nsp hcu_nsp ham_ne hcu_ne s2
  have hsegD : extractBetween CORE (A2.length + 7) (some A3.length) = da := by
    show trimList (jsSubstring CORE (A2.length + 7) A3.length) = da
    have hshape : CORE = (A2 ++ a1) ++ (sp s5 ++ (da ++ sp s6)) ++ (k2 ++ T7) := by
      rw [hCORE, hT1, hT2, hT3, hT4, hT5, hT6, hA2, hA1]
      simp [List.append_assoc]
    have haD : A2.length + 7 = (A2 ++ a1).length := by
      rw [List.length_append A2 a1, la1]
    have hbD : A3.length = (A2 ++ a1).length + (sp s5 ++ (da ++ sp s6)).length := by
      have h := congrArg List.length hA3
      simp only [List.length_append] at h ⊢
      omega
    rw [hshape, jsSubstring_segment haD hbD]
    exact trimList_eq (sp_all_space s5) (sp_all_space s6)
      (clean_head hda_ne hda_ns) (clean_last hda_ne hda_ns)
  have hsegC : extractBetween CORE (A6.length + 7) (some A7.length) = ca := by
    show trimList (jsSubstring CORE (A6.length + 7) A7.length) = ca
    have hshape : CORE = (A6 ++ a2) ++ (sp s10 ++ (ca ++ sp s11)) ++ (ko ++ T12) := by
      rw [hCORE, hT1, hT2, hT3, hT4, hT5, hT6, hT7, hT8, hT9, hT10, hT11, hA6, hA5, hA4, hA3, hA2, hA1]
      simp [List.append_assoc]
    have haC : A6.length + 7 = (A6 ++ a2).length := by
      rw [List.length_append A6 a2, la2]
    have hbC : A7.length = (A6 ++ a2).length + (sp s10 ++ (ca ++ sp s11)).length := by
      have h := congrArg List.length hA7
      simp only [List.length_append] at h ⊢
      omega
    rw [hshape, jsSubstring_segment haC hbC]
    exact trimList_eq (sp_all_space s10) (sp_all_space s11)
      (clean_head hca_ne hca_ns) (clean_last hca_ne hca_ns)
  have hsegE : extractBetween CORE (A7.length + 2) none = dt := by
    show trimList (CORE.drop (A7.length + 2)) = dt
    have hshape : CORE = (A7 ++ ko) ++ (sp s12 ++ dt) := by
      rw [hCORE, hT1, hT2, hT3, hT4, hT5, hT6, hT7, hT8, hT9, hT10, hT11, hT12, hA7, hA6, hA5, hA4, hA3, hA2, hA1]
      simp [List.append_assoc]
    rw [hshape, drop_segment (by rw [List.length_append A7 ko, lko])]
    rw [show sp s12 ++ dt = sp s12 ++ (dt ++ []) from by simp]
    exact trimList_eq (sp_all_space s12) (by simp)
      (clean_head hdt_ne hdt_ns) (clean_last hdt_ne hdt_ns)
  have hex : mkExecuteBy (some dt) = some (String.mk dt) := by
    show (if dt.isEmpty then none else some (String.mk dt)) = some (String.mk dt)
    rw [if_neg (fun h => hdt_ne (by simpa using h))]
  unfold parseInstruction
  simp only []
  rw [htrim]
  rw [if_neg (fun hcon => hcon.1 hsD), if_pos hsD]
  simp only [hsF, hseg1, htoks, hsA1, hsA2, hsA3, hsA4, hsA5, hsOn, hsegD, hsegC, hsegE,
    trimList_clean hda_ne hda_ns, trimList_clean hca_ne hca_ns,
    trimList_clean hdt_ne hdt_ns, hex]

theorem isPrefixOf_head_ne {a b : Char} {p q : List Char} (hne : ¬ a = b) :
    (a :: p).isPrefixOf (b :: q) = false := by
  show (a == b && p.isPrefixOf q) = false
  have h : (a == b) = false := by simp [hne]
  rw [h, Bool.false_and]

/-- The parser on a well-formed CREDIT rendering without an ON clause. -/
theorem parse_credit_noOn
    (bw ew kc am cu da ca k1 a1 k2 kd k4 a2 : List Char)
    (s1 s2 s3 s4 s5 s6 s7 s8 s9 s10 : Nat)
    (hbw : ∀ c ∈ bw, isJsSpace c = true) (hew : ∀ c ∈ ew, isJsSpace c = true)
    (hkc : lowerList kc = "credit".data) (hk1 : lowerList k1 = "from".data)
    (ha1 : lowerList a1 = "account".data) (hk2 : lowerList k2 = "for".data)
    (hkd : lowerList kd = "debit".data) (hk4 : lowerList k4 = "to".data)
    (ha2 : lowerList a2 = "account".data)
    (ham : cleanTok am = true) (hcu : cleanTok cu = true)
    (hda : cleanTok da = true) (hca : cleanTok ca = true)
    (hamt : scanFor "to".data (lowerList am) 0 = none)
    (hcut : scanFor "to".data (lowerList cu) 0 = none)
    (hcaf : scanFor "for".data (lowerList ca) 0 = none)
    (hdao : scanFor "on".data (lowerList da) 0 = none) :
    parseInstruction (String.mk (bw ++ ((kc ++ (sp s1 ++ (am ++ (sp s2 ++ (cu ++ (sp s3 ++ (k4 ++ (sp s4 ++ (a1 ++ (sp s5 ++ (ca ++ (sp s6 ++ (k2 ++ (sp s7 ++ (kd ++ (sp s8 ++ (k1 ++ (sp s9 ++ (a2 ++ (sp s10 ++ da)))))))))))))))))))) ++ ew))) =
      some ⟨"CREDIT", String.mk am, String.mk (upperList cu), String.mk da,
            String.mk ca, none⟩ := by
  obtain ⟨ham_ne, ham_ns, ham_nsp⟩ := cleanTok_spec ham
  obtain ⟨hcu_ne, hcu_ns, hcu_nsp⟩ := cleanTok_spec hcu
  obtain ⟨hda_ne, hda_ns, hda_nsp⟩ := cleanTok_spec hda
  obtain ⟨hca_ne, hca_ns, hca_nsp⟩ := cleanTok_spec hca
  obtain ⟨hkc_ne, hkc_ns⟩ := kw_clean hkc (by decide) (by decide)
  have lkc : kc.length = 6 := by rw [← lowerList_length, hkc]; decide
  have la1 : a1.length = 7 := by rw [← lowerList_length, ha1]; decide
  have la2 : a2.length = 7 := by rw [← lowerList_length, ha2]; decide
  have lkd : kd.length = 5 := by rw [← lowerList_length, hkd]; decide
  have hacc : ("account".data).length = 7 := by decide
  have hdeb : ("debit".data).length = 5 := by decide
  set T10 : List Char := sp s10 ++ da with hT10
  set T9 : List Char := sp s9 ++ (a2 ++ T10) with hT9
  set T8 : List Char := sp s8 ++ (k1 ++ T9) with hT8
  set T7 : List Char := sp s7 ++ (kd ++ T8) with hT7
  set T6 : List Char := sp s6 ++ (k2 ++ T7) with hT6
  set T5 : List Char := sp s5 ++ (ca ++ T6) with hT5
  set T4 : List Char := sp s4 ++ (a1 ++ T5) with hT4
  set T3 : List Char := sp s3 ++ (k4 ++ T4) with hT3
  set T2 : List Char := sp s2 ++ (cu ++ T3) with hT2
  set T1 : List Char := sp s1 ++ (am ++ T2) with hT1
  set CORE : List Char := kc ++ T1 with hCORE
  set A1 : List Char := kc ++ (sp s1 ++ (am ++ (sp s2 ++ (cu ++ sp s3)))) with hA1
  set A2 : List Char := A1 ++ (k4 ++ sp s4) with hA2
  set A3 : List Char := A2 ++ (a1 ++ (sp s5 ++ (ca ++ sp s6))) with hA3
  set A4 : List Char := A3 ++ (k2 ++ sp s7) with hA4
  set A5 : List Char := A4 ++ (kd ++ sp s8) with hA5
  set A6 : List Char := A5 ++ (k1 ++ sp s9) with hA6
  have htrim : trimList (bw ++ (CORE ++ ew)) = CORE := by
    refine trimList_eq hbw hew ?_ ?_
    · rw [hCORE]
      exact comp_head hkc_ne hkc_ns
    · have hsh : CORE = (kc ++ (sp s1 ++ (am ++ (sp s2 ++ (cu ++ (sp s3 ++ (k4 ++ (sp s4 ++ (a1 ++ (sp s5 ++ (ca ++ (sp s6 ++ (k2 ++ (sp s7 ++ (kd ++ (sp s8 ++ (k1 ++ (sp s9 ++ (a2 ++ sp s10))))))))))))))))))) ++ da := by
        rw [hCORE, hT1, hT2, hT3, hT4, hT5, hT6, hT7, hT8, hT9, hT10]
        simp [List.append_assoc]
      rw [hsh]
      exact comp_last hda_ne hda_ns
  have hspC : lowerList CORE = [] ++ (lowerList "CREDIT".data ++ lowerList T1) := by
    rw [hCORE, lowerList_append kc T1, hkc, List.nil_append,
        show lowerList "CREDIT".data = "credit".data from by decide]
  have hsC : findKeywordIndex CORE "CREDIT".data 0 = some 0 := by
    have h := findKeywordIndex_split 0 hspC (by simp) (by decide) (by decide)
      (by decide) (Or.inl rfl)
    simpa using h
  have hnotD : ¬ (findKeywordIndex CORE "DEBIT".data 0 = some 0) := by
    intro hcon
    unfold findKeywordIndex jsIndexOf at hcon
    obtain ⟨j, hj, hje⟩ := Option.map_eq_some'.mp hcon
    have hj0 : j = 0 := by omega
    subst hj0
    have hnpre : (lowerList "DEBIT".data).isPrefixOf ((lowerList CORE).drop 0) = false := by
      rw [List.drop_zero, hspC, List.nil_append,
          show lowerList "CREDIT".data = 'c' :: "redit".data from by decide,
          show lowerList "DEBIT".data = 'd' :: "ebit".data from by decide,
          List.cons_append]
      exact isPrefixOf_head_ne (by decide)
    exact scanFor_ne_some_of_not_isPrefixOf (by rw [hnpre]; simp) 0 hj
  have hshT : CORE = A1 ++ (k4 ++ T4) := by
    rw [hCORE, hT1, hT2, hT3, hA1]
    simp [List.append_assoc]
  have hspT : lowerList CORE = lowerList A1 ++ (lowerList "TO".data ++ lowerList T4) := by
    rw [hshT, lowerList_append A1 (k4 ++ T4), lowerList_append k4 T4, hk4,
        show lowerList "TO".data = "to".data from by decide]
  have hdropT : (lowerList A1).drop 6 = sp s1 ++ (lowerList am ++ (sp s2 ++ (lowerList cu ++ sp s3))) := by
    rw [hA1]
    simp only [lowerList_append, sp_lower]
    rw [hkc]
    exact drop_segment (by decide)
  have hsT : findKeywordIndex CORE "TO".data 6 = some A1.length := by
    have h := findKeywordIndex_split 6 hspT
      (by rw [lowerList_length, hA1]; simp only [List.length_append, sp_length, lkc]; omega)
      (by decide) (by decide)
      (by rw [show lowerList "TO".data = "to".data from by decide, hdropT]
          exact noOcc_sp_then (by decide) (by decide) s1
            (noOcc_tok_then (by decide) (by decide) hamt
              (noOcc_sp_then (by decide) (by decide) s2
                (noOcc_tok_sp (by decide) (by decide) s3 hcut))
              (sp_starts s2 _)))
      (Or.inr (by rw [hdropT]; exact ends_sp_4 _ _ _ _ s3))
    rwa [lowerList_length] at h
  have hshA1 : CORE = A2 ++ (a1 ++ T5) := by
    rw [hCORE, hT1, hT2, hT3, hT4, hA2, hA1]
    simp [List.append_assoc]
  have hspA1 : lowerList CORE = lowerList A2 ++ (lowerList "ACCOUNT".data ++ lowerList T5) := by
    rw [hshA1, lowerList_append A2 (a1 ++ T5), lowerList_append a1 T5, ha1,
        show lowerList "ACCOUNT".data = "account".data from by decide]
  have hdropA1 : (lowerList A2).drop A1.length = "to".data ++ sp s4 := by
    rw [hA2, lowerList_append A1 (k4 ++ sp s4),
        drop_segment (lowerList_length A1).symm,
        lowerList_append k4 (sp s4), hk4, sp_lower]
  have hsA1 : findKeywordIndex CORE "ACCOUNT".data A1.length = some A2.length := by
    have h := findKeywordIndex_split A1.length hspA1
      (by rw [lowerList_length, hA2]; simp only [List.length_append]; omega)
      (by decide) (by decide)
      (by rw [show lowerList "ACCOUNT".data = "account".data from by decide, hdropA1]
          exact noOcc_tok_sp (by decide) (by decide) s4 (by decide))
      (Or.inr (by rw [hdropA1]; exact ends_sp_1 _ s4))
    rwa [lowerList_length] at h
  have hshA2 : CORE = A3 ++ (k2 ++ T7) := by
    rw [hCORE, hT1, hT2, hT3, hT4, hT5, hT6, hA3, hA2, hA1]
    simp [List.append_assoc]
  have hspA2 : lowerList CORE = lowerList A3 ++ (lowerList "FOR".data ++ lowerList T7) := by
    rw [hshA2, lowerList_append A3 (k2 ++ T7), lowerList_append k2 T7, hk2,
        show lowerList "FOR".data = "for".data from by decide]
  have hdropA2 : (lowerList A3).drop (A2.length + 7) = sp s5 ++ (lowerList ca ++ sp s6) := by
    rw [hA3, lowerList_append A2 (a1 ++ (sp s5 ++ (ca ++ sp s6))),
        show lowerList (a1 ++ (sp s5 ++ (ca ++ sp s6))) = "account".data ++ (sp s5 ++ (lowerList ca ++ sp s6)) from by
          rw [lowerList_append a1 (sp s5 ++ (ca ++ sp s6)),
              lowerList_append (sp s5) (ca ++ sp s6),
              lowerList_append ca (sp s6), ha1, sp_lower, sp_lower],
        ← List.append_assoc]
    exact drop_segment (by rw [List.length_append (lowerList A2) _, lowerList_length, hacc])
  have hsA2 : findKeywordIndex CORE "FOR".data (A2.length + 7) = some A3.length := by
    have h := findKeywordIndex_split (A2.length + 7) hspA2
      (by rw [lowerList_length, hA3]; simp only [List.length_append, sp_length, la1]; omega)
      (by decide) (by decide)
      (by rw [show lowerList "FOR".data = "for".data from by decide, hdropA2]
          exact noOcc_sp_then (by decide) (by decide) s5
            (noOcc_tok_sp (by decide) (by decide) s6 hcaf))
      (Or.inr (by rw [hdropA2]; exact ends_sp_2 _ _ s6))
    rwa [lowerList_length] at h
  have hshA3 : CORE = A4 ++ (kd ++ T8) := by
    rw [hCORE, hT1, hT2, hT3, hT4, hT5, hT6, hT7, hA4, hA3, hA2, hA1]
    simp [List.append_assoc]
  have hspA3 : lowerList CORE = lowerList A4 ++ (lowerList "DEBIT".data ++ lowerList T8) := by
    rw [hshA3, lowerList_append A4 (kd ++ T8), lowerList_append kd T8, hkd,
        show lowerList "DEBIT".data = "debit".data from by decide]
  have hdropA3 : (lowerList A4).drop A3.length = "for".data ++ sp s7 := by
    rw [hA4, lowerList_append A3 (k2 ++ sp s7),
        drop_segment (lowerList_length A3).symm,
        lowerList_append k2 (sp s7), hk2, sp_lower]
  have hsA3 : findKeywordIndex CORE "DEBIT".data A3.length = some A4.length := by
    have h := findKeywordIndex_split A3.length hspA3
      (by rw [lowerList_length, hA4]; simp only [List.length_append]; omega)
      (by decide) (by decide)
      (by rw [show lowerList "DEBIT".data = "debit".data from by decide, hdropA3]
          exact noOcc_tok_sp (by decide) (by decide) s7 (by decide))
      (Or.inr (by rw [hdropA3]; exact ends_sp_1 _ s7))
    rwa [lowerList_length] at h
  have hshA4 : CORE = A5 ++ (k1 ++ T9) := by
    rw [hCORE, hT1, hT2, hT3, hT4, hT5, hT6, hT7, hT8, hA5, hA4, hA3, hA2, hA1]
    simp [List.append_assoc]
  have hspA4 : lowerList CORE = lowerList A5 ++ (lowerList "FROM".data ++ lowerList T9) := by
    rw [hshA4, lowerList_append A5 (k1 ++ T9), lowerList_append k1 T9, hk1,
        show lowerList "FROM".data = "from".data from by decide]
  have hdropA4 : (lowerList A5).drop (A4.length + 5) = sp s8 := by
    rw [hA5, lowerList_append A4 (kd ++ sp s8),
        show lowerList (kd ++ sp s8) = "debit".data ++ sp s8 from by
          rw [lowerList_append kd (sp s8), hkd, sp_lower],
        ← List.append_assoc]
    exact drop_segment (by rw [List.length_append (lowerList A4) _, lowerList_length, hdeb])
  have hsA4 : findKeywordIndex CORE "FROM".data (A4.length + 5) = some A5.length := by
    have h := findKeywordIndex_split (A4.length + 5) hspA4
      (by rw [lowerList_length, hA5]; simp only [List.length_append, sp_length, lkd]; omega)
      (by decide) (by decide)
      (by rw [show lowerList "FROM".data = "from".data from by decide, hdropA4]
          exact noOcc_sp (by decide) (by decide) s8)
      (Or.inr (by rw [hdropA4]; exact spaces_ends_sp s8))
    rwa [lowerList_length] at h
  have hshA5 : CORE = A6 ++ (a2 ++ T10) := by
    rw [hCORE, hT1, hT2, hT3, hT4, hT5, hT6, hT7, hT8, hT9, hA6, hA5, hA4, hA3, hA2, hA1]
    simp [List.append_assoc]
  have hspA5 : lowerList CORE = lowerList A6 ++ (lowerList "ACCOUNT".data ++ lowerList T10) := by
    rw [hshA5, lowerList_append A6 (a2 ++ T10), lowerList_append a2 T10, ha2,
        show lowerList "ACCOUNT".data = "account".data from by decide]
  have hdropA5 : (lowerList A6).drop A5.length = "from".data ++ sp s9 := by
    rw [hA6, lowerList_append A5 (k1 ++ sp s9),
        drop_segment (lowerList_length A5).symm,
        lowerList_append k1 (sp s9), hk1, sp_lower]
  have hsA5 : findKeywordIndex CORE "ACCOUNT".data A5.length = some A6.length := by
    have h := findKeywordIndex_split A5.length hspA5
      (by rw [lowerList_length, hA6]; simp only [List.length_append]; omega)
      (by decide) (by decide)
      (by rw [show lowerList "ACCOUNT".data = "account".data from by decide, hdropA5]
          exact noOcc_tok_sp (by decide) (by decide) s9 (by decide))
      (Or.inr (by rw [hdropA5]; exact ends_sp_1 _ s9))
    rwa [lowerList_length] at h
  have hlowFull : lowerList CORE = (lowerList A6 ++ "account".data) ++ (sp s10 ++ lowerList da) := by
    rw [hshA5, hT10, lowerList_append A6 (a2 ++ (sp s10 ++ da)),
        lowerList_append a2 (sp s10 ++ da), lowerList_append (sp s10) da,
        ha2, sp_lower, ← List.append_assoc]
  have hsOn : findKeywordIndex CORE "ON".data (A6.length + 7) = none := by
    unfold findKeywordIndex jsIndexOf
    rw [show lowerList "ON".data = "on".data from by decide, hlowFull,
        drop_segment (by rw [List.length_append (lowerList A6) _, lowerList_length, hacc]),
        noOcc_sp_then (by decide) (by decide) s10 hdao]
    rfl
  have hseg1 : extractBetween CORE 6 (some A1.length) = am ++ (sp s2 ++ cu) := by
    show trimList (jsSubstring CORE 6 A1.length) = am ++ (sp s2 ++ cu)
    have hshape : CORE = kc ++ (sp s1 ++ (am ++ (sp s2 ++ (cu ++ sp s3)))) ++ (k4 ++ T4) := by
      rw [hCORE, hT1, hT2, hT3]
      simp [List.append_assoc]
    have hb1 : A1.length = kc.length + (sp s1 ++ (am ++ (sp s2 ++ (cu ++ sp s3)))).length := by
      have h := congrArg List.length hA1
      simp only [List.length_append] at h ⊢
      omega
    rw [hshape, jsSubstring_segment lkc.symm hb1]
    have hsh2 : sp s1 ++ (am ++ (sp s2 ++ (cu ++ sp s3))) = sp s1 ++ ((am ++ (sp s2 ++ cu)) ++ sp s3) := by
      simp [List.append_assoc]
    rw [hsh2]
    refine trimList_eq (sp_all_space s1) (sp_all_space s3) (comp_head ham_ne ham_ns) ?_
    rw [← List.append_assoc]
    exact comp_last hcu_ne hcu_ns
  have htoks : (splitChar ' ' (am ++ (sp s2 ++ cu))).filter (fun tok => tok.length > 0) = [am, cu] :=
    tokens_two ham_nsp hcu_nsp ham_ne hcu_ne s2
  have hsegCa : extractBetween CORE (A2.length + 7) (some A3.length) = ca := by
    show trimList (jsSubstring CORE (A2.length + 7) A3.length) = ca
    have hshape : CORE = (A2 ++ a1) ++ (sp s5 ++ (ca ++ sp s6)) ++ (k2 ++ T7) := by
      rw [hCORE, hT1, hT2, hT3, hT4, hT5, hT6, hA2, hA1]
      simp [List.append_assoc]
    have haD : A2.length + 7 = (A2 ++ a1).length := by
      rw [List.length_append A2 a1, la1]
    have hbD : A3.length = (A2 ++ a1).length + (sp s5 ++ (ca ++ sp s6)).length := by
      have h := congrArg List.length hA3
      simp only [List.length_append] at h ⊢
      omega
    rw [hshape, jsSubstring_segment haD hbD]
    exact trimList_eq (sp_all_space s5) (sp_all_space s6)
      (clean_head hca_ne hca_ns) (clean_last hca_ne hca_ns)
  have hsegDa : extractBetween CORE (A6.length + 7) none = da := by
    show trimList (CORE.drop (A6.length + 7)) = da
    have hshape : CORE = (A6 ++ a2) ++ (sp s10 ++ da) := by
      rw [hshA5, hT10]
      simp [List.append_assoc]
    rw [hshape, drop_segment (by rw [List.length_append A6 a2, la2])]
    rw [show sp s10 ++ da = sp s10 ++ (da ++ []) from by simp]
    exact trimList_eq (sp_all_space s10) (by simp)
      (clean_head hda_ne hda_ns) (clean_last hda_ne hda_ns)
  unfold parseInstruction
  simp only []
  rw [htrim]
  rw [if_neg (fun hcon => hcon.2 hsC), if_neg hnotD]
  simp only [hsT, hseg1, htoks, hsA1, hsA2, hsA3, hsA4, hsA5, hsOn, hsegCa, hsegDa,
    trimList_clean hda_ne hda_ns, trimList_clean hca_ne hca_ns]
  rfl

/-- The parser on a well-formed CREDIT rendering with an ON clause. -/
theorem parse_credit_withOn
    (bw ew kc am cu da ca k1 a1 k2 kd k4 a2 ko dt : List Char)
    (s1 s2 s3 s4 s5 s6 s7 s8 s9 s10 s11 s12 : Nat)
    (hbw : ∀ c ∈ bw, isJsSpace c = true) (hew : ∀ c ∈ ew, isJsSpace c = true)
    (hkc : lowerList kc = "credit".data) (hk1 : lowerList k1 = "from".data)
    (ha1 : lowerList a1 = "account".data) (hk2 : lowerList k2 = "for".data)
    (hkd : lowerList kd = "debit".data) (hk4 : lowerList k4 = "to".data)
    (ha2 : lowerList a2 = "account".data) (hko : lowerList ko = "on".data)
    (ham : cleanTok am = true) (hcu : cleanTok cu = true)
    (hda : cleanTok da = true) (hca : cleanTok ca = true) (hdt : cleanTok dt = true)
    (hamt : scanFor "to".data (lowerList am) 0 = none)
    (hcut : scanFor "to".data (lowerList cu) 0 = none)
    (hcaf : scanFor "for".data (lowerList ca) 0 = none)
    (hdao : scanFor "on".data (lowerList da) 0 = none) :
    parseInstruction (String.mk (bw ++ ((kc ++ (sp s1 ++ (am ++ (sp s2 ++ (cu ++ (sp s3 ++ (k4 ++ (sp s4 ++ (a1 ++ (sp s5 ++ (ca ++ (sp s6 ++ (k2 ++ (sp s7 ++ (kd ++ (sp s8 ++ (k1 ++ (sp s9 ++ (a2 ++ (sp s10 ++ (da ++ (sp s11 ++ (ko ++ (sp s12 ++ dt)))))))))))))))))))))))) ++ ew))) =
      some ⟨"CREDIT", String.mk am, String.mk (upperList cu), String.mk da,
            String.mk ca, some (String.mk dt)⟩ := by
  obtain ⟨ham_ne, ham_ns, ham_nsp⟩ := cleanTok_spec ham
  obtain ⟨hcu_ne, hcu_ns, hcu_nsp⟩ := cleanTok_spec hcu
  obtain ⟨hda_ne, hda_ns, hda_nsp⟩ := cleanTok_spec hda
  obtain ⟨hca_ne, hca_ns, hca_nsp⟩ := cleanTok_spec hca
  obtain ⟨hdt_ne, hdt_ns, hdt_nsp⟩ := cleanTok_spec hdt
  obtain ⟨hkc_ne, hkc_ns⟩ := kw_clean hkc (by decide) (by decide)
  have lkc : kc.length = 6 := by rw [← lowerList_length, hkc]; decide
  have la1 : a1.length = 7 := by rw [← lowerList_length, ha1]; decide
  have la2 : a2.length = 7 := by rw [← lowerList_length, ha2]; decide
  have lkd : kd.length = 5 := by rw [← lowerList_length, hkd]; decide
  have hacc : ("account".data).length = 7 := by decide
  have hdeb : ("debit".data).length = 5 := by decide
  have lko : ko.length = 2 := by rw [← lowerList_length, hko]; decide
  set T12 : List Char := sp s12 ++ dt with hT12
  set T11 : List Char := sp s11 ++ (ko ++ T12) with hT11
  set T10 : List Char := sp s10 ++ (da ++ T11) with hT10
  set T9 : List Char := sp s9 ++ (a2 ++ T10) with hT9
  set T8 : List Char := sp s8 ++ (k1 ++ T9) with hT8
  set T7 : List Char := sp s7 ++ (kd ++ T8) with hT7
  set T6 : List Char := sp s6 ++ (k2 ++ T7) with hT6
  set T5 : List Char := sp s5 ++ (ca ++ T6) with hT5
  set T4 : List Char := sp s4 ++ (a1 ++ T5) with hT4
  set T3 : List Char := sp s3 ++ (k4 ++ T4) with hT3
  set T2 : List Char := sp s2 ++ (cu ++ T3) with hT2
  set T1 : List Char := sp s1 ++ (am ++ T2) with hT1
  set CORE : List Char := kc ++ T1 with hCORE
  set A1 : List Char := kc ++ (sp s1 ++ (am ++ (sp s2 ++ (cu ++ sp s3)))) with hA1
  set A2 : List Char := A1 ++ (k4 ++ sp s4) with hA2
  set A3 : List Char := A2 ++ (a1 ++ (sp s5 ++ (ca ++ sp s6))) with hA3
  set A4 : List Char := A3 ++ (k2 ++ sp s7) with hA4
  set A5 : List Char := A4 ++ (kd ++ sp s8) with hA5
  set A6 : List Char := A5 ++ (k1 ++ sp s9) with hA6
  set A7 : List Char := A6 ++ (a2 ++ (sp s10 ++ (da ++ sp s11))) with hA7
  have htrim : trimList (bw ++ (CORE ++ ew)) = CORE := by
    refine trimList_eq hbw hew ?_ ?_
    · rw [hCORE]
      exact comp_head hkc_ne hkc_ns
    · have hsh : CORE = (kc ++ (sp s1 ++ (am ++ (sp s2 ++ (cu ++ (sp s3 ++ (k4 ++ (sp s4 ++ (a1 ++ (sp s5 ++ (ca ++ (sp s6 ++ (k2 ++ (sp s7 ++ (kd ++ (sp s8 ++ (k1 ++ (sp s9 ++ (a2 ++ (sp s10 ++ (da ++ (sp s11 ++ (ko ++ sp s12))))))))))))))))))))))) ++ dt := by
        rw [hCORE, hT1, hT2, hT3, hT4, hT5, hT6, hT7, hT8, hT9, hT10, hT11, hT12]
        simp [List.append_assoc]
      rw [hsh]
      exact comp_last hdt_ne hdt_ns
  have hspC : lowerList CORE = [] ++ (lowerList "CREDIT".data ++ lowerList T1) := by
    rw [hCORE, lowerList_append kc T1, hkc, List.nil_append,
        show lowerList "CREDIT".data = "credit".data from by decide]
  have hsC : findKeywordIndex CORE "CREDIT".data 0 = some 0 := by
    have h := findKeywordIndex_split 0 hspC (by simp) (by decide) (by decide)
      (by decide) (Or.inl rfl)
    simpa using h
  have hnotD : ¬ (findKeywordIndex CORE "DEBIT".data 0 = some 0) := by
    intro hcon
    unfold findKeywordIndex jsIndexOf at hcon
    obtain ⟨j, hj, hje⟩ := Option.map_eq_some'.mp hcon
    have hj0 : j = 0 := by omega
    subst hj0
    have hnpre : (lowerList "DEBIT".data).isPrefixOf ((lowerList CORE).drop 0) = false := by
      rw [List.drop_zero, hspC, List.nil_append,
          show lowerList "CREDIT".data = 'c' :: "redit".data from by decide,
          show lowerList "DEBIT".data = 'd' :: "ebit".data from by decide,
          List.cons_append]
      exact isPrefixOf_head_ne (by decide)
    exact scanFor_ne_some_of_not_isPrefixOf (by rw [hnpre]; simp) 0 hj
  have hshT : CORE = A1 ++ (k4 ++ T4) := by
    rw [hCORE, hT1, hT2, hT3, hA1]
    simp [List.append_assoc]
  have hspT : lowerList CORE = lowerList A1 ++ (lowerList "TO".data ++ lowerList T4) := by
    rw [hshT, lowerList_append A1 (k4 ++ T4), lowerList_append k4 T4, hk4,
        show lowerList "TO".data = "to".data from by decide]
  have hdropT : (lowerList A1).drop 6 = sp s1 ++ (lowerList am ++ (sp s2 ++ (lowerList cu ++ sp s3))) := by
    rw [hA1]
    simp only [lowerList_append, sp_lower]
    rw [hkc]
    exact drop_segment (by decide)
  have hsT : findKeywordIndex CORE "TO".data 6 = some A1.length := by
    have h := findKeywordIndex_split 6 hspT
      (by rw [lowerList_length, hA1]; simp only [List.length_append, sp_length, lkc]; omega)
      (by decide) (by decide)
      (by rw [show lowerList "TO".data = "to".data from by decide, hdropT]
          exact noOcc_sp_then (by decide) (by decide) s1
            (noOcc_tok_then (by decide) (by decide) hamt
              (noOcc_sp_then (by decide) (by decide) s2
                (noOcc_tok_sp (by decide) (by decide) s3 hcut))
              (sp_starts s2 _)))
      (Or.inr (by rw [hdropT]; exact ends_sp_4 _ _ _ _ s3))
    rwa [lowerList_length] at h
  have hshA1 : CORE = A2 ++ (a1 ++ T5) := by
    rw [hCORE, hT1, hT2, hT3, hT4, hA2, hA1]
    simp [List.append_assoc]
  have hspA1 : lowerList CORE = lowerList A2 ++ (lowerList "ACCOUNT".data ++ lowerList T5) := by
    rw [hshA1, lowerList_append A2 (a1 ++ T5), lowerList_append a1 T5, ha1,
        show lowerList "ACCOUNT".data = "account".data from by decide]
  have hdropA1 : (lowerList A2).drop A1.length = "to".data ++ sp s4 := by
    rw [hA2, lowerList_append A1 (k4 ++ sp s4),
        drop_segment (lowerList_length A1).symm,
        lowerList_append k4 (sp s4), hk4, sp_lower]
  have hsA1 : findKeywordIndex CORE "ACCOUNT".data A1.length = some A2.length := by
    have h := findKeywordIndex_split A1.length hspA1
      (by rw [lowerList_length, hA2]; simp only [List.length_append]; omega)
      (by decide) (by decide)
      (by rw [show lowerList "ACCOUNT".data = "account".data from by decide, hdropA1]
          exact noOcc_tok_sp (by decide) (by decide) s4 (by decide))
      (Or.inr (by rw [hdropA1]; exact ends_sp_1 _ s4))
    rwa [lowerList_length] at h
  have hshA2 : CORE = A3 ++ (k2 ++ T7) := by
    rw [hCORE, hT1, hT2, hT3, hT4, hT5, hT6, hA3, hA2, hA1]
    simp [List.append_assoc]
  have hspA2 : lowerList CORE = lowerList A3 ++ (lowerList "FOR".data ++ lowerList T7) := by
    rw [hshA2, lowerList_append A3 (k2 ++ T7), lowerList_append k2 T7, hk2,
        show lowerList "FOR".data = "for".data from by decide]
  have hdropA2 : (lowerList A3).drop (A2.length + 7) = sp s5 ++ (lowerList ca ++ sp s6) := by
    rw [hA3, lowerList_append A2 (a1 ++ (sp s5 ++ (ca ++ sp s6))),
        show lowerList (a1 ++ (sp s5 ++ (ca ++ sp s6))) = "account".data ++ (sp s5 ++ (lowerList ca ++ sp s6)) from by
          rw [lowerList_append a1 (sp s5 ++ (ca ++ sp s6)),
              lowerList_append (sp s5) (ca ++ sp s6),
              lowerList_append ca (sp s6), ha1, sp_lower, sp_lower],
        ← List.append_assoc]
    exact drop_segment (by rw [List.length_append (lowerList A2) _, lowerList_length, hacc])
  have hsA2 : findKeywordIndex CORE "FOR".data (A2.length + 7) = some A3.length := by
    have h := findKeywordIndex_split (A2.length + 7) hspA2
      (by rw [lowerList_length, hA3]; simp only [List.length_append, sp_length, la1]; omega)
      (by decide) (by decide)
      (by rw [show lowerList "FOR".data = "for".data from by decide, hdropA2]
          exact noOcc_sp_then (by decide) (by decide) s5
            (noOcc_tok_sp (by decide) (by decide) s6 hcaf))
      (Or.inr (by rw [hdropA2]; exact ends_sp_2 _ _ s6))
    rwa [lowerList_length] at h
  have hshA3 : CORE = A4 ++ (kd ++ T8) := by
    rw [hCORE, hT1, hT2, hT3, hT4, hT5, hT6, hT7, hA4, hA3, hA2, hA1]
    simp [List.append_assoc]
  have hspA3 : lowerList CORE = lowerList A4 ++ (lowerList "DEBIT".data ++ lowerList T8) := by
    rw [hshA3, lowerList_append A4 (kd ++ T8), lowerList_append kd T8, hkd,
        show lowerList "DEBIT".data = "debit".data from by decide]
  have hdropA3 : (lowerList A4).drop A3.length = "for".data ++ sp s7 := by
    rw [hA4, lowerList_append A3 (k2 ++ sp s7),
        drop_segment (lowerList_length A3).symm,
        lowerList_append k2 (sp s7), hk2, sp_lower]
  have hsA3 : findKeywordIndex CORE "DEBIT".data A3.length = some A4.length := by
    have h := findKeywordIndex_split A3.length hspA3
      (by rw [lowerList_length, hA4]; simp only [List.length_append]; omega)
      (by decide) (by decide)
      (by rw [show lowerList "DEBIT".data = "debit".data from by decide, hdropA3]
          exact noOcc_tok_sp (by decide) (by decide) s7 (by decide))
      (Or.inr (by rw [hdropA3]; exact ends_sp_1 _ s7))
    rwa [lowerList_length] at h
  have hshA4 : CORE = A5 ++ (k1 ++ T9) := by
    rw [hCORE, hT1, hT2, hT3, hT4, hT5, hT6, hT7, hT8, hA5, hA4, hA3, hA2, hA1]
    simp [List.append_assoc]
  have hspA4 : lowerList CORE = lowerList A5 ++ (lowerList "FROM".data ++ lowerList T9) := by
    rw [hshA4, lowerList_append A5 (k1 ++ T9), lowerList_append k1 T9, hk1,
        show lowerList "FROM".data = "from".data from by decide]
  have hdropA4 : (lowerList A5).drop (A4.length + 5) = sp s8 := by
    rw [hA5, lowerList_append A4 (kd ++ sp s8),
        show lowerList (kd ++ sp s8) = "debit".data ++ sp s8 from by
          rw [lowerList_append kd (sp s8), hkd, sp_lower],
        ← List.append_assoc]
    exact drop_segment (by rw [List.length_append (lowerList A4) _, lowerList_length, hdeb])
  have hsA4 : findKeywordIndex CORE "FROM".data (A4.length + 5) = some A5.length := by
    have h := findKeywordIndex_split (A4.length + 5) hspA4
      (by rw [lowerList_length, hA5]; simp only [List.length_append, sp_length, lkd]; omega)
      (by decide) (by decide)
      (by rw [show lowerList "FROM".data = "from".data from by decide, hdropA4]
          exact noOcc_sp (by decide) (by decide) s8)
      (Or.inr (by rw [hdropA4]; exact spaces_ends_sp s8))
    rwa [lowerList_length] at h
  have hshA5 : CORE = A6 ++ (a2 ++ T10) := by
    rw [hCORE, hT1, hT2, hT3, hT4, hT5, hT6, hT7, hT8, hT9, hA6, hA5, hA4, hA3, hA2, hA1]
    simp [List.append_assoc]
  have hspA5 : lowerList CORE = lowerList A6 ++ (lowerList "ACCOUNT".data ++ lowerList T10) := by
    rw [hshA5, lowerList_append A6 (a2 ++ T10), lowerList_append a2 T10, ha2,
        show lowerList "ACCOUNT".data = "account".data from by decide]
  have hdropA5 : (lowerList A6).drop A5.length = "from".data ++ sp s9 := by
    rw [hA6, lowerList_append A5 (k1 ++ sp s9),
        drop_segment (lowerList_length A5).symm,
        lowerList_append k1 (sp s9), hk1, sp_lower]
  have hsA5 : findKeywordIndex CORE "ACCOUNT".data A5.length = some A6.length := by
    have h := findKeywordIndex_split A5.length hspA5
      (by rw [lowerList_length, hA6]; simp only [List.length_append]; omega)
      (by decide) (by decide)
      (by rw [show lowerList "ACCOUNT".data = "account".data from by decide, hdropA5]
          exact noOcc_tok_sp (by decide) (by decide) s9 (by decide))
      (Or.inr (by rw [hdropA5]; exact ends_sp_1 _ s9))
    rwa [lowerList_length] at h
  have hshOn : CORE = A7 ++ (ko ++ T12) := by
    rw [hCORE, hT1, hT2, hT3, hT4, hT5, hT6, hT7, hT8, hT9, hT10, hT11, hA7, hA6, hA5, hA4, hA3, hA2, hA1]
    simp [List.append_assoc]
  have hspOn : lowerList CORE = lowerList A7 ++ (lowerList "ON".data ++ lowerList T12) := by
    rw [hshOn, lowerList_append A7 (ko ++ T12), lowerList_append ko T12, hko,
        show lowerList "ON".data = "on".data from by decide]
  have hdropOn : (lowerList A7).drop (A6.length + 7) = sp s10 ++ (lowerList da ++ sp s11) := by
    rw [hA7, lowerList_append A6 (a2 ++ (sp s10 ++ (da ++ sp s11))),
        show lowerList (a2 ++ (sp s10 ++ (da ++ sp s11))) = "account".data ++ (sp s10 ++ (lowerList da ++ sp s11)) from by
          rw [lowerList_append a2 (sp s10 ++ (da ++ sp s11)),
              lowerList_append (sp s10) (da ++ sp s11),
              lowerList_append da (sp s11), ha2, sp_lower, sp_lower],
        ← List.append_assoc]
    exact drop_segment (by rw [List.length_append (lowerList A6) _, lowerList_length, hacc])
  have hsOn : findKeywordIndex CORE "ON".data (A6.length + 7) = some A7.length := by
    have h := findKeywordIndex_split (A6.length + 7) hspOn
      (by rw [lowerList_length, hA7]; simp only [List.length_append, sp_length, la2]; omega)
      (by decide) (by decide)
      (by rw [show lowerList "ON".data = "on".data from by decide, hdropOn]
          exact noOcc_sp_then (by decide) (by decide) s10
            (noOcc_tok_sp (by decide) (by decide) s11 hdao))
      (Or.inr (by rw [hdropOn]; exact ends_sp_2 _ _ s11))
    rwa [lowerList_length] at h
  have hseg1 : extractBetween CORE 6 (some A1.length) = am ++ (sp s2 ++ cu) := by
    show trimList (jsSubstring CORE 6 A1.length) = am ++ (sp s2 ++ cu)
    have hshape : CORE = kc ++ (sp s1 ++ (am ++ (sp s2 ++ (cu ++ sp s3)))) ++ (k4 ++ T4) := by
      rw [hCORE, hT1, hT2, hT3]
      simp [List.append_assoc]
    have hb1 : A1.length = kc.length + (sp s1 ++ (am ++ (sp s2 ++ (cu ++ sp s3)))).length := by
      have h := congrArg List.length hA1
      simp only [List.length_append] at h ⊢
      omega
    rw [hshape, jsSubstring_segment lkc.symm hb1]
    have hsh2 : sp s1 ++ (am ++ (sp s2 ++ (cu ++ sp s3))) = sp s1 ++ ((am ++ (sp s2 ++ cu)) ++ sp s3) := by
      simp [List.append_assoc]
    rw [hsh2]
    refine trimList_eq (sp_all_space s1) (sp_all_space s3) (comp_head ham_ne ham_ns) ?_
    rw [← List.append_assoc]
    exact comp_last hcu_ne hcu_ns
  have htoks : (splitChar ' ' (am ++ (sp s2 ++ cu))).filter (fun tok => tok.length > 0) = [am, cu] :=
    tokens_two ham_nsp hcu_nsp ham_ne hcu_ne s2
  have hsegCa : extractBetween CORE (A2.length + 7) (some A3.length) = ca := by
    show trimList (jsSubstring CORE (A2.length + 7) A3.length) = ca
    have hshape : CORE = (A2 ++ a1) ++ (sp s5 ++ (ca ++ sp s6)) ++ (k2 ++ T7) := by
      rw [hCORE, hT1, hT2, hT3, hT4, hT5, hT6, hA2, hA1]
      simp [List.append_assoc]
    have haD : A2.length + 7 = (A2 ++ a1).length := by
      rw [List.length_append A2 a1, la1]
    have hbD : A3.length = (A2 ++ a1).length + (sp s5 ++ (ca ++ sp s6)).length := by
      have h := congrArg List.length hA3
      simp only [List.length_append] at h ⊢
      omega
    rw [hshape, jsSubstring_segment haD hbD]
    exact trimList_eq (sp_all_space s5) (sp_all_space s6)
      (clean_head hca_ne hca_ns) (clean_last hca_ne hca_ns)
  have hsegDa : extractBetween CORE (A6.length + 7) (some A7.length) = da := by
    show trimList (jsSubstring CORE (A6.length + 7) A7.length) = da
    have hshape : CORE = (A6 ++ a2) ++ (sp s10 ++ (da ++ sp s11)) ++ (ko ++ T12) := by
      rw [hCORE, hT1, hT2, hT3, hT4, hT5, hT6, hT7, hT8, hT9, hT10, hT11, hA6, hA5, hA4, hA3, hA2, hA1]
      simp [List.append_assoc]
    have haC : A6.length + 7 = (A6 ++ a2).length := by
      rw [List.length_append A6 a2, la2]
    have hbC : A7.length = (A6 ++ a2).length + (sp s10 ++ (da ++ sp s11)).length := by
      have h := congrArg List.length hA7
      simp only [List.length_append] at h ⊢
      omega
    rw [hshape, jsSubstring_segment haC hbC]
    exact trimList_eq (sp_all_space s10) (sp_all_space s11)
      (clean_head hda_ne hda_ns) (clean_last hda_ne hda_ns)
  have hsegE : extractBetween CORE (A7.length + 2) none = dt := by
    show trimList (CORE.drop (A7.length + 2)) = dt
    have hshape : CORE = (A7 ++ ko) ++ (sp s12 ++ dt) := by
      rw [hCORE, hT1, hT2, hT3, hT4, hT5, hT6, hT7, hT8, hT9, hT10, hT11, hT12, hA7, hA6, hA5, hA4, hA3, hA2, hA1]
      simp [List.append_assoc]
    rw [hshape, drop_segment (by rw [List.length_append A7 ko, lko])]
    rw [show sp s12 ++ dt = sp s12 ++ (dt ++ []) from by simp]
    exact trimList_eq (sp_all_space s12) (by simp)
      (clean_head hdt_ne hdt_ns) (clean_last hdt_ne hdt_ns)
  have hex : mkExecuteBy (some dt) = some (String.mk dt) := by
    show (if dt.isEmpty then none else some (String.mk dt)) = some (String.mk dt)
    rw [if_neg (fun h => hdt_ne (by simpa using h))]
  unfold parseInstruction
  simp only []
  rw [htrim]
  rw [if_neg (fun hcon => hcon.2 hsC), if_neg hnotD]
  simp only [hsT, hseg1, htoks, hsA1, hsA2, hsA3, hsA4, hsA5, hsOn, hsegCa, hsegDa, hsegE,
    trimList_clean hda_ne hda_ns, trimList_clean hca_ne hca_ns,
    trimList_clean hdt_ne hdt_ns, hex]

/-- A keyword absent (case-insensitively) from the whole instruction is not
found by any search, whatever the start position. -/
theorem findKeywordIndex_none_of_absent {t kw : List Char}
    (hp : lowerList kw ≠ [])
    (habs : scanFor (lowerList kw) (lowerList t) 0 = none) (i : Nat) :
    findKeywordIndex t kw i = none := by
  unfold findKeywordIndex jsIndexOf
  rw [scanFor_none_drop hp habs i 0]
  rfl

/-- A string whose trimmed text does not start (case-insensitively) with
DEBIT or CREDIT parses to `none`. -/
theorem parse_none_of_not_leading (s : String)
    (hd : ¬ findKeywordIndex (trimList s.data) "DEBIT".data 0 = some 0)
    (hc : ¬ findKeywordIndex (trimList s.data) "CREDIT".data 0 = some 0) :
    parseInstruction s = none := by
  unfold parseInstruction
  simp only []
  rw [if_pos ⟨hd, hc⟩]

/-- A string from which any one of the six grammar keywords is absent
(case-insensitively) parses to `none`. -/
theorem parse_none_of_absent (s : String) {kw : List Char}
    (hmem : kw = "DEBIT".data ∨ kw = "CREDIT".data ∨ kw = "FROM".data ∨
      kw = "ACCOUNT".data ∨ kw = "FOR".data ∨ kw = "TO".data)
    (habs : scanFor (lowerList kw) (lowerList (trimList s.data)) 0 = none) :
    parseInstruction s = none := by
  rcases hmem with rfl | rfl | rfl | rfl | rfl | rfl
  · have hnone : ∀ i, findKeywordIndex (trimList s.data) ['D', 'E', 'B', 'I', 'T'] i = none :=
      findKeywordIndex_none_of_absent (by decide) habs
    unfold parseInstruction
    simp only []
    repeat' split <;> first | rfl | simp_all | skip
  · have hnone : ∀ i, findKeywordIndex (trimList s.data) ['C', 'R', 'E', 'D', 'I', 'T'] i = none :=
      findKeywordIndex_none_of_absent (by decide) habs
    unfold parseInstruction
    simp only []
    repeat' split <;> first | rfl | simp_all | skip
  · have hnone : ∀ i, findKeywordIndex (trimList s.data) ['F', 'R', 'O', 'M'] i = none :=
      findKeywordIndex_none_of_absent (by decide) habs
    unfold parseInstruction
    simp only []
    repeat' split <;> first | rfl | simp_all | skip
  · have hnone : ∀ i, findKeywordIndex (trimList s.data) ['A', 'C', 'C', 'O', 'U', 'N', 'T'] i = none :=
      findKeywordIndex_none_of_absent (by decide) habs
    unfold parseInstruction
    simp only []
    repeat' split <;> first | rfl | simp_all | skip
  · have hnone : ∀ i, findKeywordIndex (trimList s.data) ['F', 'O', 'R'] i = none :=
      findKeywordIndex_none_of_absent (by decide) habs
    unfold parseInstruction
    simp only []
    repeat' split <;> first | rfl | simp_all | skip
  · have hnone : ∀ i, findKeywordIndex (trimList s.data) ['T', 'O'] i = none :=
      findKeywordIndex_none_of_absent (by decide) habs
    unfold parseInstruction
    simp only []
    repeat' split <;> first | rfl | simp_all | skip

/-- C5 counterexample: the parser is driven by case-insensitive substring
search and single-space splitting, not by token structure.  (1) In a
well-formed instruction whose credit-account token is `bond`, the ON-keyword
search matches inside `bond`, so the parser returns creditAccount `"b"` and
executeBy `"d"` instead of the canonical `"bond"`/null.  (2) A tab between
amount and currency is "extra whitespace", yet the split on `' '` leaves one
token, and the parse returns null rather than the canonical fields. -/
theorem c5_parser_counterexample :
    parseInstruction "DEBIT 30 USD FROM ACCOUNT a FOR CREDIT TO ACCOUNT bond" =
      some ⟨"DEBIT", "30", "USD", "a", "b", some "d"⟩ ∧
    parseInstruction "DEBIT 30\tUSD FROM ACCOUNT a FOR CREDIT TO ACCOUNT b" = none := by
  decide

/-- C5 (amended): the parser is correct on renderings whose inter-token
separators are runs of spaces, whose leading/trailing whitespace is
arbitrary, whose keywords carry any letter casing, and whose tokens are
nonempty, whitespace-free and do not contain (case-insensitively) the
keyword that is searched across them (FROM across amount/currency for
DEBIT forms, TO for CREDIT forms; FOR across the first account token; ON
across the account token preceding the optional ON clause).  On such
DEBIT/CREDIT forms, with or without an ON date, all tokens come back in
original case except the currency, which is upper-cased.  Moreover a string
whose trimmed text does not start with DEBIT or CREDIT, or from which any
grammar keyword is absent, parses to null. -/
theorem c5_parser_amended :
    (∀ bw ew kd am cu da ca k1 a1 k2 k3 k4 a2 : List Char,
      ∀ s1 s2 s3 s4 s5 s6 s7 s8 s9 s10 : Nat,
      (∀ c ∈ bw, isJsSpace c = true) → (∀ c ∈ ew, isJsSpace c = true) →
      lowerList kd = "debit".data → lowerList k1 = "from".data →
      lowerList a1 = "account".data → lowerList k2 = "for".data →
      lowerList k3 = "credit".data → lowerList k4 = "to".data →
      lowerList a2 = "account".data →
      cleanTok am = true → cleanTok cu = true →
      cleanTok da = true → cleanTok ca = true →
      scanFor "from".data (lowerList am) 0 = none →
      scanFor "from".data (lowerList cu) 0 = none →
      scanFor "for".data (lowerList da) 0 = none →
      scanFor "on".data (lowerList ca) 0 = none →
      parseInstruction (String.mk (bw ++ ((kd ++ (sp s1 ++ (am ++ (sp s2 ++ (cu ++ (sp s3 ++ (k1 ++ (sp s4 ++ (a1 ++ (sp s5 ++ (da ++ (sp s6 ++ (k2 ++ (sp s7 ++ (k3 ++ (sp s8 ++ (k4 ++ (sp s9 ++ (a2 ++ (sp s10 ++ ca)))))))))))))))))))) ++ ew))) =
        some ⟨"DEBIT", String.mk am, String.mk (upperList cu), String.mk da,
              String.mk ca, none⟩) ∧
    (∀ bw ew kd am cu da ca k1 a1 k2 k3 k4 a2 ko dt : List Char,
      ∀ s1 s2 s3 s4 s5 s6 s7 s8 s9 s10 s11 s12 : Nat,
      (∀ c ∈ bw, isJsSpace c = true) → (∀ c ∈ ew, isJsSpace c = true) →
      lowerList kd = "debit".data → lowerList k1 = "from".data →
      lowerList a1 = "account".data → lowerList k2 = "for".data →
      lowerList k3 = "credit".data → lowerList k4 = "to".data →
      lowerList a2 = "account".data → lowerList ko = "on".data →
      cleanTok am = true → cleanTok cu = true →
      cleanTok da = true → cleanTok ca = true → cleanTok dt = true →
      scanFor "from".data (lowerList am) 0 = none →
      scanFor "from".data (lowerList cu) 0 = none →
      scanFor "for".data (lowerList da) 0 = none →
      scanFor "on".data (lowerList ca) 0 = none →
      parseInstruction (String.mk (bw ++ ((kd ++ (sp s1 ++ (am ++ (sp s2 ++ (cu ++ (sp s3 ++ (k1 ++ (sp s4 ++ (a1 ++ (sp s5 ++ (da ++ (sp s6 ++ (k2 ++ (sp s7 ++ (k3 ++ (sp s8 ++ (k4 ++ (sp s9 ++ (a2 ++ (sp s10 ++ (ca ++ (sp s11 ++ (ko ++ (sp s12 ++ dt)))))))))))))))))))))))) ++ ew))) =
        some ⟨"DEBIT", String.mk am, String.mk (upperList cu), String.mk da,
              String.mk ca, some (String.mk dt)⟩) ∧
    (∀ bw ew kc am cu da ca k1 a1 k2 kd k4 a2 : List Char,
      ∀ s1 s2 s3 s4 s5 s6 s7 s8 s9 s10 : Nat,
      (∀ c ∈ bw, isJsSpace c = true) → (∀ c ∈ ew, isJsSpace c = true) →
      lowerList kc = "credit".data → lowerList k1 = "from".data →
      lowerList a1 = "account".data → lowerList k2 = "for".data →
      lowerList kd = "debit".data → lowerList k4 = "to".data →
      lowerList a2 = "account".data →
      cleanTok am = true → cleanTok cu = true →
      cleanTok da = true → cleanTok ca = true →
      scanFor "to".data (lowerList am) 0 = none →
      scanFor "to".data (lowerList cu) 0 = none →
      scanFor "for".data (lowerList ca) 0 = none →
      scanFor "on".data (lowerList da) 0 = none →
      parseInstruction (String.mk (bw ++ ((kc ++ (sp s1 ++ (am ++ (sp s2 ++ (cu ++ (sp s3 ++ (k4 ++ (sp s4 ++ (a1 ++ (sp s5 ++ (ca ++ (sp s6 ++ (k2 ++ (sp s7 ++ (kd ++ (sp s8 ++ (k1 ++ (sp s9 ++ (a2 ++ (sp s10 ++ da)))))))))))))))))))) ++ ew))) =
        some ⟨"CREDIT", String.mk am, String.mk (upperList cu), String.mk da,
              String.mk ca, none⟩) ∧
    (∀ bw ew kc am cu da ca k1 a1 k2 kd k4 a2 ko dt : List Char,
      ∀ s1 s2 s3 s4 s5 s6 s7 s8 s9 s10 s11 s12 : Nat,
      (∀ c ∈ bw, isJsSpace c = true) → (∀ c ∈ ew, isJsSpace c = true) →
      lowerList kc = "credit".data → lowerList k1 = "from".data →
      lowerList a1 = "account".data → lowerList k2 = "for".data →
      lowerList kd = "debit".data → lowerList k4 = "to".data →
      lowerList a2 = "account".data → lowerList ko = "on".data →
      cleanTok am = true → cleanTok cu = true →
      cleanTok da = true → cleanTok ca = true → cleanTok dt = true →
      scanFor "to".data (lowerList am) 0 = none →
      scanFor "to".data (lowerList cu) 0 = none →
      scanFor "for".data (lowerList ca) 0 = none →
      scanFor "on".data (lowerList da) 0 = none →
      parseInstruction (String.mk (bw ++ ((kc ++ (sp s1 ++ (am ++ (sp s2 ++ (cu ++ (sp s3 ++ (k4 ++ (sp s4 ++ (a1 ++ (sp s5 ++ (ca ++ (sp s6 ++ (k2 ++ (sp s7 ++ (kd ++ (sp s8 ++ (k1 ++ (sp s9 ++ (a2 ++ (sp s10 ++ (da ++ (sp s11 ++ (ko ++ (sp s12 ++ dt)))))))))))))))))))))))) ++ ew))) =
        some ⟨"CREDIT", String.mk am, String.mk (upperList cu), String.mk da,
              String.mk ca, some (String.mk dt)⟩) ∧
    (∀ s : String,
      ¬ findKeywordIndex (trimList s.data) "DEBIT".data 0 = some 0 →
      ¬ findKeywordIndex (trimList s.data) "CREDIT".data 0 = some 0 →
      parseInstruction s = none) ∧
    (∀ (s : String) (kw : List Char),
      (kw = "DEBIT".data ∨ kw = "CREDIT".data ∨ kw = "FROM".data ∨
        kw = "ACCOUNT".data ∨ kw = "FOR".data ∨ kw = "TO".data) →
      scanFor (lowerList kw) (lowerList (trimList s.data)) 0 = none →
      parseInstruction s = none) :=
  ⟨parse_debit_noOn, parse_debit_withOn, parse_credit_noOn, parse_credit_withOn,
    parse_none_of_not_leading, fun s kw hmem habs => parse_none_of_absent s hmem habs⟩

/-- C5 witness: the amended theorem applied to a concrete mixed-case DEBIT
rendering with doubled spaces, and to a concrete keyword-free string. -/
theorem c5_parser_amended_witness :
    parseInstruction "DeBiT  30 usd FROM ACCOUNT alice FOR CREDIT TO ACCOUNT bob" =
      some ⟨"DEBIT", "30", "USD", "alice", "bob", none⟩ ∧
    parseInstruction "hello world" = none := by
  constructor
  · have h := c5_parser_amended.1 [] [] "DeBiT".data "30".data "usd".data
      "alice".data "bob".data "FROM".data "ACCOUNT".data "FOR".data
      "CREDIT".data "TO".data "ACCOUNT".data
      1 0 0 0 0 0 0 0 0 0
      (by simp) (by simp) (by decide) (by decide) (by decide) (by decide)
      (by decide) (by decide) (by decide) (by decide) (by decide) (by decide)
      (by decide) (by decide) (by decide) (by decide) (by decide)
    have hs : ("DeBiT  30 usd FROM ACCOUNT alice FOR CREDIT TO ACCOUNT bob" : String) =
        String.mk ([] ++ (("DeBiT".data ++ (sp 1 ++ ("30".data ++ (sp 0 ++ ("usd".data ++ (sp 0 ++ ("FROM".data ++ (sp 0 ++ ("ACCOUNT".data ++ (sp 0 ++ ("alice".data ++ (sp 0 ++ ("FOR".data ++ (sp 0 ++ ("CREDIT".data ++ (sp 0 ++ ("TO".data ++ (sp 0 ++ ("ACCOUNT".data ++ (sp 0 ++ ("bob".data))))))))))))))))))))) ++ [])) := by decide
    rw [hs]
    exact h
  · exact c5_parser_amended.2.2.2.2.1 "hello world" (by decide) (by decide)

end Payment
